import Mathlib

/-! Invaderers: the simulation core of `invaderers_app.h`.

A shallow embedding of the sprite class and of the per-frame simulation of
`octet::invaderers_app`, followed by theorems about collision testing, the
collision consequences and the frame step.

Conventions of the embedding.

* C++ `float` values are idealised as rationals (`ℚ`); the literals `0.3f`,
  `0.05f`, ... are the decimal fractions they denote.  Rounding is outside this
  model.  Where rounding decides a statement (the positions of the invaders
  after the swarm has bounced), the swarm phase is embedded a second time with
  the additions and subtractions of IEEE binary32 (`round32`, `move_swarm32`).
* C++ `int` fields are `Int`; signed overflow (undefined behaviour in C++) is
  outside the model.  The `unsigned` sound cursor wraps modulo `2 ^ 32`.
* The array `sprite sprites[num_sprites]` is a function from indices to sprites;
  only the indices below `num_sprites` are ever read or written.
* Key polling and the random number generator are inputs of the frame.
* Texture handles come from `resource_dict::get_texture_handle`, which is a
  parameter (`tex`, from the asset path to the handle).  OpenAL calls have no
  effect on the game state apart from advancing `cur_source`.
-/

namespace octet

/-- One sprite of the game.

Modelled from the spec: `mat4t` (the placement transform `modelToWorld`) is not
part of the example's source.  Sprites are never rotated or scaled, so the
transform is the identity plus a translation; `x` and `y` are its translation
components `modelToWorld[3][0]` and `modelToWorld[3][1]`. -/
structure sprite where
  x : ℚ
  y : ℚ
  halfWidth : ℚ
  halfHeight : ℚ
  texture : Nat
  enabled : Bool
  lives : Int
deriving DecidableEq

namespace sprite

/-- `sprite::init(_texture, x, y, w, h)`: every field is overwritten. -/
def init (_texture : Nat) (x y w h : ℚ) : sprite :=
  { x := x, y := y, halfWidth := w * (1 / 2), halfHeight := h * (1 / 2),
    texture := _texture, enabled := true, lives := 1 }

/-- `sprite::init(_texture, x, y, w, h, life)`: the overload with a life count. -/
def init_life (_texture : Nat) (x y w h : ℚ) (life : Int) : sprite :=
  { x := x, y := y, halfWidth := w * (1 / 2), halfHeight := h * (1 / 2),
    texture := _texture, enabled := true, lives := life }

/-- `sprite::get_lives_left`. -/
def get_lives_left (p : sprite) : Int := p.lives

/-- `sprite::life_lost`: `--lives`. -/
def life_lost (p : sprite) : sprite := { p with lives := p.lives - 1 }

/-- `sprite::change_texture`. -/
def change_texture (p : sprite) (_texture : Nat) : sprite := { p with texture := _texture }

/-- `sprite::translate`.

Modelled from the spec: `mat4t::translate` on an unrotated transform moves the
sprite by the relative offset `(x, y)`.  The sums are exact; `translate32` rounds them
as `float` additions do. -/
def translate (p : sprite) (x y : ℚ) : sprite := { p with x := p.x + x, y := p.y + y }

/-- `sprite::set_relative`: take the placement of `rhs`, then translate. -/
def set_relative (p rhs : sprite) (x y : ℚ) : sprite := { p with x := rhs.x + x, y := rhs.y + y }

/-- `sprite::collides_with`. -/
def collides_with (p rhs : sprite) : Bool :=
  let dx := rhs.x - p.x
  let dy := rhs.y - p.y
  decide (|dx| < p.halfWidth + rhs.halfWidth) && decide (|dy| < p.halfHeight + rhs.halfHeight)

/-- `sprite::is_above`. -/
def is_above (p rhs : sprite) (margin : ℚ) : Bool :=
  let dx := rhs.x - p.x
  decide (|dx| < p.halfWidth + margin)

/-- `sprite::is_enabled() = b`: assignment through the returned reference. -/
def set_enabled (p : sprite) (b : Bool) : sprite := { p with enabled := b }

end sprite

/-! ## The application state -/

/-- The members of `invaderers_app` that the simulation reads or writes. -/
structure invaderers_app where
  missiles_disabled : Int
  bombs_disabled : Int
  live_invaderers : Int
  game_over : Bool
  game_paused : Bool
  score : Int
  invader_velocity : ℚ
  invader_direction : ℚ
  nRows : Int
  nCols : Int
  nWalls : Int
  nInvaders : Int
  cur_source : Nat
  sprites : Nat → sprite

/-- What one frame reads from the keyboard and from the random number generator. -/
structure input where
  /-- The result of `is_key_down(key_left)`. -/
  key_left : Bool
  /-- The result of `is_key_down(key_right)`. -/
  key_right : Bool
  /-- The result of `is_key_down(key_up)`. -/
  key_up : Bool
  /-- The result of `is_key_down(key_down)`. -/
  key_down : Bool
  /-- The result of `is_key_down(key_R)`. -/
  key_R : Bool
  /-- The result of `is_key_going_down(' ')`. -/
  fire_going_down : Bool
  /-- The result of `is_key_going_down(key_P)`. -/
  key_P_going_down : Bool
  /-- The result of `randomizer.get(0, num_invaderers)`. -/
  random : Nat

/-! ### The enum of sizes and sprite indices -/

abbrev num_sound_sources : Nat := 8
abbrev num_rows : Nat := 14
abbrev num_cols : Nat := 22
abbrev num_missiles : Nat := 2
abbrev num_bombs : Nat := 2
abbrev num_borders : Nat := 5
abbrev num_invaderers : Nat := num_rows * num_cols
abbrev num_walls : Nat := 10

abbrev ship_sprite : Nat := 0
abbrev game_over_sprite : Nat := ship_sprite + 1
abbrev game_won_sprite : Nat := game_over_sprite + 1
abbrev game_restart_sprite : Nat := game_won_sprite + 1
abbrev game_pause_sprite : Nat := game_restart_sprite + 1
abbrev background_sprite : Nat := game_pause_sprite + 1
abbrev first_invaderer_sprite : Nat := background_sprite + 1
abbrev last_invaderer_sprite : Nat := first_invaderer_sprite + num_invaderers - 1
abbrev first_missile_sprite : Nat := last_invaderer_sprite + 1
abbrev last_missile_sprite : Nat := first_missile_sprite + num_missiles - 1
abbrev first_bomb_sprite : Nat := last_missile_sprite + 1
abbrev last_bomb_sprite : Nat := first_bomb_sprite + num_bombs - 1
abbrev first_border_sprite : Nat := last_bomb_sprite + 1
abbrev last_border_sprite : Nat := first_border_sprite + num_borders - 1
abbrev first_wall_sprite : Nat := last_border_sprite + 1
abbrev last_wall_sprite : Nat := first_wall_sprite + num_walls - 1
abbrev num_sprites : Nat := last_wall_sprite + 1

/-! ### Loops -/

/-- The loop `for (int j = 0; j != n; ++j) body(j)` as a state transformer. -/
def for_loop {σ : Type} (n : Nat) (body : Nat → σ → σ) (s : σ) : σ :=
  match n with
  | 0 => s
  | k + 1 => body k (for_loop k body s)

/-- The first index `j` with `start ≤ j < start + count` at which `p` holds: the
iteration at which a `for` loop leaves when its body exits on the first match. -/
def first_match (p : Nat → Bool) : Nat → Nat → Option Nat
  | _, 0 => none
  | start, count + 1 => if p start then some start else first_match p (start + 1) count

namespace invaderers_app

/-- Apply `f` to `sprites[i]` in place. -/
def modify (s : invaderers_app) (i : Nat) (f : sprite → sprite) : invaderers_app :=
  { s with sprites := Function.update s.sprites i (f (s.sprites i)) }

/-- `get_sound_source`: `sources[cur_source++ % num_sound_sources]`; the state keeps the
advanced cursor (an `unsigned`). -/
def get_sound_source (s : invaderers_app) : invaderers_app :=
  { s with cur_source := (s.cur_source + 1) % 2 ^ 32 }

/-- `on_hit_invaderer`: called when we hit an enemy. -/
def on_hit_invaderer (s : invaderers_app) : invaderers_app :=
  let s := s.get_sound_source
  let s := { s with live_invaderers := s.live_invaderers - 1 }
  let s := { s with score := s.score + 1 }
  if s.live_invaderers = 4 then
    { s with invader_velocity := s.invader_velocity * 4 }
  else if s.live_invaderers = 0 then
    let s := { s with game_over := true }
    let s := s.modify game_won_sprite (·.translate (-20) 0)
    s.modify game_restart_sprite (·.translate (-20) 0)
  else s

/-- `on_hit_ship(player)`: called when we are hit; `player` is the index of the sprite
the reference denotes. -/
def on_hit_ship (s : invaderers_app) (player : Nat) : invaderers_app :=
  let s := s.get_sound_source
  let s := s.modify player sprite.life_lost
  let playerLives := (s.sprites player).get_lives_left
  if playerLives = 0 then
    let s := { s with game_over := true }
    let s := s.modify game_over_sprite (·.translate (-20) 0)
    s.modify game_restart_sprite (·.translate (-20) 0)
  else s

/-- `on_hit_wall(wall)`: called when a wall is hit; `wall` is the index of the sprite the
reference denotes. -/
def on_hit_wall (tex : String → Nat) (s : invaderers_app) (wall : Nat) : invaderers_app :=
  let s := s.get_sound_source
  let currLives := (s.sprites wall).get_lives_left
  if currLives > 1 then
    let s := s.modify wall sprite.life_lost
    let wallTextureFile := "assets/invaderers/wall" ++ toString (currLives - 1) ++ ".gif"
    let newTexture := tex wallTextureFile
    s.modify wall (·.change_texture newTexture)
  else
    let s := s.modify wall (·.set_enabled false)
    s.modify wall (·.translate 20 0)

/-- `on_projectile_collide`: called when a missile and bomb collide. -/
def on_projectile_collide (s : invaderers_app) : invaderers_app :=
  s.get_sound_source

/-- The constant `ship_speed = 0.05f` of `move_ship`. -/
def ship_speed : ℚ := 1 / 20

/-- `move_ship`: use the keyboard to move the ship. -/
def move_ship (inp : input) (s : invaderers_app) : invaderers_app :=
  if inp.key_left then
    let s := s.modify ship_sprite (·.translate (-ship_speed) 0)
    if (s.sprites ship_sprite).collides_with (s.sprites (first_border_sprite + 2)) then
      s.modify ship_sprite (·.translate ship_speed 0)
    else s
  else if inp.key_right then
    let s := s.modify ship_sprite (·.translate ship_speed 0)
    if (s.sprites ship_sprite).collides_with (s.sprites (first_border_sprite + 3)) then
      s.modify ship_sprite (·.translate (-ship_speed) 0)
    else s
  else if inp.key_up then
    let s := s.modify ship_sprite (·.translate 0 ship_speed)
    if (s.sprites ship_sprite).collides_with (s.sprites (first_border_sprite + 4)) then
      s.modify ship_sprite (·.translate 0 (-ship_speed))
    else s
  else if inp.key_down then
    let s := s.modify ship_sprite (·.translate 0 (-ship_speed))
    if (s.sprites ship_sprite).collides_with (s.sprites first_border_sprite) then
      s.modify ship_sprite (·.translate 0 ship_speed)
    else s
  else s

/-- `fire_missiles`: fire button (space). -/
def fire_missiles (inp : input) (s : invaderers_app) : invaderers_app :=
  if s.missiles_disabled ≠ 0 then
    { s with missiles_disabled := s.missiles_disabled - 1 }
  else if inp.fire_going_down then
    match first_match (fun i => !(s.sprites (first_missile_sprite + i)).enabled) 0 num_missiles with
    | some i =>
      let s := s.modify (first_missile_sprite + i) (·.set_relative (s.sprites ship_sprite) 0 (1 / 2))
      let s := s.modify (first_missile_sprite + i) (·.set_enabled true)
      let s := { s with missiles_disabled := 5 }
      s.get_sound_source
    | none => s
  else s

/-- `fire_bombs`: pick an invader and fire a bomb.  The scan starts at the random index
and stops at the first enabled invader above the ship, whether or not a bomb slot is
free. -/
def fire_bombs (inp : input) (s : invaderers_app) : invaderers_app :=
  if s.bombs_disabled ≠ 0 then
    { s with bombs_disabled := s.bombs_disabled - 1 }
  else
    match first_match (fun j => (s.sprites (first_invaderer_sprite + j)).enabled &&
        (s.sprites (first_invaderer_sprite + j)).is_above (s.sprites ship_sprite) (3 / 10))
        inp.random (num_invaderers - inp.random) with
    | some j =>
      match first_match (fun i => !(s.sprites (first_bomb_sprite + i)).enabled) 0 num_bombs with
      | some i =>
        let s := s.modify (first_bomb_sprite + i)
          (·.set_relative (s.sprites (first_invaderer_sprite + j)) 0 (-(1 / 4)))
        let s := s.modify (first_bomb_sprite + i) (·.set_enabled true)
        let s := { s with bombs_disabled := 30 }
        s.get_sound_source
      | none => s
    | none => s

/-- The constant `missile_speed = 0.3f` of `move_missiles`. -/
def missile_speed : ℚ := 3 / 10

/-- Disable `sprites[i]` and park it: `is_enabled() = false; translate(20, 0)`. -/
def disable_and_park (s : invaderers_app) (i : Nat) : invaderers_app :=
  (s.modify i (·.set_enabled false)).modify i (·.translate 20 0)

/-- The body of the loop of `move_missiles` for missile `i`, up to the label
`next_missile`.  The top-border test has no `goto`: the wall and bomb loops follow it. -/
def move_missile (tex : String → Nat) (i : Nat) (s : invaderers_app) : invaderers_app :=
  let missile := first_missile_sprite + i
  if (s.sprites missile).enabled then
    let s := s.modify missile (·.translate 0 missile_speed)
    match first_match (fun j => (s.sprites (first_invaderer_sprite + j)).enabled &&
        (s.sprites missile).collides_with (s.sprites (first_invaderer_sprite + j)))
        0 num_invaderers with
    | some j =>
      let s := s.disable_and_park (first_invaderer_sprite + j)
      let s := s.disable_and_park missile
      s.on_hit_invaderer
    | none =>
      let s :=
        if (s.sprites missile).collides_with (s.sprites (first_border_sprite + 1)) then
          s.disable_and_park missile
        else s
      match first_match (fun i => (s.sprites (first_wall_sprite + i)).enabled &&
          (s.sprites missile).collides_with (s.sprites (first_wall_sprite + i)))
          0 num_walls with
      | some w =>
        let s := s.disable_and_park missile
        s.on_hit_wall tex (first_wall_sprite + w)
      | none =>
        match first_match (fun i => (s.sprites (first_bomb_sprite + i)).enabled &&
            (s.sprites missile).collides_with (s.sprites (first_bomb_sprite + i)))
            0 num_bombs with
        | some b =>
          let s := s.disable_and_park (first_bomb_sprite + b)
          let s := s.disable_and_park missile
          s.on_projectile_collide
        | none => s
  else s

/-- `move_missiles`: animate the missiles. -/
def move_missiles (tex : String → Nat) (s : invaderers_app) : invaderers_app :=
  for_loop num_missiles (move_missile tex) s

/-- The constant `bomb_speed = 0.2f` of `move_bombs`. -/
def bomb_speed : ℚ := 1 / 5

/-- The body of the loop of `move_bombs` for bomb `i`, up to the label `next_bomb`.  The
bottom-border test has no `goto`: the wall loop follows it. -/
def move_bomb (tex : String → Nat) (i : Nat) (s : invaderers_app) : invaderers_app :=
  let bomb := first_bomb_sprite + i
  if (s.sprites bomb).enabled then
    let s := s.modify bomb (·.translate 0 (-bomb_speed))
    if (s.sprites bomb).collides_with (s.sprites ship_sprite) then
      let s := s.disable_and_park bomb
      let s := { s with bombs_disabled := 50 }
      s.on_hit_ship ship_sprite
    else
      let s :=
        if (s.sprites bomb).collides_with (s.sprites (first_border_sprite + 0)) then
          s.disable_and_park bomb
        else s
      match first_match (fun i => (s.sprites (first_wall_sprite + i)).enabled &&
          (s.sprites bomb).collides_with (s.sprites (first_wall_sprite + i)))
          0 num_walls with
      | some w =>
        let s := s.disable_and_park bomb
        s.on_hit_wall tex (first_wall_sprite + w)
      | none => s
  else s

/-- `move_bombs`: animate the bombs. -/
def move_bombs (tex : String → Nat) (s : invaderers_app) : invaderers_app :=
  for_loop num_bombs (move_bomb tex) s

/-- `read_csv`: the level values (the file is not read). -/
def read_csv (s : invaderers_app) : invaderers_app :=
  { s with nRows := 5, nCols := 10, nInvaders := 50, nWalls := 3 }

/-- `move_invaders(dx, dy)`: move the array of enemies. -/
def move_invaders (s : invaderers_app) (dx dy : ℚ) : invaderers_app :=
  for_loop num_invaderers (fun j s =>
    if (s.sprites (first_invaderer_sprite + j)).enabled then
      s.modify (first_invaderer_sprite + j) (·.translate dx dy)
    else s) s

/-- `invaders_collide(border)`: check if any invaders hit the sides; `border` is the index
of the sprite the reference denotes. -/
def invaders_collide (s : invaderers_app) (border : Nat) : Bool :=
  (first_match (fun j => (s.sprites (first_invaderer_sprite + j)).enabled &&
    (s.sprites (first_invaderer_sprite + j)).collides_with (s.sprites border))
    0 num_invaderers).isSome

/-- The slot of the invader in column `i` of row `j`, as computed (and asserted to be at
most `last_invaderer_sprite`) by `app_init`. -/
def grid_slot (i j : Nat) : Nat := first_invaderer_sprite + i + j * num_cols

/-- Overwrite `sprites[i]`, as `sprites[i].init(...)` does. -/
def set_sprite (s : invaderers_app) (i : Nat) (p : sprite) : invaderers_app :=
  { s with sprites := Function.update s.sprites i p }

/-- `app_init`: called once OpenGL is initialized, and again on restart.  Shader, camera,
font and sound set-up do not touch the game state, apart from `cur_source = 0`. -/
def app_init (tex : String → Nat) (s : invaderers_app) : invaderers_app :=
  let s := s.read_csv
  let ship := tex "assets/invaderers/player.gif"
  let s := s.set_sprite ship_sprite (sprite.init_life ship 0 (-(11 / 4)) (1 / 4) (1 / 4) 3)
  let GameOver := tex "assets/invaderers/GameOver.gif"
  let s := s.set_sprite game_over_sprite (sprite.init GameOver 20 0 3 (3 / 2))
  let GameWon := tex "assets/invaderers/GameWon.gif"
  let s := s.set_sprite game_won_sprite (sprite.init GameWon 20 0 3 (3 / 2))
  let GameRestart := tex "assets/invaderers/GameRestart.gif"
  let s := s.set_sprite game_restart_sprite (sprite.init GameRestart 20 (-1) (3 / 2) (3 / 4))
  let GamePause := tex "assets/invaderers/GamePause.gif"
  let s := s.set_sprite game_pause_sprite (sprite.init GamePause 20 0 (3 / 2) (3 / 4))
  let invaderer := tex "assets/invaderers/enemy.gif"
  let s := for_loop s.nRows.toNat (fun j s =>
    for_loop s.nCols.toNat (fun i s =>
      s.set_sprite (grid_slot i j)
        (sprite.init invaderer (((i : ℚ) - num_cols * (1 / 2)) * (1 / 4))
          (5 / 2 - (j : ℚ) * (1 / 4)) (1 / 4) (1 / 4))) s) s
  let wall := tex "assets/invaderers/wall3.gif"
  let s := for_loop s.nWalls.toNat (fun i s =>
    s.set_sprite (first_wall_sprite + i)
      (sprite.init_life wall (-(11 / 4) + (i : ℚ) * (3 / 2)) (-1) (1 / 4) (1 / 4) 3)) s
  let white := tex "#042151"
  let s := s.set_sprite (first_border_sprite + 0) (sprite.init white 0 (-3) 6 (1 / 4))
  let s := s.set_sprite (first_border_sprite + 1) (sprite.init white 0 3 6 (1 / 4))
  let s := s.set_sprite (first_border_sprite + 2) (sprite.init white (-3) 0 (1 / 4) 6)
  let s := s.set_sprite (first_border_sprite + 3) (sprite.init white 3 0 (1 / 4) 6)
  let s := s.set_sprite (first_border_sprite + 4) (sprite.init 0 0 (-1) 6 (1 / 4))
  let missile := tex "assets/invaderers/missile.gif"
  let s := for_loop num_missiles (fun i s =>
    let s := s.set_sprite (first_missile_sprite + i) (sprite.init missile 20 0 (1 / 16) (1 / 4))
    s.modify (first_missile_sprite + i) (·.set_enabled false)) s
  let bomb := tex "assets/invaderers/bomb.gif"
  let s := for_loop num_bombs (fun i s =>
    let s := s.set_sprite (first_bomb_sprite + i) (sprite.init bomb 20 0 (1 / 16) (1 / 4))
    s.modify (first_bomb_sprite + i) (·.set_enabled false)) s
  { s with
    cur_source := 0
    missiles_disabled := 0
    bombs_disabled := 50
    invader_velocity := 1 / 100
    invader_direction := -(1 / 4)
    live_invaderers := s.nInvaders
    game_over := false
    game_paused := false
    score := 0 }

/-- The swarm phase of `simulate`: `move_invaders(invader_velocity, 0)` and the bounce on
the side border and on the top border or divider.  Both border references are chosen
before the side test. -/
def move_swarm (s : invaderers_app) : invaderers_app :=
  let s := s.move_invaders s.invader_velocity 0
  let borderSide := first_border_sprite + (if s.invader_velocity < 0 then 2 else 3)
  let borderTop := first_border_sprite + (if s.invader_direction < 0 then 4 else 1)
  if s.invaders_collide borderSide then
    let s := { s with invader_velocity := -s.invader_velocity }
    let s := s.move_invaders s.invader_velocity s.invader_direction
    if s.invaders_collide borderTop then
      let s := { s with invader_direction := -s.invader_direction }
      s.move_invaders s.invader_velocity s.invader_direction
    else s
  else s

/-- The part of `simulate` from the label `move_ship` on: the six phases of a running
frame. -/
def run_frame (tex : String → Nat) (inp : input) (s : invaderers_app) : invaderers_app :=
  let s := s.move_ship inp
  let s := s.fire_missiles inp
  let s := s.fire_bombs inp
  let s := s.move_missiles tex
  let s := s.move_bombs tex
  s.move_swarm

/-- `simulate`: called every frame to move things. -/
def simulate (tex : String → Nat) (inp : input) (s : invaderers_app) : invaderers_app :=
  if s.game_over then
    if inp.key_R then s.app_init tex else s
  else if !s.game_paused then
    if inp.key_P_going_down then
      let s := { s with game_paused := true }
      s.modify game_pause_sprite (·.translate (-20) 0)
    else s.run_frame tex inp
  else
    if inp.key_P_going_down then
      let s := { s with game_paused := false }
      let s := s.modify game_pause_sprite (·.translate 20 0)
      s.run_frame tex inp
    else s

end invaderers_app

/-! ## Vocabulary of the statements -/

/-- Missile `i`, advanced by its step `(0, missile_speed)`, overlaps the enabled invader
`j` of the state `s`. -/
def missile_overlaps_invader (s : invaderers_app) (i j : Nat) : Bool :=
  (s.sprites (first_invaderer_sprite + j)).enabled &&
    ((s.sprites (first_missile_sprite + i)).translate 0 invaderers_app.missile_speed).collides_with
      (s.sprites (first_invaderer_sprite + j))

/-- The bottom-border test of the bomb loop, for the bomb at sprite index `b`:
`if (bomb.collides_with(sprites[first_border_sprite+0])) ...`, with no `goto`. -/
def bomb_bottom_border (s : invaderers_app) (b : Nat) : invaderers_app :=
  if (s.sprites b).collides_with (s.sprites (first_border_sprite + 0)) then
    s.disable_and_park b
  else s

/-- The wall loop of the bomb loop, for the bomb at sprite index `b`. -/
def bomb_walls (tex : String → Nat) (s : invaderers_app) (b : Nat) : invaderers_app :=
  match first_match (fun i => (s.sprites (first_wall_sprite + i)).enabled &&
      (s.sprites b).collides_with (s.sprites (first_wall_sprite + i))) 0 num_walls with
  | some w => (s.disable_and_park b).on_hit_wall tex (first_wall_sprite + w)
  | none => s

/-- Going from `s` to `t` keeps the score, `game_over`, every enabled flag, and every
sprite that is not an invader. -/
def swarm_frame (s t : invaderers_app) : Prop :=
  t.score = s.score ∧ t.game_over = s.game_over ∧
  (∀ k, (t.sprites k).enabled = (s.sprites k).enabled) ∧
  ∀ k, (k < first_invaderer_sprite ∨ first_missile_sprite ≤ k) → t.sprites k = s.sprites k

/-- Bomb `i` is enabled in `s` and, advanced by its step `(0, -bomb_speed)`, overlaps the
ship. -/
def bomb_hits_ship (s : invaderers_app) (i : Nat) : Bool :=
  (s.sprites (first_bomb_sprite + i)).enabled &&
    ((s.sprites (first_bomb_sprite + i)).translate 0 (-invaderers_app.bomb_speed)).collides_with
      (s.sprites ship_sprite)

/-- Invader `j` is enabled in `s`. -/
def invader_enabled (s : invaderers_app) (j : Nat) : Bool :=
  (s.sprites (first_invaderer_sprite + j)).enabled

/-- The number of invader slots that are enabled in `s` and disabled in `t`. -/
def invaders_destroyed (s t : invaderers_app) : Nat :=
  (List.range num_invaderers).countP (fun j => invader_enabled s j && !invader_enabled t j)

/-- Going from `s` to `t` destroys exactly `c` invaders, scores `c`, and enables none. -/
def destroys (s t : invaderers_app) (c : Nat) : Prop :=
  t.score = s.score + c ∧
  (∀ j, j < num_invaderers → invader_enabled t j = true → invader_enabled s j = true) ∧
  invaders_destroyed s t = c

/-- Going from `s` to `t` changes neither the score nor any invader's enabled flag. -/
def same_invaders (s t : invaderers_app) : Prop :=
  t.score = s.score ∧ ∀ j, j < num_invaderers → invader_enabled t j = invader_enabled s j

/-- The top-border test of the missile loop, for the missile at sprite index `m`:
`if (missile.collides_with(sprites[first_border_sprite+1])) ...`, with no `goto`. -/
def missile_top_border (s : invaderers_app) (m : Nat) : invaderers_app :=
  if (s.sprites m).collides_with (s.sprites (first_border_sprite + 1)) then
    s.disable_and_park m
  else s

/-- The wall loop and the bomb loop of the missile loop, for the missile at sprite index
`m`. -/
def missile_walls_bombs (tex : String → Nat) (s : invaderers_app) (m : Nat) : invaderers_app :=
  match first_match (fun i => (s.sprites (first_wall_sprite + i)).enabled &&
      (s.sprites m).collides_with (s.sprites (first_wall_sprite + i))) 0 num_walls with
  | some w => (s.disable_and_park m).on_hit_wall tex (first_wall_sprite + w)
  | none =>
    match first_match (fun i => (s.sprites (first_bomb_sprite + i)).enabled &&
        (s.sprites m).collides_with (s.sprites (first_bomb_sprite + i))) 0 num_bombs with
    | some b =>
      ((s.disable_and_park (first_bomb_sprite + b)).disable_and_park m).on_projectile_collide
    | none => s

/-- Invader `j` is enabled and `is_above(ship, 0.3)` holds for it: the test of the scan of
`fire_bombs`. -/
def invader_above_ship (s : invaderers_app) (j : Nat) : Bool :=
  (s.sprites (first_invaderer_sprite + j)).enabled &&
    (s.sprites (first_invaderer_sprite + j)).is_above (s.sprites ship_sprite) (3 / 10)

/-- The number of enabled missile slots. -/
def missiles_enabled (s : invaderers_app) : Nat :=
  (List.range num_missiles).countP (fun i => (s.sprites (first_missile_sprite + i)).enabled)

/-- The number of enabled bomb slots. -/
def bombs_enabled (s : invaderers_app) : Nat :=
  (List.range num_bombs).countP (fun i => (s.sprites (first_bomb_sprite + i)).enabled)

/-- The one direction `move_ship` considers, as the statement about it puts it: the first
held key in the order left, right, up, down, with the displacement by `ship_speed` along
that direction and the sprite index of the border tested for it (left border, right
border, divider, bottom border); nothing if no direction key is held. -/
def ship_direction (inp : input) : Option (ℚ × ℚ × Nat) :=
  if inp.key_left then some (-invaderers_app.ship_speed, 0, first_border_sprite + 2)
  else if inp.key_right then some (invaderers_app.ship_speed, 0, first_border_sprite + 3)
  else if inp.key_up then some (0, invaderers_app.ship_speed, first_border_sprite + 4)
  else if inp.key_down then some (0, -invaderers_app.ship_speed, first_border_sprite)
  else none

/-- The state of the swarm phase after its first move, `move_invaders(invader_velocity, 0)`. -/
def swarm_first (s : invaderers_app) : invaderers_app :=
  s.move_invaders s.invader_velocity 0

/-- The state of the swarm phase after the bounce on the side border: the velocity is
negated and the combined step `move_invaders(invader_velocity, invader_direction)` is
taken. -/
def swarm_bounced (s : invaderers_app) : invaderers_app :=
  ({ swarm_first s with invader_velocity := -s.invader_velocity } : invaderers_app).move_invaders
    (-s.invader_velocity) s.invader_direction

/-- The side border the swarm phase tests: the left one when the velocity is negative,
the right one otherwise. -/
def border_side (s : invaderers_app) : Nat :=
  first_border_sprite + (if s.invader_velocity < 0 then 2 else 3)

/-- The border the swarm phase tests after a bounce: the divider when the direction is
negative, the top border otherwise. -/
def border_top (s : invaderers_app) : Nat :=
  first_border_sprite + (if s.invader_direction < 0 then 4 else 1)

/-- The first part of `app_init`, after `read_csv`: the ship and the four banners. -/
def init_ship_banners (tex : String → Nat) (s : invaderers_app) : invaderers_app :=
  let ship := tex "assets/invaderers/player.gif"
  let s := s.set_sprite ship_sprite (sprite.init_life ship 0 (-(11 / 4)) (1 / 4) (1 / 4) 3)
  let GameOver := tex "assets/invaderers/GameOver.gif"
  let s := s.set_sprite game_over_sprite (sprite.init GameOver 20 0 3 (3 / 2))
  let GameWon := tex "assets/invaderers/GameWon.gif"
  let s := s.set_sprite game_won_sprite (sprite.init GameWon 20 0 3 (3 / 2))
  let GameRestart := tex "assets/invaderers/GameRestart.gif"
  let s := s.set_sprite game_restart_sprite (sprite.init GameRestart 20 (-1) (3 / 2) (3 / 4))
  let GamePause := tex "assets/invaderers/GamePause.gif"
  s.set_sprite game_pause_sprite (sprite.init GamePause 20 0 (3 / 2) (3 / 4))

/-- The invader loops of `app_init`. -/
def init_invaders (tex : String → Nat) (s : invaderers_app) : invaderers_app :=
  let invaderer := tex "assets/invaderers/enemy.gif"
  for_loop s.nRows.toNat (fun j s =>
    for_loop s.nCols.toNat (fun i s =>
      s.set_sprite (invaderers_app.grid_slot i j)
        (sprite.init invaderer (((i : ℚ) - num_cols * (1 / 2)) * (1 / 4))
          (5 / 2 - (j : ℚ) * (1 / 4)) (1 / 4) (1 / 4))) s) s

/-- The wall loop of `app_init`. -/
def init_walls (tex : String → Nat) (s : invaderers_app) : invaderers_app :=
  let wall := tex "assets/invaderers/wall3.gif"
  for_loop s.nWalls.toNat (fun i s =>
    s.set_sprite (first_wall_sprite + i)
      (sprite.init_life wall (-(11 / 4) + (i : ℚ) * (3 / 2)) (-1) (1 / 4) (1 / 4) 3)) s

/-- The five borders of `app_init`. -/
def init_borders (tex : String → Nat) (s : invaderers_app) : invaderers_app :=
  let white := tex "#042151"
  let s := s.set_sprite (first_border_sprite + 0) (sprite.init white 0 (-3) 6 (1 / 4))
  let s := s.set_sprite (first_border_sprite + 1) (sprite.init white 0 3 6 (1 / 4))
  let s := s.set_sprite (first_border_sprite + 2) (sprite.init white (-3) 0 (1 / 4) 6)
  let s := s.set_sprite (first_border_sprite + 3) (sprite.init white 3 0 (1 / 4) 6)
  s.set_sprite (first_border_sprite + 4) (sprite.init 0 0 (-1) 6 (1 / 4))

/-- The missile loop of `app_init`. -/
def init_missiles (tex : String → Nat) (s : invaderers_app) : invaderers_app :=
  let missile := tex "assets/invaderers/missile.gif"
  for_loop num_missiles (fun i s =>
    let s := s.set_sprite (first_missile_sprite + i) (sprite.init missile 20 0 (1 / 16) (1 / 4))
    s.modify (first_missile_sprite + i) (·.set_enabled false)) s

/-- The bomb loop of `app_init`. -/
def init_bombs (tex : String → Nat) (s : invaderers_app) : invaderers_app :=
  let bomb := tex "assets/invaderers/bomb.gif"
  for_loop num_bombs (fun i s =>
    let s := s.set_sprite (first_bomb_sprite + i) (sprite.init bomb 20 0 (1 / 16) (1 / 4))
    s.modify (first_bomb_sprite + i) (·.set_enabled false)) s

/-- The last part of `app_init`: the sundry counters and game state. -/
def init_counters (s : invaderers_app) : invaderers_app :=
  { s with
    cur_source := 0
    missiles_disabled := 0
    bombs_disabled := 50
    invader_velocity := 1 / 100
    invader_direction := -(1 / 4)
    live_invaderers := s.nInvaders
    game_over := false
    game_paused := false
    score := 0 }

/-- The state `s` with sprite `k` put at the position `(x, y)`; nothing else differs. -/
def reposition (s : invaderers_app) (k : Nat) (x y : ℚ) : invaderers_app :=
  s.modify k (fun p => { p with x := x, y := y })

/-- The state transformer `F` ignores the placement of sprite `k` while it is disabled:
from a state in which sprite `k` is disabled, `F` leaves sprite `k` as it is, and putting
sprite `k` somewhere else before `F` gives the same result as doing so after `F`, so that
the two results agree on every game variable and every other sprite. -/
def ignores (F : invaderers_app → invaderers_app) (k : Nat) : Prop :=
  ∀ (s : invaderers_app) (x y : ℚ), (s.sprites k).enabled = false →
    (F s).sprites k = s.sprites k ∧ F (reposition s k x y) = reposition (F s) k x y

/-- The assignment `invader_velocity = v`. -/
def with_velocity (s : invaderers_app) (v : ℚ) : invaderers_app :=
  { s with invader_velocity := v }

/-- The assignment `invader_direction = d`. -/
def with_direction (s : invaderers_app) (d : ℚ) : invaderers_app :=
  { s with invader_direction := d }

/-- The loop `for (int j = 0; j != n; ++j) body(j)` whose body may fail an `assert`:
`none` as soon as one iteration fails. -/
def for_loop_checked {σ : Type} (n : Nat) (body : Nat → σ → Option σ) (s : σ) : Option σ :=
  match n with
  | 0 => some s
  | k + 1 => (for_loop_checked k body s).bind (body k)

/-- The invader loops of `app_init` with their `assert`:
`assert(first_invaderer_sprite + i + j*num_cols <= last_invaderer_sprite)`. -/
def init_invaders_checked (tex : String → Nat) (s : invaderers_app) : Option invaderers_app :=
  let invaderer := tex "assets/invaderers/enemy.gif"
  for_loop_checked s.nRows.toNat (fun j s =>
    for_loop_checked s.nCols.toNat (fun i s =>
      if invaderers_app.grid_slot i j ≤ last_invaderer_sprite then
        some (s.set_sprite (invaderers_app.grid_slot i j)
          (sprite.init invaderer (((i : ℚ) - num_cols * (1 / 2)) * (1 / 4))
            (5 / 2 - (j : ℚ) * (1 / 4)) (1 / 4) (1 / 4)))
      else none) s) s

/-- The slots that the invader loops of `app_init` write, in the order of the loops. -/
def placed_slots (s : invaderers_app) : List Nat :=
  (List.range s.nRows.toNat).flatMap (fun j =>
    (List.range s.nCols.toNat).map (fun i => invaderers_app.grid_slot i j))

/-- The sprite that `app_init` puts in column `i` of row `j` of the invader grid. -/
def invader_at (tex : String → Nat) (i j : Nat) : sprite :=
  sprite.init (tex "assets/invaderers/enemy.gif") (((i : ℚ) - num_cols * (1 / 2)) * (1 / 4))
    (5 / 2 - (j : ℚ) * (1 / 4)) (1 / 4) (1 / 4)

/-- The number of invader slots that are enabled in `s`. -/
def invaders_enabled (s : invaderers_app) : Nat :=
  (List.range num_invaderers).countP (fun j => invader_enabled s j)

/-- The test under which `fire_missiles` launches a missile in `s`: the cooldown is 0, the
fire key has just gone down and the slot loop finds a disabled missile slot. -/
def fires_missile (inp : input) (s : invaderers_app) : Bool :=
  !decide (s.missiles_disabled ≠ 0) && inp.fire_going_down &&
    (first_match (fun i => !(s.sprites (first_missile_sprite + i)).enabled) 0
      num_missiles).isSome

/-- The state with which `simulate` reaches the label `move_ship`, if it does: `none` when
the game is over, when the step pauses the game, and when the game stays paused. -/
def frame_start (inp : input) (s : invaderers_app) : Option invaderers_app :=
  if s.game_over then none
  else if !s.game_paused then
    if inp.key_P_going_down then none else some s
  else
    if inp.key_P_going_down then
      some (({ s with game_paused := false } : invaderers_app).modify game_pause_sprite
        (·.translate 20 0))
    else none

/-- A missile is launched in the `simulate` step from `s`: the phases run and
`fire_missiles`, called after `move_ship`, launches one. -/
def step_fires (inp : input) (s : invaderers_app) : Bool :=
  match frame_start inp s with
  | some t => fires_missile inp (t.move_ship inp)
  | none => false

/-- The `simulate` step from `s` restarts the game: `game_over` is set and the restart key
is held. -/
def step_restarts (inp : input) (s : invaderers_app) : Bool :=
  s.game_over && inp.key_R

/-- The state after one `simulate` step for each input of the list, in order. -/
def simulate_all (tex : String → Nat) : List input → invaderers_app → invaderers_app
  | [], s => s
  | inp :: inps, s => simulate_all tex inps (s.simulate tex inp)

/-- The number of steps, among the steps of `simulate_all`, in which the phases run. -/
def frames_run (tex : String → Nat) : List input → invaderers_app → Nat
  | [], _ => 0
  | inp :: inps, s =>
    (if (frame_start inp s).isSome then 1 else 0) + frames_run tex inps (s.simulate tex inp)

/-- One of the steps of `simulate_all` restarts the game. -/
def restarts (tex : String → Nat) : List input → invaderers_app → Bool
  | [], _ => false
  | inp :: inps, s => step_restarts inp s || restarts tex inps (s.simulate tex inp)

/-- The loop `while (n >= 2) { n /= 2; ++k; }`, with the fuel that bounds it. -/
def log2_loop : Nat → Nat → Nat
  | 0, _ => 0
  | fuel + 1, n => if n < 2 then 0 else log2_loop fuel (n / 2) + 1

/-- The position of the leading binary digit of `n`. -/
def nat_log2 (n : Nat) : Nat := log2_loop n n

/-- The rational `2 ^ e` for an integer exponent `e`. -/
def pow2 (e : Int) : ℚ :=
  if 0 ≤ e then ((2 ^ e.toNat : Nat) : ℚ) else 1 / ((2 ^ (-e).toNat : Nat) : ℚ)

/-- The binary exponent of a non-zero rational `q`: the `k` with
`2 ^ k ≤ |q| < 2 ^ (k + 1)`. -/
def ilog2 (q : ℚ) : Int :=
  let k : Int := (nat_log2 q.num.natAbs : Int) - (nat_log2 q.den : Int)
  if pow2 k ≤ |q| then k else k - 1

/-- Rounding to the nearest binary32 value, ties to even: 24 significant binary digits,
least exponent `-126` (subnormal values included).  Overflow to infinity is outside the
model. -/
def round32 (q : ℚ) : ℚ :=
  if q = 0 then 0
  else
    let e : Int := max (ilog2 q) (-126)
    let ulp : ℚ := pow2 (e - 23)
    let m : ℚ := q / ulp
    let f : Int := ⌊m⌋
    let r : ℚ := m - f
    let n : Int :=
      if r < 1 / 2 then f
      else if 1 / 2 < r then f + 1
      else if f % 2 = 0 then f else f + 1
    n * ulp

/-- The `float` sum `a + b`. -/
def fadd (a b : ℚ) : ℚ := round32 (a + b)

/-- The `float` difference `a - b`. -/
def fsub (a b : ℚ) : ℚ := round32 (a - b)

/-- `sprite::translate` in `float` arithmetic.

Modelled from the spec: `mat4t` is not in `src`; the translation adds the offset to the
position, one rounded addition for each coordinate. -/
def sprite.translate32 (p : sprite) (x y : ℚ) : sprite :=
  { p with x := fadd p.x x, y := fadd p.y y }

/-- `sprite::collides_with` in `float` arithmetic: `dx`, `dy` and the two sums of
half-extents are rounded. -/
def sprite.collides_with32 (p rhs : sprite) : Bool :=
  let dx := fsub rhs.x p.x
  let dy := fsub rhs.y p.y
  decide (|dx| < fadd p.halfWidth rhs.halfWidth) &&
    decide (|dy| < fadd p.halfHeight rhs.halfHeight)

/-- `move_invaders(dx, dy)` in `float` arithmetic. -/
def invaderers_app.move_invaders32 (s : invaderers_app) (dx dy : ℚ) : invaderers_app :=
  for_loop num_invaderers (fun j s =>
    if (s.sprites (first_invaderer_sprite + j)).enabled then
      s.modify (first_invaderer_sprite + j) (·.translate32 dx dy)
    else s) s

/-- `invaders_collide(border)` in `float` arithmetic. -/
def invaderers_app.invaders_collide32 (s : invaderers_app) (border : Nat) : Bool :=
  (first_match (fun j => (s.sprites (first_invaderer_sprite + j)).enabled &&
    (s.sprites (first_invaderer_sprite + j)).collides_with32 (s.sprites border))
    0 num_invaderers).isSome

/-- The swarm phase of `simulate` in `float` arithmetic. -/
def invaderers_app.move_swarm32 (s : invaderers_app) : invaderers_app :=
  let s := s.move_invaders32 s.invader_velocity 0
  let borderSide := first_border_sprite + (if s.invader_velocity < 0 then 2 else 3)
  let borderTop := first_border_sprite + (if s.invader_direction < 0 then 4 else 1)
  if s.invaders_collide32 borderSide then
    let s := { s with invader_velocity := -s.invader_velocity }
    let s := s.move_invaders32 s.invader_velocity s.invader_direction
    if s.invaders_collide32 borderTop then
      let s := { s with invader_direction := -s.invader_direction }
      s.move_invaders32 s.invader_velocity s.invader_direction
    else s
  else s

/-- The state after the first move of the swarm phase in `float` arithmetic:
`move_invaders(invader_velocity, 0)`. -/
def swarm_first32 (s : invaderers_app) : invaderers_app :=
  s.move_invaders32 s.invader_velocity 0

/-- The state after the side bounce of the swarm phase in `float` arithmetic: the velocity
negated and `move_invaders(invader_velocity, invader_direction)`. -/
def swarm_bounced32 (s : invaderers_app) : invaderers_app :=
  ({ swarm_first32 s with invader_velocity := -s.invader_velocity } :
    invaderers_app).move_invaders32 (-s.invader_velocity) s.invader_direction

/-- The state after the second bounce of the swarm phase in `float` arithmetic: the
direction negated and `move_invaders(invader_velocity, invader_direction)`. -/
def swarm_rebounced32 (s : invaderers_app) : invaderers_app :=
  ({ swarm_bounced32 s with invader_direction := -s.invader_direction } :
    invaderers_app).move_invaders32 (-s.invader_velocity) (-s.invader_direction)

/-! ## Test data -/

/-- A sprite that takes part in nothing: disabled, far away, of size zero. -/
def idle_sprite : sprite :=
  { x := 100, y := 100, halfWidth := 0, halfHeight := 0, texture := 0, enabled := false, lives := 1 }

/-- A running state in which every sprite is idle. -/
def idle_app : invaderers_app :=
  { missiles_disabled := 0, bombs_disabled := 50, live_invaderers := 50, game_over := false,
    game_paused := false, score := 0, invader_velocity := 1 / 100, invader_direction := -(1 / 4),
    nRows := 5, nCols := 10, nWalls := 3, nInvaders := 50, cur_source := 0,
    sprites := fun _ => idle_sprite }

/-- The input of a frame in which no key is held. -/
def no_keys : input :=
  { key_left := false, key_right := false, key_up := false, key_down := false, key_R := false,
    fire_going_down := false, key_P_going_down := false, random := 0 }

/-- Every texture handle is `1`. -/
def tex1 : String → Nat := fun _ => 1

/-- A state after the game has ended. -/
def ended_app : invaderers_app := { idle_app with game_over := true }

/-- A paused state of a running game. -/
def paused_app : invaderers_app := { idle_app with game_paused := true }

/-- A running state whose first wall slot holds a fresh wall with three lives. -/
def wall_app : invaderers_app :=
  idle_app.set_sprite first_wall_sprite (sprite.init_life 1 (-(11 / 4)) (-1) (1 / 4) (1 / 4) 3)

/-- The playfield as `app_init` lays it out: the ship, the four banners parked at
`x = 20` and the five borders; every other slot is idle. -/
def arena_app : invaderers_app :=
  { idle_app with
    sprites := fun k =>
      if k = ship_sprite then sprite.init_life 1 0 (-(11 / 4)) (1 / 4) (1 / 4) 3
      else if k = game_over_sprite then sprite.init 1 20 0 3 (3 / 2)
      else if k = game_won_sprite then sprite.init 1 20 0 3 (3 / 2)
      else if k = game_restart_sprite then sprite.init 1 20 (-1) (3 / 2) (3 / 4)
      else if k = game_pause_sprite then sprite.init 1 20 0 (3 / 2) (3 / 4)
      else if k = first_border_sprite + 0 then sprite.init 1 0 (-3) 6 (1 / 4)
      else if k = first_border_sprite + 1 then sprite.init 1 0 3 6 (1 / 4)
      else if k = first_border_sprite + 2 then sprite.init 1 (-3) 0 (1 / 4) 6
      else if k = first_border_sprite + 3 then sprite.init 1 3 0 (1 / 4) 6
      else if k = first_border_sprite + 4 then sprite.init 0 0 (-1) 6 (1 / 4)
      else idle_sprite }

/-- The ship is down to its last life and a bomb is about to reach it. -/
def last_life_app : invaderers_app :=
  (arena_app.set_sprite ship_sprite
      (sprite.init_life 1 0 (-(11 / 4)) (1 / 4) (1 / 4) 1)).set_sprite
    first_bomb_sprite (sprite.init 1 0 (-(13 / 5)) (1 / 16) (1 / 4))

/-- The ship is down to its last life and both bombs are about to reach it in the same
frame. -/
def two_bombs_app : invaderers_app :=
  last_life_app.set_sprite (first_bomb_sprite + 1) (sprite.init 1 0 (-(13 / 5)) (1 / 16) (1 / 4))

/-- The ship is down to its last life with a bomb about to reach it, while a missile is
about to destroy the last invader. -/
def last_invader_app : invaderers_app :=
  (({ last_life_app with live_invaderers := 1 } : invaderers_app).set_sprite
      first_invaderer_sprite (sprite.init 1 0 2 (1 / 4) (1 / 4))).set_sprite
    first_missile_sprite (sprite.init 1 0 (8 / 5) (1 / 16) (1 / 4))

/-- A missile about to reach the top border and a bomb about to reach the bottom border,
with an enabled wall in each of the slots 3 and 4 (slots that `app_init` leaves as they
are) lying 20 to the right of the place where each projectile meets its border. -/
def border_wall_app : invaderers_app :=
  (((arena_app.set_sprite first_missile_sprite
        (sprite.init 1 0 (13 / 5) (1 / 16) (1 / 4))).set_sprite
      first_bomb_sprite (sprite.init 1 2 (-(27 / 10)) (1 / 16) (1 / 4))).set_sprite
    (first_wall_sprite + 3) (sprite.init_life 1 20 3 (1 / 4) (1 / 4) 3)).set_sprite
  (first_wall_sprite + 4) (sprite.init_life 1 22 (-3) (1 / 4) (1 / 4) 3)

/-- Both missiles in flight at the same place, just below the only enabled invader. -/
def two_missiles_app : invaderers_app :=
  { idle_app with
    sprites := fun k =>
      if k = first_invaderer_sprite then sprite.init 1 0 2 (1 / 4) (1 / 4)
      else if k = first_missile_sprite then sprite.init 1 0 (8 / 5) (1 / 16) (1 / 4)
      else if k = first_missile_sprite + 1 then sprite.init 1 0 (8 / 5) (1 / 16) (1 / 4)
      else idle_sprite }

/-- One missile in flight just below the only enabled invader. -/
def one_missile_app : invaderers_app :=
  { idle_app with
    sprites := fun k =>
      if k = first_invaderer_sprite then sprite.init 1 0 2 (1 / 4) (1 / 4)
      else if k = first_missile_sprite then sprite.init 1 0 (8 / 5) (1 / 16) (1 / 4)
      else idle_sprite }

/-- A running state with five invaders left to destroy. -/
def five_left_app : invaderers_app := { idle_app with live_invaderers := 5 }

/-- The input of a frame in which only the fire key has just gone down. -/
def fire_key : input := { no_keys with fire_going_down := true }

/-- The laid-out playfield with the bomb cooldown run down and one enabled invader, in
slot 3, straight above the ship. -/
def bomber_app : invaderers_app :=
  ({ arena_app with bombs_disabled := 0 } : invaderers_app).set_sprite
    (first_invaderer_sprite + 3) (sprite.init 1 0 2 (1 / 4) (1 / 4))

/-- The input of a frame in which only the left key is held. -/
def left_key : input := { no_keys with key_left := true }

/-- The laid-out playfield with one enabled invader next to the right border, the swarm
moving right. -/
def right_edge_app : invaderers_app :=
  arena_app.set_sprite first_invaderer_sprite (sprite.init 1 (11 / 4) 2 (1 / 4) (1 / 4))

/-- The laid-out playfield with one enabled invader in the corner of the right border and
the divider, the swarm moving right and down. -/
def corner_app : invaderers_app :=
  arena_app.set_sprite first_invaderer_sprite (sprite.init 1 (11 / 4) (-(3 / 5)) (1 / 4) (1 / 4))

/-- The input of a frame in which only the restart key is held. -/
def restart_key : input := { no_keys with key_R := true }

/-- The input of a frame in which only the pause key has just gone down. -/
def pause_key : input := { no_keys with key_P_going_down := true }

/-- A state that is both paused and over. -/
def ended_paused_app : invaderers_app := { idle_app with game_over := true, game_paused := true }

/-- The `float` value of the literal `0.01f`, the initial `invader_velocity`. -/
def v32 : ℚ := 5368709 / 536870912

/-- The grid of 50 invaders of `app_init` on the laid-out playfield, with column `i` at
`x = xs i` and the top row at `y = y0`, moving with velocity `v` and direction `d`.  The
invader slots that `app_init` does not write are idle. -/
def swarm_app (v d : ℚ) (xs : Nat → ℚ) (y0 : ℚ) : invaderers_app :=
  { arena_app with
    invader_velocity := v
    invader_direction := d
    sprites := fun k =>
      if first_invaderer_sprite ≤ k ∧ k < first_invaderer_sprite + 5 * num_cols ∧
          (k - first_invaderer_sprite) % num_cols < 10 then
        sprite.init 1 (xs ((k - first_invaderer_sprite) % num_cols))
          (y0 - (((k - first_invaderer_sprite) / num_cols : Nat) : ℚ) * (1 / 4)) (1 / 4) (1 / 4)
      else arena_app.sprites k }

/-- The `x` of the ten columns of the swarm at the start of frame 326 of a game in which
no invader has been destroyed: the columns of `app_init` after 325 moves by `0.01f`. -/
def frame326_x (i : Nat) : ℚ :=
  match i with
  | 0 => 16777131 / 33554432
  | 1 => 6291435 / 8388608
  | 2 => 8388587 / 8388608
  | 3 => 10485739 / 8388608
  | 4 => 12582891 / 8388608
  | 5 => 14680043 / 8388608
  | 6 => 16777195 / 8388608
  | 7 => 4718587 / 2097152
  | 8 => 5242875 / 2097152
  | _ => 5767163 / 2097152

/-- The swarm at the start of frame 326 of a game in which no invader has been destroyed:
the frame of the first bounce on the right border. -/
def frame326_app : invaderers_app := swarm_app v32 (-(1 / 4)) frame326_x (5 / 2)

/-- The `x` of the ten columns of the swarm at the start of frame 3260 of a game in which
no invader has been destroyed (after nine side bounces). -/
def frame3260_x (i : Nat) : ℚ :=
  match i with
  | 0 => -(11 / 4)
  | 1 => -(5 / 2)
  | 2 => -(9 / 4)
  | 3 => -2
  | 4 => -(7 / 4)
  | 5 => -(3 / 2)
  | 6 => -(10485759 / 8388608)
  | 7 => -(8388607 / 8388608)
  | 8 => -(6291455 / 8388608)
  | _ => -(16777211 / 33554432)

/-- The swarm at the start of frame 3260 of a game in which no invader has been destroyed:
the frame of the first bounce on the divider, with the swarm moving left. -/
def frame3260_app : invaderers_app := swarm_app (-v32) (-(1 / 4)) frame3260_x (1 / 4)

/-- The `x` that `app_init` gives to column `i` of the invader grid:
`((float)i - num_cols * 0.5f) * 0.25f`, exact in `float` for `i < 22`. -/
def app_init_x (i : Nat) : ℚ := ((i : ℚ) - num_cols * (1 / 2)) * (1 / 4)

/-- The `x` of an invader after `n` frames in which the swarm moves by `v` without
touching a border. -/
def swarm_run (v : ℚ) (n : Nat) (x : ℚ) : ℚ := (fun x => fadd x v)^[n] x

/-- The `x` of an invader after a frame in which the swarm, moving by `v`, bounces on a
side border: the move `(v, 0)`, then the combined step `(-v, d)`. -/
def swarm_turn (v : ℚ) (x : ℚ) : ℚ := fadd (fadd x v) (-v)

/-- The `x` of an invader after the swarm has gone to the right border and back to the
left border: 325 frames to the right, the bounce, 325 frames to the left, the bounce. -/
def swarm_lap (x : ℚ) : ℚ :=
  swarm_turn (-v32) (swarm_run (-v32) 325 (swarm_turn v32 (swarm_run v32 325 x)))

/-! ## Collision testing -/

/-- C1: `a.collides_with(b)` is true exactly when both axis distances between the centres
are strictly below the sum of the half-extents on that axis; two boxes whose distance on
some axis equals that sum (boxes that only touch) do not collide. -/
theorem collides_with_iff_strict_overlap (a b : sprite) :
    (a.collides_with b = true ↔
      |b.x - a.x| < a.halfWidth + b.halfWidth ∧ |b.y - a.y| < a.halfHeight + b.halfHeight) ∧
    (|b.x - a.x| = a.halfWidth + b.halfWidth ∨ |b.y - a.y| = a.halfHeight + b.halfHeight →
      a.collides_with b = false) := by
  constructor
  · simp [sprite.collides_with]
  · intro h
    rcases h with h | h
    · simp [sprite.collides_with, h]
    · simp [sprite.collides_with, h]

/-- Two unit squares whose centres are one unit apart touch on an edge and do not
collide. -/
theorem collides_with_iff_strict_overlap_witness :
    (sprite.init 1 0 0 1 1).collides_with (sprite.init 1 1 0 1 1) = false :=
  (collides_with_iff_strict_overlap (sprite.init 1 0 0 1 1) (sprite.init 1 1 0 1 1)).2
    (Or.inl (by decide!))

/-- C2: the collision test is symmetric in its two sprites. -/
theorem collides_with_symm (a b : sprite) : a.collides_with b = b.collides_with a := by
  simp only [sprite.collides_with]
  rw [abs_sub_comm b.x a.x, abs_sub_comm b.y a.y, add_comm a.halfWidth, add_comm a.halfHeight]

/-! ## Basic facts about the state operations -/

theorem modify_sprites (s : invaderers_app) (i : Nat) (f : sprite → sprite) (k : Nat) :
    (s.modify i f).sprites k = if k = i then f (s.sprites i) else s.sprites k := by
  simp [invaderers_app.modify, Function.update_apply]

theorem disable_and_park_sprites (s : invaderers_app) (i k : Nat) :
    (s.disable_and_park i).sprites k =
      if k = i then ((s.sprites i).set_enabled false).translate 20 0 else s.sprites k := by
  by_cases h : k = i <;> simp [invaderers_app.disable_and_park, modify_sprites, h]

theorem first_match_some {p : Nat → Bool} : ∀ (n a j : Nat), first_match p a n = some j →
    a ≤ j ∧ j < a + n ∧ p j = true ∧ ∀ k, a ≤ k → k < j → p k = false := by
  intro n
  induction n with
  | zero => intro a j h; simp [first_match] at h
  | succ n ih =>
    intro a j h
    by_cases hp : p a = true
    · simp only [first_match, hp, if_true, Option.some.injEq] at h
      subst h
      exact ⟨le_refl _, by omega, hp, fun k h1 h2 => absurd h1 (by omega)⟩
    · simp only [first_match, hp] at h
      obtain ⟨h1, h2, h3, h4⟩ := ih (a + 1) j h
      refine ⟨by omega, by omega, h3, ?_⟩
      intro k hk1 hk2
      by_cases hka : k = a
      · subst hka; simpa using hp
      · exact h4 k (by omega) hk2

theorem first_match_none {p : Nat → Bool} : ∀ (n a : Nat), first_match p a n = none →
    ∀ k, a ≤ k → k < a + n → p k = false := by
  intro n
  induction n with
  | zero => intro a _ k h1 h2; omega
  | succ n ih =>
    intro a h k h1 h2
    by_cases hp : p a = true
    · simp [first_match, hp] at h
    · simp only [first_match, hp] at h
      by_cases hka : k = a
      · subst hka; simpa using hp
      · exact ih (a + 1) h k (by omega) (by omega)

theorem first_match_congr {p q : Nat → Bool} : ∀ (n a : Nat),
    (∀ k, a ≤ k → k < a + n → p k = q k) → first_match p a n = first_match q a n := by
  intro n
  induction n with
  | zero => intro a _; rfl
  | succ n ih =>
    intro a h
    simp only [first_match]
    rw [h a (le_refl _) (by omega), ih (a + 1) (fun k h1 h2 => h k (by omega) (by omega))]

theorem first_match_exists {p : Nat → Bool} : ∀ (n a k : Nat), a ≤ k → k < a + n →
    p k = true → ∃ j, first_match p a n = some j := by
  intro n a k h1 h2 hp
  cases hfm : first_match p a n with
  | some j => exact ⟨j, rfl⟩
  | none =>
    have := first_match_none n a hfm k h1 h2
    rw [hp] at this
    cases this

/-- The values of the enum constants. -/
theorem sprite_index_values :
    ship_sprite = 0 ∧ game_over_sprite = 1 ∧ game_won_sprite = 2 ∧ game_restart_sprite = 3 ∧
    game_pause_sprite = 4 ∧ background_sprite = 5 ∧ first_invaderer_sprite = 6 ∧
    num_invaderers = 308 ∧ first_missile_sprite = 314 ∧ num_missiles = 2 ∧
    first_bomb_sprite = 316 ∧ num_bombs = 2 ∧ first_border_sprite = 318 ∧
    first_wall_sprite = 323 ∧ num_walls = 10 ∧ num_sprites = 333 := by
  decide

/-! ## Wall hits -/

theorem on_hit_wall_damage (tex : String → Nat) (s : invaderers_app) (w : Nat)
    (h : 1 < (s.sprites w).lives) :
    ((s.on_hit_wall tex w).sprites w).lives = (s.sprites w).lives - 1 ∧
    ((s.on_hit_wall tex w).sprites w).enabled = (s.sprites w).enabled ∧
    ((s.on_hit_wall tex w).sprites w).x = (s.sprites w).x ∧
    ((s.on_hit_wall tex w).sprites w).y = (s.sprites w).y := by
  have h1 : 1 < ((s.get_sound_source).sprites w).get_lives_left := h
  simp only [invaderers_app.on_hit_wall, gt_iff_lt, h1, if_true, modify_sprites]
  simp [sprite.change_texture, sprite.life_lost, invaderers_app.get_sound_source]

theorem on_hit_wall_destroy (tex : String → Nat) (s : invaderers_app) (w : Nat)
    (h : ¬ 1 < (s.sprites w).lives) :
    ((s.on_hit_wall tex w).sprites w).lives = (s.sprites w).lives ∧
    ((s.on_hit_wall tex w).sprites w).enabled = false ∧
    ((s.on_hit_wall tex w).sprites w).x = (s.sprites w).x + 20 ∧
    ((s.on_hit_wall tex w).sprites w).y = (s.sprites w).y := by
  have h1 : ¬ 1 < ((s.get_sound_source).sprites w).get_lives_left := h
  simp only [invaderers_app.on_hit_wall, gt_iff_lt, h1, if_false, modify_sprites]
  simp [sprite.translate, sprite.set_enabled, invaderers_app.get_sound_source]

theorem on_hit_wall_iterate_lt (tex : String → Nat) (w : Nat) (k : Nat) :
    ∀ s : invaderers_app, (s.sprites w).enabled = true → (k : Int) < (s.sprites w).lives →
      (((fun t => invaderers_app.on_hit_wall tex t w)^[k] s).sprites w).enabled = true ∧
      (((fun t => invaderers_app.on_hit_wall tex t w)^[k] s).sprites w).lives
        = (s.sprites w).lives - k ∧
      (((fun t => invaderers_app.on_hit_wall tex t w)^[k] s).sprites w).x = (s.sprites w).x ∧
      (((fun t => invaderers_app.on_hit_wall tex t w)^[k] s).sprites w).y = (s.sprites w).y := by
  induction k with
  | zero => intro s hen _; simp [hen]
  | succ k ih =>
    intro s hen hk
    have hgt : 1 < (s.sprites w).lives := by push_cast at hk; omega
    obtain ⟨d1, d2, d3, d4⟩ := on_hit_wall_damage tex s w hgt
    have := ih (s.on_hit_wall tex w) (by rw [d2, hen]) (by rw [d1]; push_cast at hk; omega)
    obtain ⟨i1, i2, i3, i4⟩ := this
    rw [Function.iterate_succ_apply]
    refine ⟨i1, ?_, ?_, ?_⟩
    · rw [i2, d1]; push_cast; ring
    · rw [i3, d3]
    · rw [i4, d4]

theorem on_hit_wall_lives_ge_one (tex : String → Nat) (w : Nat) (k : Nat) :
    ∀ s : invaderers_app, 1 ≤ (s.sprites w).lives →
      1 ≤ (((fun t => invaderers_app.on_hit_wall tex t w)^[k] s).sprites w).lives := by
  induction k with
  | zero => intro s h; simpa using h
  | succ k ih =>
    intro s h
    rw [Function.iterate_succ_apply]
    apply ih
    by_cases hgt : 1 < (s.sprites w).lives
    · rw [(on_hit_wall_damage tex s w hgt).1]; omega
    · rw [(on_hit_wall_destroy tex s w hgt).1]; exact h

/-- C10: `on_hit_wall` on a wall with more than one life takes one life and leaves the
wall enabled where it is; otherwise it disables the wall and moves it by `(+20, 0)` with
its lives unchanged.  Hence an enabled wall with `L ≥ 1` lives is still enabled, in place
and with `L - k` lives after `k < L` hits, is disabled by hit number `L`, and its life
count is at least 1 after any number of hits. -/
theorem on_hit_wall_spec (tex : String → Nat) (s : invaderers_app) (w : Nat) :
    (1 < (s.sprites w).lives →
      ((s.on_hit_wall tex w).sprites w).lives = (s.sprites w).lives - 1 ∧
      ((s.on_hit_wall tex w).sprites w).enabled = (s.sprites w).enabled ∧
      ((s.on_hit_wall tex w).sprites w).x = (s.sprites w).x ∧
      ((s.on_hit_wall tex w).sprites w).y = (s.sprites w).y) ∧
    (¬ 1 < (s.sprites w).lives →
      ((s.on_hit_wall tex w).sprites w).lives = (s.sprites w).lives ∧
      ((s.on_hit_wall tex w).sprites w).enabled = false ∧
      ((s.on_hit_wall tex w).sprites w).x = (s.sprites w).x + 20 ∧
      ((s.on_hit_wall tex w).sprites w).y = (s.sprites w).y) ∧
    (∀ L : Nat, 1 ≤ L → (s.sprites w).lives = L → (s.sprites w).enabled = true →
      (∀ k : Nat, k < L →
        (((fun t => invaderers_app.on_hit_wall tex t w)^[k] s).sprites w).enabled = true ∧
        (((fun t => invaderers_app.on_hit_wall tex t w)^[k] s).sprites w).lives = L - k ∧
        (((fun t => invaderers_app.on_hit_wall tex t w)^[k] s).sprites w).x = (s.sprites w).x ∧
        (((fun t => invaderers_app.on_hit_wall tex t w)^[k] s).sprites w).y = (s.sprites w).y) ∧
      (((fun t => invaderers_app.on_hit_wall tex t w)^[L] s).sprites w).enabled = false ∧
      (((fun t => invaderers_app.on_hit_wall tex t w)^[L] s).sprites w).x
        = (s.sprites w).x + 20 ∧
      ∀ k : Nat,
        1 ≤ (((fun t => invaderers_app.on_hit_wall tex t w)^[k] s).sprites w).lives) := by
  refine ⟨on_hit_wall_damage tex s w, on_hit_wall_destroy tex s w, ?_⟩
  intro L hL hlives hen
  refine ⟨?_, ?_, ?_, ?_⟩
  · intro k hk
    have := on_hit_wall_iterate_lt tex w k s hen (by rw [hlives]; exact_mod_cast hk)
    rw [hlives] at this
    exact this
  · obtain ⟨m, rfl⟩ : ∃ m, L = m + 1 := ⟨L - 1, by omega⟩
    have := on_hit_wall_iterate_lt tex w m s hen (by rw [hlives]; push_cast; omega)
    rw [Function.iterate_succ_apply']
    have hle : ¬ 1 < (((fun t => invaderers_app.on_hit_wall tex t w)^[m] s).sprites w).lives := by
      rw [this.2.1, hlives]; push_cast; omega
    exact (on_hit_wall_destroy tex _ w hle).2.1
  · obtain ⟨m, rfl⟩ : ∃ m, L = m + 1 := ⟨L - 1, by omega⟩
    have := on_hit_wall_iterate_lt tex w m s hen (by rw [hlives]; push_cast; omega)
    rw [Function.iterate_succ_apply']
    have hle : ¬ 1 < (((fun t => invaderers_app.on_hit_wall tex t w)^[m] s).sprites w).lives := by
      rw [this.2.1, hlives]; push_cast; omega
    rw [(on_hit_wall_destroy tex _ w hle).2.2.1, this.2.2.1]
  · intro k
    exact on_hit_wall_lives_ge_one tex w k s (by rw [hlives]; exact_mod_cast hL)

/-- A fresh wall with three lives keeps standing, with one life left, after two hits and
is disabled by the third. -/
theorem on_hit_wall_spec_witness :
    (((fun t => invaderers_app.on_hit_wall tex1 t first_wall_sprite)^[2] wall_app).sprites
        first_wall_sprite).enabled = true ∧
    (((fun t => invaderers_app.on_hit_wall tex1 t first_wall_sprite)^[2] wall_app).sprites
        first_wall_sprite).lives = 1 ∧
    (((fun t => invaderers_app.on_hit_wall tex1 t first_wall_sprite)^[3] wall_app).sprites
        first_wall_sprite).enabled = false :=
  have h := (on_hit_wall_spec tex1 wall_app first_wall_sprite).2.2 3 (by decide)
    (by decide!) (by decide!)
  ⟨(h.1 2 (by decide)).1, (h.1 2 (by decide)).2.1, h.2.1⟩

/-! ## The branches of `simulate` -/

theorem simulate_ended (tex : String → Nat) (inp : input) (s : invaderers_app)
    (hover : s.game_over = true) (hR : inp.key_R = false) :
    s.simulate tex inp = s := by
  simp [invaderers_app.simulate, hover, hR]

theorem simulate_paused (tex : String → Nat) (inp : input) (s : invaderers_app)
    (hover : s.game_over = false) (hpaused : s.game_paused = true)
    (hP : inp.key_P_going_down = false) :
    s.simulate tex inp = s := by
  simp [invaderers_app.simulate, hpaused, hover, hP]

theorem simulate_running (tex : String → Nat) (inp : input) (s : invaderers_app)
    (hover : s.game_over = false) (hpaused : s.game_paused = false)
    (hP : inp.key_P_going_down = false) :
    s.simulate tex inp = s.run_frame tex inp := by
  simp [invaderers_app.simulate, hover, hpaused, hP]

theorem simulate_pause (tex : String → Nat) (inp : input) (s : invaderers_app)
    (hover : s.game_over = false) (hpaused : s.game_paused = false)
    (hP : inp.key_P_going_down = true) :
    s.simulate tex inp =
      ({ s with game_paused := true } : invaderers_app).modify game_pause_sprite
        (fun p => p.translate (-20) 0) := by
  simp [invaderers_app.simulate, hover, hpaused, hP]

theorem simulate_unpause (tex : String → Nat) (inp : input) (s : invaderers_app)
    (hover : s.game_over = false) (hpaused : s.game_paused = true)
    (hP : inp.key_P_going_down = true) :
    s.simulate tex inp =
      (({ s with game_paused := false } : invaderers_app).modify game_pause_sprite
        (fun p => p.translate 20 0)).run_frame tex inp := by
  simp [invaderers_app.simulate, hover, hpaused, hP]

/-- C7: when the game is over and the restart key is not held, `simulate` returns the
state it was given: no sprite and no game variable changes. -/
theorem simulate_game_over_unchanged (tex : String → Nat) (inp : input) (s : invaderers_app)
    (hover : s.game_over = true) (hR : inp.key_R = false) :
    s.simulate tex inp = s :=
  simulate_ended tex inp s hover hR

/-- An ended game with no key held stays as it is. -/
theorem simulate_game_over_unchanged_witness :
    ended_app.simulate tex1 no_keys = ended_app :=
  simulate_game_over_unchanged tex1 no_keys ended_app rfl rfl

/-- C8: when the game is paused, not over, and the pause key has not just gone down,
`simulate` returns the state it was given: no phase of the frame runs. -/
theorem simulate_paused_unchanged (tex : String → Nat) (inp : input) (s : invaderers_app)
    (hpaused : s.game_paused = true) (hover : s.game_over = false)
    (hP : inp.key_P_going_down = false) :
    s.simulate tex inp = s :=
  simulate_paused tex inp s hover hpaused hP

/-- A paused game with no key held stays as it is. -/
theorem simulate_paused_unchanged_witness :
    paused_app.simulate tex1 no_keys = paused_app :=
  simulate_paused_unchanged tex1 no_keys paused_app rfl rfl rfl

/-! ## One iteration of the missile loop -/

theorem move_missile_disabled (tex : String → Nat) (i : Nat) (s : invaderers_app)
    (hen : (s.sprites (first_missile_sprite + i)).enabled = false) :
    invaderers_app.move_missile tex i s = s := by
  simp [invaderers_app.move_missile, hen]

theorem move_missile_scan (i : Nat) (s : invaderers_app) :
    first_match (fun j =>
      ((s.modify (first_missile_sprite + i)
        (fun p => p.translate 0 invaderers_app.missile_speed)).sprites
          (first_invaderer_sprite + j)).enabled &&
      ((s.modify (first_missile_sprite + i)
        (fun p => p.translate 0 invaderers_app.missile_speed)).sprites
          (first_missile_sprite + i)).collides_with
        ((s.modify (first_missile_sprite + i)
          (fun p => p.translate 0 invaderers_app.missile_speed)).sprites
            (first_invaderer_sprite + j))) 0 num_invaderers
    = first_match (missile_overlaps_invader s i) 0 num_invaderers := by
  apply first_match_congr
  intro k _ hk
  have hne : first_invaderer_sprite + k ≠ first_missile_sprite + i := by
    have hidx := sprite_index_values
    omega
  simp [modify_sprites, missile_overlaps_invader, hne]

theorem move_missile_hit (tex : String → Nat) (i j : Nat) (s : invaderers_app)
    (hen : (s.sprites (first_missile_sprite + i)).enabled = true)
    (hfm : first_match (missile_overlaps_invader s i) 0 num_invaderers = some j) :
    invaderers_app.move_missile tex i s =
      (((s.modify (first_missile_sprite + i)
          (fun p => p.translate 0 invaderers_app.missile_speed)).disable_and_park
            (first_invaderer_sprite + j)).disable_and_park
              (first_missile_sprite + i)).on_hit_invaderer := by
  simp only [invaderers_app.move_missile, hen, if_true]
  rw [move_missile_scan i s, hfm]

theorem move_missile_miss (tex : String → Nat) (i : Nat) (s : invaderers_app)
    (hen : (s.sprites (first_missile_sprite + i)).enabled = true)
    (hfm : first_match (missile_overlaps_invader s i) 0 num_invaderers = none) :
    invaderers_app.move_missile tex i s =
      missile_walls_bombs tex
        (missile_top_border
          (s.modify (first_missile_sprite + i)
            (fun p => p.translate 0 invaderers_app.missile_speed))
          (first_missile_sprite + i))
        (first_missile_sprite + i) := by
  simp only [invaderers_app.move_missile, hen, if_true]
  rw [move_missile_scan i s, hfm]
  rfl

theorem on_hit_invaderer_sprites (s : invaderers_app) (k : Nat)
    (h2 : k ≠ game_won_sprite) (h3 : k ≠ game_restart_sprite) :
    (s.on_hit_invaderer).sprites k = s.sprites k := by
  unfold invaderers_app.on_hit_invaderer
  dsimp only
  split_ifs <;> simp [modify_sprites, invaderers_app.get_sound_source, h2, h3]

theorem on_hit_invaderer_score (s : invaderers_app) :
    (s.on_hit_invaderer).score = s.score + 1 := by
  unfold invaderers_app.on_hit_invaderer
  dsimp only
  split_ifs <;> simp [invaderers_app.modify, invaderers_app.get_sound_source]

theorem on_hit_invaderer_live (s : invaderers_app) :
    (s.on_hit_invaderer).live_invaderers = s.live_invaderers - 1 := by
  unfold invaderers_app.on_hit_invaderer
  dsimp only
  split_ifs <;> simp [invaderers_app.modify, invaderers_app.get_sound_source]

theorem on_hit_wall_sprites (tex : String → Nat) (s : invaderers_app) (w k : Nat)
    (h : k ≠ w) : (s.on_hit_wall tex w).sprites k = s.sprites k := by
  unfold invaderers_app.on_hit_wall
  dsimp only
  split_ifs <;> simp [modify_sprites, invaderers_app.get_sound_source, h]

theorem on_hit_wall_vars (tex : String → Nat) (s : invaderers_app) (w : Nat) :
    (s.on_hit_wall tex w).score = s.score ∧
    (s.on_hit_wall tex w).live_invaderers = s.live_invaderers ∧
    (s.on_hit_wall tex w).game_over = s.game_over ∧
    (s.on_hit_wall tex w).bombs_disabled = s.bombs_disabled := by
  unfold invaderers_app.on_hit_wall
  dsimp only
  split_ifs <;> simp [invaderers_app.modify, invaderers_app.get_sound_source]

theorem missile_top_border_sprites (s : invaderers_app) (m k : Nat) (h : k ≠ m) :
    (missile_top_border s m).sprites k = s.sprites k := by
  unfold missile_top_border
  split_ifs <;> simp [disable_and_park_sprites, h]

theorem missile_top_border_vars (s : invaderers_app) (m : Nat) :
    (missile_top_border s m).score = s.score ∧
    (missile_top_border s m).live_invaderers = s.live_invaderers ∧
    (missile_top_border s m).game_over = s.game_over ∧
    (missile_top_border s m).bombs_disabled = s.bombs_disabled := by
  unfold missile_top_border
  split_ifs <;> simp [invaderers_app.disable_and_park, invaderers_app.modify]

theorem missile_walls_bombs_sprites (tex : String → Nat) (s : invaderers_app) (m k : Nat)
    (h : k ≠ m) (hk : k < first_bomb_sprite) :
    (missile_walls_bombs tex s m).sprites k = s.sprites k := by
  have hidx := sprite_index_values
  unfold missile_walls_bombs
  split
  · rw [on_hit_wall_sprites _ _ _ _ (by have hidx := sprite_index_values; omega)]
    simp [disable_and_park_sprites, h]
  · split
    · rename_i b _
      have : k ≠ first_bomb_sprite + b := by have hidx := sprite_index_values; omega
      simp [invaderers_app.on_projectile_collide, invaderers_app.get_sound_source,
        disable_and_park_sprites, h, this]
    · rfl

theorem missile_walls_bombs_vars (tex : String → Nat) (s : invaderers_app) (m : Nat) :
    (missile_walls_bombs tex s m).score = s.score ∧
    (missile_walls_bombs tex s m).live_invaderers = s.live_invaderers ∧
    (missile_walls_bombs tex s m).game_over = s.game_over ∧
    (missile_walls_bombs tex s m).bombs_disabled = s.bombs_disabled := by
  unfold missile_walls_bombs
  split
  · rename_i w _
    have := on_hit_wall_vars tex (s.disable_and_park m) (first_wall_sprite + w)
    simpa [invaderers_app.disable_and_park, invaderers_app.modify] using this
  · split
    · simp [invaderers_app.on_projectile_collide, invaderers_app.get_sound_source,
        invaderers_app.disable_and_park, invaderers_app.modify]
    · simp

theorem move_missile_hit_effects (tex : String → Nat) (i j : Nat) (s : invaderers_app)
    (hen : (s.sprites (first_missile_sprite + i)).enabled = true)
    (hfm : first_match (missile_overlaps_invader s i) 0 num_invaderers = some j) :
    (invaderers_app.move_missile tex i s).sprites (first_missile_sprite + i) =
      (((s.sprites (first_missile_sprite + i)).translate 0
        invaderers_app.missile_speed).set_enabled false).translate 20 0 ∧
    (invaderers_app.move_missile tex i s).sprites (first_invaderer_sprite + j) =
      ((s.sprites (first_invaderer_sprite + j)).set_enabled false).translate 20 0 ∧
    (invaderers_app.move_missile tex i s).live_invaderers = s.live_invaderers - 1 ∧
    (invaderers_app.move_missile tex i s).score = s.score + 1 ∧
    ∀ k, k ≠ first_missile_sprite + i → k ≠ first_invaderer_sprite + j →
      k ≠ game_won_sprite → k ≠ game_restart_sprite →
      (invaderers_app.move_missile tex i s).sprites k = s.sprites k := by
  have hj := (first_match_some _ _ _ hfm).2.1
  have hne : first_invaderer_sprite + j ≠ first_missile_sprite + i := by
    have hidx := sprite_index_values
    omega
  rw [move_missile_hit tex i j s hen hfm]
  refine ⟨?_, ?_, ?_, ?_, ?_⟩
  · rw [on_hit_invaderer_sprites _ _ (by have hidx := sprite_index_values; omega)
      (by have hidx := sprite_index_values; omega)]
    simp [disable_and_park_sprites, modify_sprites, hne.symm]
  · rw [on_hit_invaderer_sprites _ _ (by have hidx := sprite_index_values; omega)
      (by have hidx := sprite_index_values; omega)]
    simp [disable_and_park_sprites, modify_sprites, hne]
  · rw [on_hit_invaderer_live]
    simp [invaderers_app.disable_and_park, invaderers_app.modify]
  · rw [on_hit_invaderer_score]
    simp [invaderers_app.disable_and_park, invaderers_app.modify]
  · intro k h1 h2 h3 h4
    rw [on_hit_invaderer_sprites _ _ h3 h4]
    simp [disable_and_park_sprites, modify_sprites, h1, h2]

theorem move_missile_miss_effects (tex : String → Nat) (i : Nat) (s : invaderers_app)
    (hen : (s.sprites (first_missile_sprite + i)).enabled = true)
    (hfm : first_match (missile_overlaps_invader s i) 0 num_invaderers = none) :
    (invaderers_app.move_missile tex i s).score = s.score ∧
    (invaderers_app.move_missile tex i s).live_invaderers = s.live_invaderers ∧
    (invaderers_app.move_missile tex i s).game_over = s.game_over ∧
    (invaderers_app.move_missile tex i s).bombs_disabled = s.bombs_disabled ∧
    ∀ k, k ≠ first_missile_sprite + i → k < first_bomb_sprite →
      (invaderers_app.move_missile tex i s).sprites k = s.sprites k := by
  rw [move_missile_miss tex i s hen hfm]
  obtain ⟨a1, a2, a3, a4⟩ := missile_walls_bombs_vars tex
    (missile_top_border (s.modify (first_missile_sprite + i)
      (fun p => p.translate 0 invaderers_app.missile_speed)) (first_missile_sprite + i))
    (first_missile_sprite + i)
  obtain ⟨b1, b2, b3, b4⟩ := missile_top_border_vars
    (s.modify (first_missile_sprite + i)
      (fun p => p.translate 0 invaderers_app.missile_speed)) (first_missile_sprite + i)
  refine ⟨by rw [a1, b1]; rfl, by rw [a2, b2]; rfl, by rw [a3, b3]; rfl,
    by rw [a4, b4]; rfl, ?_⟩
  intro k h1 h2
  rw [missile_walls_bombs_sprites tex _ _ _ h1 h2, missile_top_border_sprites _ _ _ h1]
  simp [modify_sprites, h1]

/-- One iteration of the missile loop changes no other missile, no disabled invader, and
none of the ship, the game-over banner, the pause banner and the background. -/
theorem move_missile_sprites_frame (tex : String → Nat) (i : Nat) (s : invaderers_app)
    (k : Nat) (hk : k < first_bomb_sprite) (hkm : k ≠ first_missile_sprite + i)
    (hk2 : k ≠ game_won_sprite) (hk3 : k ≠ game_restart_sprite)
    (hdis : first_invaderer_sprite ≤ k → k < first_missile_sprite →
      (s.sprites k).enabled = false) :
    (invaderers_app.move_missile tex i s).sprites k = s.sprites k := by
  cases hen : (s.sprites (first_missile_sprite + i)).enabled with
  | false => rw [move_missile_disabled tex i s hen]
  | true =>
    cases hfm : first_match (missile_overlaps_invader s i) 0 num_invaderers with
    | none => exact (move_missile_miss_effects tex i s hen hfm).2.2.2.2 k hkm hk
    | some j =>
      obtain ⟨_, hj, hp, _⟩ := first_match_some _ _ _ hfm
      have hej : (s.sprites (first_invaderer_sprite + j)).enabled = true := by
        simp only [missile_overlaps_invader, Bool.and_eq_true] at hp
        exact hp.1
      have hne : k ≠ first_invaderer_sprite + j := by
        intro h
        subst h
        have hidx := sprite_index_values
        rw [hdis (by omega) (by omega)] at hej
        cases hej
      exact (move_missile_hit_effects tex i j s hen hfm).2.2.2.2 k hkm hne hk2 hk3

/-! ## A missile that hits an invader -/

/-- Two missiles on one invader, which the cooldown between two shots rules out in a game:
in `two_missiles_app` missile 1 is enabled and, advanced by its step, overlaps the enabled
invader 0, yet after `move_missiles` it is still enabled, because missile 0 destroyed that
invader first; only one invader is counted. -/
theorem move_missiles_second_missile_not_disabled :
    (two_missiles_app.sprites (first_missile_sprite + 1)).enabled = true ∧
    missile_overlaps_invader two_missiles_app 1 0 = true ∧
    ¬ ((two_missiles_app.move_missiles tex1).sprites (first_missile_sprite + 1)).enabled = false ∧
    (two_missiles_app.move_missiles tex1).score = two_missiles_app.score + 1 := by
  decide!

/-! ## Border hits are followed by the wall loop -/

/-- The border branches of the two loops do not end the iteration.  In `border_wall_app`,
which has enabled walls 20 to the right of the playfield (no state of a game has), the
missile, advanced by its step, matches the top-border test and is parked; the wall loop still runs, matches the wall of slot 3
against the parked missile, parks the missile a second time (it ends at `x = 40`) and
calls `on_hit_wall` (the wall is down to 2 lives).  The bomb loop does the same after the
bottom-border test: the bomb ends at `x = 2 + 40` and the wall of slot 4 loses a life. -/
theorem border_hit_then_wall_hit :
    ((border_wall_app.sprites first_missile_sprite).translate 0
        invaderers_app.missile_speed).collides_with
      (border_wall_app.sprites (first_border_sprite + 1)) = true ∧
    (border_wall_app.sprites first_missile_sprite).x = 0 ∧
    ((border_wall_app.move_missiles tex1).sprites first_missile_sprite).x = 40 ∧
    (border_wall_app.sprites (first_wall_sprite + 3)).lives = 3 ∧
    ((border_wall_app.move_missiles tex1).sprites (first_wall_sprite + 3)).lives = 2 ∧
    ((border_wall_app.sprites first_bomb_sprite).translate 0
        (-invaderers_app.bomb_speed)).collides_with
      (border_wall_app.sprites (first_border_sprite + 0)) = true ∧
    (border_wall_app.sprites first_bomb_sprite).x = 2 ∧
    ((border_wall_app.move_bombs tex1).sprites first_bomb_sprite).x = 42 ∧
    (border_wall_app.sprites (first_wall_sprite + 4)).lives = 3 ∧
    ((border_wall_app.move_bombs tex1).sprites (first_wall_sprite + 4)).lives = 2 := by
  decide!

/-! ## Counting destroyed invaders -/

theorem countP_add_of_split {α : Type} (p q r : α → Bool) : ∀ l : List α,
    (∀ x ∈ l, p x = (q x || r x) ∧ ¬ (q x = true ∧ r x = true)) →
    l.countP p = l.countP q + l.countP r := by
  intro l
  induction l with
  | nil => intro _; rfl
  | cons a l ih =>
    intro h
    have ha := h a (List.mem_cons_self a l)
    have hl := ih (fun x hx => h x (List.mem_cons_of_mem a hx))
    rw [List.countP_cons, List.countP_cons, List.countP_cons, hl, ha.1]
    have hd := ha.2
    cases hq : q a <;> cases hr : r a <;> simp_all <;> omega

theorem same_invaders_refl (s : invaderers_app) : same_invaders s s :=
  ⟨rfl, fun _ _ => rfl⟩

theorem same_invaders_trans {s t u : invaderers_app} (h1 : same_invaders s t)
    (h2 : same_invaders t u) : same_invaders s u :=
  ⟨by rw [h2.1, h1.1], fun j hj => by rw [h2.2 j hj, h1.2 j hj]⟩

theorem destroys_of_same {s t : invaderers_app} (h : same_invaders s t) : destroys s t 0 := by
  refine ⟨by rw [h.1]; simp, fun j hj he => by rw [← h.2 j hj]; exact he, ?_⟩
  unfold invaders_destroyed
  rw [List.countP_eq_zero]
  intro j hj
  rw [List.mem_range] at hj
  rw [h.2 j hj]
  simp

theorem destroys_trans {s t u : invaderers_app} {a b : Nat} (h1 : destroys s t a)
    (h2 : destroys t u b) : destroys s u (a + b) := by
  obtain ⟨s1, m1, c1⟩ := h1
  obtain ⟨s2, m2, c2⟩ := h2
  refine ⟨by rw [s2, s1]; push_cast; ring, fun j hj he => m1 j hj (m2 j hj he), ?_⟩
  rw [← c1, ← c2]
  unfold invaders_destroyed
  apply countP_add_of_split
  intro j hj
  rw [List.mem_range] at hj
  have hm1 := m1 j hj
  have hm2 := m2 j hj
  cases hs : invader_enabled s j <;> cases ht : invader_enabled t j <;>
    cases hu : invader_enabled u j <;> simp_all

theorem destroys_one {s t : invaderers_app} (j0 : Nat) (hj0 : j0 < num_invaderers)
    (hscore : t.score = s.score + 1) (hen : invader_enabled s j0 = true)
    (hflags : ∀ j, j < num_invaderers →
      invader_enabled t j = (if j = j0 then false else invader_enabled s j)) :
    destroys s t 1 := by
  refine ⟨by rw [hscore]; simp, ?_, ?_⟩
  · intro j hj he
    rw [hflags j hj] at he
    by_cases h : j = j0
    · simp [h] at he
    · simpa [h] using he
  · unfold invaders_destroyed
    have hc : (List.range num_invaderers).countP
        (fun j => invader_enabled s j && !invader_enabled t j)
        = (List.range num_invaderers).countP (fun j => j == j0) := by
      apply List.countP_congr
      intro j hj
      rw [List.mem_range] at hj
      rw [hflags j hj]
      by_cases h : j = j0
      · subst h; simp [hen]
      · simp [h]
    rw [hc]
    exact List.count_eq_one_of_mem (List.nodup_range _) (List.mem_range.2 hj0)

theorem same_invaders_of_sprites {s t : invaderers_app} (hscore : t.score = s.score)
    (h : ∀ k, first_invaderer_sprite ≤ k → k < first_missile_sprite →
      t.sprites k = s.sprites k) : same_invaders s t := by
  have hidx := sprite_index_values
  refine ⟨hscore, fun j hj => ?_⟩
  unfold invader_enabled
  rw [h _ (by omega) (by omega)]

/-- One iteration of the missile loop destroys at most one invader and scores it. -/
theorem move_missile_destroys (tex : String → Nat) (i : Nat) (s : invaderers_app) :
    ∃ c, destroys s (invaderers_app.move_missile tex i s) c := by
  have hidx := sprite_index_values
  cases hen : (s.sprites (first_missile_sprite + i)).enabled with
  | false =>
    rw [move_missile_disabled tex i s hen]
    exact ⟨0, destroys_of_same (same_invaders_refl s)⟩
  | true =>
    cases hfm : first_match (missile_overlaps_invader s i) 0 num_invaderers with
    | none =>
      obtain ⟨e1, _, _, _, e5⟩ := move_missile_miss_effects tex i s hen hfm
      exact ⟨0, destroys_of_same (same_invaders_of_sprites e1
        (fun k h1 h2 => e5 k (by omega) (by omega)))⟩
    | some j0 =>
      obtain ⟨_, hj0, hp0, _⟩ := first_match_some _ _ _ hfm
      obtain ⟨_, e2, _, e4, e5⟩ := move_missile_hit_effects tex i j0 s hen hfm
      refine ⟨1, destroys_one j0 (by omega) e4 ?_ ?_⟩
      · simp only [missile_overlaps_invader, Bool.and_eq_true] at hp0
        exact hp0.1
      · intro j hj
        unfold invader_enabled
        by_cases h : j = j0
        · subst h
          rw [e2]
          simp [sprite.translate, sprite.set_enabled]
        · rw [e5 _ (by omega) (by omega) (by omega) (by omega)]
          simp [h]

/-! ## What the other phases leave alone -/

theorem move_ship_frame (inp : input) (s : invaderers_app) :
    (s.move_ship inp).score = s.score ∧
    (s.move_ship inp).game_over = s.game_over ∧
    ((s.move_ship inp).sprites ship_sprite).lives = (s.sprites ship_sprite).lives ∧
    ∀ k, k ≠ ship_sprite → (s.move_ship inp).sprites k = s.sprites k := by
  unfold invaderers_app.move_ship
  dsimp only
  split_ifs <;>
    simp (disch := omega) [modify_sprites, invaderers_app.modify, sprite.translate] <;>
    intro k hk <;> simp [Function.update_apply, hk]

theorem fire_missiles_frame (inp : input) (s : invaderers_app) :
    (s.fire_missiles inp).score = s.score ∧
    (s.fire_missiles inp).game_over = s.game_over ∧
    ∀ k, k < first_missile_sprite → (s.fire_missiles inp).sprites k = s.sprites k := by
  unfold invaderers_app.fire_missiles
  split_ifs
  · simp
  · split
    · rename_i m _
      refine ⟨rfl, rfl, fun k hk => ?_⟩
      have hne : k ≠ first_missile_sprite + m := by omega
      simp [invaderers_app.get_sound_source, modify_sprites, hne]
    · simp
  · simp

theorem fire_bombs_frame (inp : input) (s : invaderers_app) :
    (s.fire_bombs inp).score = s.score ∧
    (s.fire_bombs inp).game_over = s.game_over ∧
    ∀ k, k < first_bomb_sprite → (s.fire_bombs inp).sprites k = s.sprites k := by
  unfold invaderers_app.fire_bombs
  split_ifs
  · simp
  · split
    · split
      · rename_i b _
        refine ⟨rfl, rfl, fun k hk => ?_⟩
        have hne : k ≠ first_bomb_sprite + b := by omega
        simp [invaderers_app.get_sound_source, modify_sprites, hne]
      · simp
    · simp

theorem move_invaders_loop (dx dy : ℚ) (s : invaderers_app) : ∀ n : Nat,
    for_loop n (fun j (t : invaderers_app) =>
      if (t.sprites (first_invaderer_sprite + j)).enabled then
        t.modify (first_invaderer_sprite + j) (fun p => p.translate dx dy)
      else t) s =
    { s with sprites := fun k =>
        if first_invaderer_sprite ≤ k ∧ k < first_invaderer_sprite + n ∧
            (s.sprites k).enabled = true then
          (s.sprites k).translate dx dy
        else s.sprites k } := by
  intro n
  induction n with
  | zero =>
    simp only [for_loop]
    cases s
    simp only [invaderers_app.mk.injEq, true_and]
    funext k
    rw [if_neg (fun h => absurd h.2.1 (by omega))]
  | succ n ih =>
    simp only [for_loop]
    rw [ih]
    cases s with
    | mk a1 a2 a3 a4 a5 a6 a7 a8 a9 a10 a11 a12 a13 sp =>
      simp only [invaderers_app.modify]
      cases hen : (sp (first_invaderer_sprite + n)).enabled with
      | false =>
        simp [hen]
        funext k
        by_cases hk : k = first_invaderer_sprite + n
        · subst hk; simp [hen]
        · have : k < first_invaderer_sprite + (n + 1) ↔ k < first_invaderer_sprite + n := by omega
          simp only [this]
      | true =>
        simp [hen]
        funext k
        by_cases hk : k = first_invaderer_sprite + n
        · subst hk; simp [hen]
        · have : k < first_invaderer_sprite + (n + 1) ↔ k < first_invaderer_sprite + n := by omega
          simp only [this, Function.update_apply, hk, if_false]

theorem move_invaders_eq (s : invaderers_app) (dx dy : ℚ) :
    s.move_invaders dx dy =
    { s with sprites := fun k =>
        if first_invaderer_sprite ≤ k ∧ k < first_missile_sprite ∧
            (s.sprites k).enabled = true then
          (s.sprites k).translate dx dy
        else s.sprites k } :=
  move_invaders_loop dx dy s num_invaderers

theorem move_invaders_frame (s : invaderers_app) (dx dy : ℚ) :
    (s.move_invaders dx dy).score = s.score ∧
    (s.move_invaders dx dy).game_over = s.game_over ∧
    (∀ k, ((s.move_invaders dx dy).sprites k).enabled = (s.sprites k).enabled) ∧
    ∀ k, (k < first_invaderer_sprite ∨ first_missile_sprite ≤ k) →
      (s.move_invaders dx dy).sprites k = s.sprites k := by
  rw [move_invaders_eq]
  refine ⟨rfl, rfl, fun k => ?_, fun k hk => ?_⟩
  · dsimp only
    split_ifs <;> simp [sprite.translate]
  · dsimp only
    rw [if_neg]
    omega

theorem swarm_frame_refl (s : invaderers_app) : swarm_frame s s :=
  ⟨rfl, rfl, fun _ => rfl, fun _ _ => rfl⟩

theorem swarm_frame_trans {s t u : invaderers_app} (h1 : swarm_frame s t)
    (h2 : swarm_frame t u) : swarm_frame s u :=
  ⟨by rw [h2.1, h1.1], by rw [h2.2.1, h1.2.1], fun k => by rw [h2.2.2.1 k, h1.2.2.1 k],
    fun k hk => by rw [h2.2.2.2 k hk, h1.2.2.2 k hk]⟩

theorem swarm_frame_move_invaders (s : invaderers_app) (dx dy : ℚ) :
    swarm_frame s (s.move_invaders dx dy) :=
  move_invaders_frame s dx dy

theorem swarm_frame_velocity (s : invaderers_app) (v : ℚ) :
    swarm_frame s { s with invader_velocity := v } :=
  ⟨rfl, rfl, fun _ => rfl, fun _ _ => rfl⟩

theorem swarm_frame_direction (s : invaderers_app) (d : ℚ) :
    swarm_frame s { s with invader_direction := d } :=
  ⟨rfl, rfl, fun _ => rfl, fun _ _ => rfl⟩

theorem move_swarm_frame (s : invaderers_app) : swarm_frame s s.move_swarm := by
  have H : ∀ (t : invaderers_app) (dx dy : ℚ),
      swarm_frame t (invaderers_app.move_invaders t dx dy) := swarm_frame_move_invaders
  unfold invaderers_app.move_swarm
  dsimp only
  generalize invaderers_app.move_invaders = mv at H ⊢
  split_ifs
  all_goals
    first
    | exact H _ _ _
    | exact swarm_frame_trans (H _ _ _)
        (swarm_frame_trans (swarm_frame_velocity _ _) (H _ _ _))
    | exact swarm_frame_trans (H _ _ _)
        (swarm_frame_trans (swarm_frame_velocity _ _)
          (swarm_frame_trans (H _ _ _)
            (swarm_frame_trans (swarm_frame_direction _ _) (H _ _ _))))

/-! ## One iteration of the bomb loop -/

theorem move_bomb_idle (tex : String → Nat) (i : Nat) (s : invaderers_app)
    (hen : (s.sprites (first_bomb_sprite + i)).enabled = false) :
    invaderers_app.move_bomb tex i s = s := by
  simp [invaderers_app.move_bomb, hen]

theorem move_bomb_hit (tex : String → Nat) (i : Nat) (s : invaderers_app)
    (h : bomb_hits_ship s i = true) :
    invaderers_app.move_bomb tex i s =
      invaderers_app.on_hit_ship
        { ((s.modify (first_bomb_sprite + i)
            (fun p => p.translate 0 (-invaderers_app.bomb_speed))).disable_and_park
              (first_bomb_sprite + i)) with bombs_disabled := 50 }
        ship_sprite := by
  have hidx := sprite_index_values
  simp only [bomb_hits_ship, Bool.and_eq_true] at h
  have hne : ship_sprite ≠ first_bomb_sprite + i := by omega
  simp [invaderers_app.move_bomb, h.1, modify_sprites, hne, h.2]

theorem move_bomb_miss (tex : String → Nat) (i : Nat) (s : invaderers_app)
    (hen : (s.sprites (first_bomb_sprite + i)).enabled = true)
    (h : bomb_hits_ship s i = false) :
    invaderers_app.move_bomb tex i s =
      bomb_walls tex
        (bomb_bottom_border
          (s.modify (first_bomb_sprite + i)
            (fun p => p.translate 0 (-invaderers_app.bomb_speed)))
          (first_bomb_sprite + i))
        (first_bomb_sprite + i) := by
  have hidx := sprite_index_values
  simp only [bomb_hits_ship, hen, Bool.true_and] at h
  have hne : ship_sprite ≠ first_bomb_sprite + i := by omega
  have hc : ((s.modify (first_bomb_sprite + i)
      (fun p => p.translate 0 (-invaderers_app.bomb_speed))).sprites
        (first_bomb_sprite + i)).collides_with
      ((s.modify (first_bomb_sprite + i)
        (fun p => p.translate 0 (-invaderers_app.bomb_speed))).sprites ship_sprite) = false := by
    simp only [modify_sprites, if_true, hne, if_false]
    exact h
  unfold invaderers_app.move_bomb
  simp only [hen, if_true, hc]
  rfl

theorem bomb_bottom_border_sprites (s : invaderers_app) (b k : Nat) (h : k ≠ b) :
    (bomb_bottom_border s b).sprites k = s.sprites k := by
  unfold bomb_bottom_border
  split_ifs <;> simp [disable_and_park_sprites, h]

theorem bomb_bottom_border_vars (s : invaderers_app) (b : Nat) :
    (bomb_bottom_border s b).score = s.score ∧
    (bomb_bottom_border s b).live_invaderers = s.live_invaderers ∧
    (bomb_bottom_border s b).game_over = s.game_over ∧
    (bomb_bottom_border s b).bombs_disabled = s.bombs_disabled := by
  unfold bomb_bottom_border
  split_ifs <;> simp [invaderers_app.disable_and_park, invaderers_app.modify]

theorem bomb_walls_sprites (tex : String → Nat) (s : invaderers_app) (b k : Nat)
    (h : k ≠ b) (hk : k < first_wall_sprite) :
    (bomb_walls tex s b).sprites k = s.sprites k := by
  unfold bomb_walls
  split
  · rw [on_hit_wall_sprites _ _ _ _ (by omega)]
    simp [disable_and_park_sprites, h]
  · rfl

theorem bomb_walls_vars (tex : String → Nat) (s : invaderers_app) (b : Nat) :
    (bomb_walls tex s b).score = s.score ∧
    (bomb_walls tex s b).live_invaderers = s.live_invaderers ∧
    (bomb_walls tex s b).game_over = s.game_over ∧
    (bomb_walls tex s b).bombs_disabled = s.bombs_disabled := by
  unfold bomb_walls
  split
  · rename_i w _
    have := on_hit_wall_vars tex (s.disable_and_park b) (first_wall_sprite + w)
    simpa [invaderers_app.disable_and_park, invaderers_app.modify] using this
  · simp

theorem move_bomb_miss_effects (tex : String → Nat) (i : Nat) (s : invaderers_app)
    (h : bomb_hits_ship s i = false) :
    (invaderers_app.move_bomb tex i s).score = s.score ∧
    (invaderers_app.move_bomb tex i s).live_invaderers = s.live_invaderers ∧
    (invaderers_app.move_bomb tex i s).game_over = s.game_over ∧
    (invaderers_app.move_bomb tex i s).bombs_disabled = s.bombs_disabled ∧
    ∀ k, k ≠ first_bomb_sprite + i → k < first_wall_sprite →
      (invaderers_app.move_bomb tex i s).sprites k = s.sprites k := by
  cases hen : (s.sprites (first_bomb_sprite + i)).enabled with
  | false =>
    rw [move_bomb_idle tex i s hen]
    exact ⟨rfl, rfl, rfl, rfl, fun _ _ _ => rfl⟩
  | true =>
    rw [move_bomb_miss tex i s hen h]
    obtain ⟨a1, a2, a3, a4⟩ := bomb_walls_vars tex
      (bomb_bottom_border (s.modify (first_bomb_sprite + i)
        (fun p => p.translate 0 (-invaderers_app.bomb_speed))) (first_bomb_sprite + i))
      (first_bomb_sprite + i)
    obtain ⟨b1, b2, b3, b4⟩ := bomb_bottom_border_vars
      (s.modify (first_bomb_sprite + i)
        (fun p => p.translate 0 (-invaderers_app.bomb_speed))) (first_bomb_sprite + i)
    refine ⟨by rw [a1, b1]; rfl, by rw [a2, b2]; rfl, by rw [a3, b3]; rfl,
      by rw [a4, b4]; rfl, ?_⟩
    intro k h1 h2
    rw [bomb_walls_sprites tex _ _ _ h1 h2, bomb_bottom_border_sprites _ _ _ h1]
    simp [modify_sprites, h1]

theorem on_hit_ship_effects (s : invaderers_app) :
    (s.on_hit_ship ship_sprite).score = s.score ∧
    (s.on_hit_ship ship_sprite).live_invaderers = s.live_invaderers ∧
    (s.on_hit_ship ship_sprite).bombs_disabled = s.bombs_disabled ∧
    ((s.on_hit_ship ship_sprite).sprites ship_sprite).lives = (s.sprites ship_sprite).lives - 1 ∧
    (∀ k, k ≠ ship_sprite → k ≠ game_over_sprite → k ≠ game_restart_sprite →
      (s.on_hit_ship ship_sprite).sprites k = s.sprites k) ∧
    ((s.sprites ship_sprite).lives - 1 ≠ 0 →
      (s.on_hit_ship ship_sprite).game_over = s.game_over ∧
      (s.on_hit_ship ship_sprite).sprites game_over_sprite = s.sprites game_over_sprite ∧
      (s.on_hit_ship ship_sprite).sprites game_restart_sprite = s.sprites game_restart_sprite) ∧
    ((s.sprites ship_sprite).lives - 1 = 0 →
      (s.on_hit_ship ship_sprite).game_over = true ∧
      (s.on_hit_ship ship_sprite).sprites game_over_sprite
        = (s.sprites game_over_sprite).translate (-20) 0 ∧
      (s.on_hit_ship ship_sprite).sprites game_restart_sprite
        = (s.sprites game_restart_sprite).translate (-20) 0) := by
  have hlives : (((s.get_sound_source).modify ship_sprite sprite.life_lost).sprites
      ship_sprite).get_lives_left = (s.sprites ship_sprite).lives - 1 := by
    simp [modify_sprites, sprite.life_lost, sprite.get_lives_left,
      invaderers_app.get_sound_source]
  unfold invaderers_app.on_hit_ship
  dsimp only
  rw [hlives]
  by_cases h0 : (s.sprites ship_sprite).lives - 1 = 0
  · simp only [h0, if_true]
    refine ⟨rfl, rfl, rfl, ?_, ?_, ?_, ?_⟩
    · simp [modify_sprites, sprite.life_lost, invaderers_app.get_sound_source]
      omega
    · intro k h1 h2 h3
      simp [modify_sprites, h1, h2, h3, invaderers_app.get_sound_source]
    · intro h; exact absurd rfl h
    · intro _
      refine ⟨rfl, ?_, ?_⟩
      · simp [modify_sprites, invaderers_app.get_sound_source]
      · simp [modify_sprites, invaderers_app.get_sound_source]
  · simp only [h0, if_false]
    refine ⟨rfl, rfl, rfl, ?_, ?_, ?_, ?_⟩
    · simp [modify_sprites, sprite.life_lost, invaderers_app.get_sound_source]
    · intro k h1 h2 h3
      simp [modify_sprites, h1, invaderers_app.get_sound_source]
    · intro _
      refine ⟨rfl, ?_, ?_⟩
      · simp [modify_sprites, invaderers_app.get_sound_source]
      · simp [modify_sprites, invaderers_app.get_sound_source]
    · intro h; exact False.elim h

theorem move_bomb_hit_effects (tex : String → Nat) (i : Nat) (s : invaderers_app)
    (h : bomb_hits_ship s i = true) :
    (invaderers_app.move_bomb tex i s).score = s.score ∧
    (invaderers_app.move_bomb tex i s).live_invaderers = s.live_invaderers ∧
    (invaderers_app.move_bomb tex i s).bombs_disabled = 50 ∧
    ((invaderers_app.move_bomb tex i s).sprites ship_sprite).lives
      = (s.sprites ship_sprite).lives - 1 ∧
    (∀ k, k ≠ ship_sprite → k ≠ game_over_sprite → k ≠ game_restart_sprite →
      k ≠ first_bomb_sprite + i → (invaderers_app.move_bomb tex i s).sprites k = s.sprites k) ∧
    ((s.sprites ship_sprite).lives - 1 ≠ 0 →
      (invaderers_app.move_bomb tex i s).game_over = s.game_over ∧
      (invaderers_app.move_bomb tex i s).sprites game_over_sprite = s.sprites game_over_sprite ∧
      (invaderers_app.move_bomb tex i s).sprites game_restart_sprite
        = s.sprites game_restart_sprite) ∧
    ((s.sprites ship_sprite).lives - 1 = 0 →
      (invaderers_app.move_bomb tex i s).game_over = true ∧
      (invaderers_app.move_bomb tex i s).sprites game_over_sprite
        = (s.sprites game_over_sprite).translate (-20) 0 ∧
      (invaderers_app.move_bomb tex i s).sprites game_restart_sprite
        = (s.sprites game_restart_sprite).translate (-20) 0) := by
  have hidx := sprite_index_values
  have hb : ∀ k, k ≠ first_bomb_sprite + i →
      (({ ((s.modify (first_bomb_sprite + i)
            (fun p => p.translate 0 (-invaderers_app.bomb_speed))).disable_and_park
              (first_bomb_sprite + i)) with bombs_disabled := 50 } : invaderers_app).sprites k)
        = s.sprites k := by
    intro k hk
    simp [disable_and_park_sprites, modify_sprites, hk]
  rw [move_bomb_hit tex i s h]
  obtain ⟨e1, e2, e3, e4, e5, e6, e7⟩ := on_hit_ship_effects
    { ((s.modify (first_bomb_sprite + i)
        (fun p => p.translate 0 (-invaderers_app.bomb_speed))).disable_and_park
          (first_bomb_sprite + i)) with bombs_disabled := 50 }
  rw [hb ship_sprite (by omega)] at e4 e6 e7
  rw [hb game_over_sprite (by omega), hb game_restart_sprite (by omega)] at e6 e7
  refine ⟨e1, e2, e3, e4, ?_, e6, e7⟩
  intro k h1 h2 h3 h4
  rw [e5 k h1 h2 h3, hb k h4]

theorem move_bomb_same_invaders (tex : String → Nat) (i : Nat) (s : invaderers_app) :
    same_invaders s (invaderers_app.move_bomb tex i s) := by
  have hidx := sprite_index_values
  cases h : bomb_hits_ship s i with
  | true =>
    obtain ⟨e1, _, _, _, e5, _, _⟩ := move_bomb_hit_effects tex i s h
    exact same_invaders_of_sprites e1
      (fun k h1 h2 => e5 k (by omega) (by omega) (by omega) (by omega))
  | false =>
    obtain ⟨e1, _, _, _, e5⟩ := move_bomb_miss_effects tex i s h
    exact same_invaders_of_sprites e1 (fun k h1 h2 => e5 k (by omega) (by omega))

theorem move_bombs_same_invaders (tex : String → Nat) (s : invaderers_app) :
    same_invaders s (s.move_bombs tex) :=
  same_invaders_trans (move_bomb_same_invaders tex 0 s)
    (move_bomb_same_invaders tex 1 (invaderers_app.move_bomb tex 0 s))

theorem move_missiles_destroys (tex : String → Nat) (s : invaderers_app) :
    ∃ c, destroys s (s.move_missiles tex) c := by
  obtain ⟨a, ha⟩ := move_missile_destroys tex 0 s
  obtain ⟨b, hb⟩ := move_missile_destroys tex 1 (invaderers_app.move_missile tex 0 s)
  exact ⟨a + b, destroys_trans ha hb⟩

theorem move_ship_same_invaders (inp : input) (s : invaderers_app) :
    same_invaders s (s.move_ship inp) := by
  have hidx := sprite_index_values
  obtain ⟨e1, _, _, e4⟩ := move_ship_frame inp s
  exact same_invaders_of_sprites e1 (fun k h1 h2 => e4 k (by omega))

theorem fire_missiles_same_invaders (inp : input) (s : invaderers_app) :
    same_invaders s (s.fire_missiles inp) := by
  obtain ⟨e1, _, e3⟩ := fire_missiles_frame inp s
  exact same_invaders_of_sprites e1 (fun k _ h2 => e3 k h2)

theorem fire_bombs_same_invaders (inp : input) (s : invaderers_app) :
    same_invaders s (s.fire_bombs inp) := by
  have hidx := sprite_index_values
  obtain ⟨e1, _, e3⟩ := fire_bombs_frame inp s
  exact same_invaders_of_sprites e1 (fun k _ h2 => e3 k (by omega))

theorem move_swarm_same_invaders (s : invaderers_app) : same_invaders s s.move_swarm := by
  obtain ⟨e1, _, e3, _⟩ := move_swarm_frame s
  exact ⟨e1, fun j _ => e3 _⟩

theorem destroys_of_same_left {s t u : invaderers_app} {c : Nat} (h1 : same_invaders s t)
    (h2 : destroys t u c) : destroys s u c := by
  have := destroys_trans (destroys_of_same h1) h2
  simpa using this

theorem destroys_of_same_right {s t u : invaderers_app} {c : Nat} (h1 : destroys s t c)
    (h2 : same_invaders t u) : destroys s u c := by
  have := destroys_trans h1 (destroys_of_same h2)
  simpa using this

theorem run_frame_destroys (tex : String → Nat) (inp : input) (s : invaderers_app) :
    ∃ c, destroys s (s.run_frame tex inp) c := by
  obtain ⟨c, hc⟩ := move_missiles_destroys tex (((s.move_ship inp).fire_missiles inp).fire_bombs inp)
  refine ⟨c, ?_⟩
  have h1 := same_invaders_trans (move_ship_same_invaders inp s)
    (same_invaders_trans (fire_missiles_same_invaders inp (s.move_ship inp))
      (fire_bombs_same_invaders inp ((s.move_ship inp).fire_missiles inp)))
  have h2 := same_invaders_trans
    (move_bombs_same_invaders tex
      ((((s.move_ship inp).fire_missiles inp).fire_bombs inp).move_missiles tex))
    (move_swarm_same_invaders
      (((((s.move_ship inp).fire_missiles inp).fire_bombs inp).move_missiles tex).move_bombs tex))
  exact destroys_of_same_left h1 (destroys_of_same_right hc h2)

theorem same_invaders_pause_banner (s : invaderers_app) (b : Bool) (dx : ℚ) :
    same_invaders s
      (({ s with game_paused := b } : invaderers_app).modify game_pause_sprite
        (fun p => p.translate dx 0)) := by
  have hidx := sprite_index_values
  refine same_invaders_of_sprites rfl (fun k h1 h2 => ?_)
  have hne : k ≠ game_pause_sprite := by omega
  simp [modify_sprites, hne]

theorem simulate_destroys (tex : String → Nat) (inp : input) (s : invaderers_app)
    (hno : ¬ (s.game_over = true ∧ inp.key_R = true)) :
    ∃ c, destroys s (s.simulate tex inp) c := by
  cases hover : s.game_over with
  | true =>
    have hR : inp.key_R = false := by
      cases h : inp.key_R
      · rfl
      · exact absurd ⟨hover, h⟩ hno
    rw [simulate_ended tex inp s hover hR]
    exact ⟨0, destroys_of_same (same_invaders_refl s)⟩
  | false =>
    cases hpaused : s.game_paused with
    | false =>
      cases hP : inp.key_P_going_down with
      | false =>
        rw [simulate_running tex inp s hover hpaused hP]
        exact run_frame_destroys tex inp s
      | true =>
        rw [simulate_pause tex inp s hover hpaused hP]
        exact ⟨0, destroys_of_same (same_invaders_pause_banner s true (-20))⟩
    | true =>
      cases hP : inp.key_P_going_down with
      | false =>
        rw [simulate_paused tex inp s hover hpaused hP]
        exact ⟨0, destroys_of_same (same_invaders_refl s)⟩
      | true =>
        rw [simulate_unpause tex inp s hover hpaused hP]
        obtain ⟨c, hc⟩ := run_frame_destroys tex inp
          (({ s with game_paused := false } : invaderers_app).modify game_pause_sprite
            (fun p => p.translate 20 0))
        exact ⟨c, destroys_of_same_left (same_invaders_pause_banner s false 20) hc⟩

/-! ## Score -/

/-- C4: a `simulate` step that does not restart the game never decreases `score`, and the
increase of `score` is exactly the number of invaders that were enabled before the step
and are disabled after it. -/
theorem simulate_score_counts_destroyed (tex : String → Nat) (inp : input)
    (s : invaderers_app) (hno : ¬ (s.game_over = true ∧ inp.key_R = true)) :
    s.score ≤ (s.simulate tex inp).score ∧
    (s.simulate tex inp).score - s.score = invaders_destroyed s (s.simulate tex inp) := by
  obtain ⟨c, h1, _, h3⟩ := simulate_destroys tex inp s hno
  rw [h1, h3]
  constructor
  · omega
  · omega

/-- In a frame in which the only missile destroys the only invader the score goes up by
the one invader destroyed. -/
theorem simulate_score_counts_destroyed_witness :
    one_missile_app.score ≤ (one_missile_app.simulate tex1 no_keys).score ∧
    (one_missile_app.simulate tex1 no_keys).score - one_missile_app.score
      = invaders_destroyed one_missile_app (one_missile_app.simulate tex1 no_keys) :=
  simulate_score_counts_destroyed tex1 no_keys one_missile_app (by decide)

/-! ## The ship's lives and the banners -/

theorem sprite_translate_zero (p : sprite) : p.translate 0 0 = p := by
  cases p
  simp [sprite.translate]

theorem sprite_translate_translate (p : sprite) (a b : ℚ) :
    (p.translate a 0).translate b 0 = p.translate (a + b) 0 := by
  cases p
  simp [sprite.translate, add_assoc]

/-- Two bombs on the ship in one frame, which the cooldown between two bombs rules out in
a game: `two_bombs_app` is a running state in which the ship has one life and every wall
slot has one life; both bombs reach the ship in the same frame, and after `simulate` the
ship has `-1` lives (the game-over transition has run once). -/
theorem simulate_two_bombs_lives_negative :
    two_bombs_app.game_over = false ∧
    (two_bombs_app.sprites ship_sprite).lives = 1 ∧
    (∀ w, w < num_walls → 1 ≤ (two_bombs_app.sprites (first_wall_sprite + w)).lives) ∧
    ((two_bombs_app.simulate tex1 no_keys).sprites ship_sprite).lives = -1 ∧
    (two_bombs_app.simulate tex1 no_keys).game_over = true ∧
    ((two_bombs_app.simulate tex1 no_keys).sprites game_over_sprite).x = 0 := by
  decide!

/-! ## Destroying an invader -/

/-- C11: `on_hit_invaderer` decreases `live_invaderers` by 1 and increases `score` by 1.
If the new count is 4, `invader_velocity` is multiplied by 4 and `game_over` and every
sprite are unchanged.  If the new count is 0, `game_over` becomes true, the game-won and
restart banners are each translated by `(-20, 0)`, and `invader_velocity` and every other
sprite are unchanged.  For any other new count `invader_velocity`, `game_over` and every
sprite (so every banner) are unchanged. -/
theorem on_hit_invaderer_spec (s : invaderers_app) :
    (s.on_hit_invaderer).live_invaderers = s.live_invaderers - 1 ∧
    (s.on_hit_invaderer).score = s.score + 1 ∧
    (s.live_invaderers - 1 = 4 →
      (s.on_hit_invaderer).invader_velocity = s.invader_velocity * 4 ∧
      (s.on_hit_invaderer).game_over = s.game_over ∧
      (s.on_hit_invaderer).sprites = s.sprites) ∧
    (s.live_invaderers - 1 = 0 →
      (s.on_hit_invaderer).game_over = true ∧
      (s.on_hit_invaderer).sprites game_won_sprite
        = (s.sprites game_won_sprite).translate (-20) 0 ∧
      (s.on_hit_invaderer).sprites game_restart_sprite
        = (s.sprites game_restart_sprite).translate (-20) 0 ∧
      (s.on_hit_invaderer).invader_velocity = s.invader_velocity ∧
      ∀ k, k ≠ game_won_sprite → k ≠ game_restart_sprite →
        (s.on_hit_invaderer).sprites k = s.sprites k) ∧
    (s.live_invaderers - 1 ≠ 4 → s.live_invaderers - 1 ≠ 0 →
      (s.on_hit_invaderer).invader_velocity = s.invader_velocity ∧
      (s.on_hit_invaderer).game_over = s.game_over ∧
      (s.on_hit_invaderer).sprites = s.sprites) := by
  refine ⟨on_hit_invaderer_live s, on_hit_invaderer_score s, ?_, ?_, ?_⟩
  · intro h4
    simp [invaderers_app.on_hit_invaderer, invaderers_app.get_sound_source, h4]
  · intro h0
    have h4 : ¬ s.live_invaderers - 1 = 4 := by omega
    simp only [invaderers_app.on_hit_invaderer, invaderers_app.get_sound_source, h4, h0,
      modify_sprites, if_false, if_true]
    refine ⟨rfl, ?_, ?_, rfl, ?_⟩
    · simp [modify_sprites]
    · simp [modify_sprites]
    · intro k h2 h3
      simp [modify_sprites, h2, h3]
  · intro h4 h0
    simp [invaderers_app.on_hit_invaderer, invaderers_app.get_sound_source, h4, h0]

/-- With five invaders left, destroying one quadruples the swarm velocity. -/
theorem on_hit_invaderer_spec_witness :
    (five_left_app.on_hit_invaderer).invader_velocity = five_left_app.invader_velocity * 4 ∧
    (five_left_app.on_hit_invaderer).game_over = five_left_app.game_over ∧
    (five_left_app.on_hit_invaderer).sprites = five_left_app.sprites :=
  (on_hit_invaderer_spec five_left_app).2.2.1 (by decide)

/-! ## Firing -/

theorem first_match_eq_some {p : Nat → Bool} (n a j : Nat) (h1 : a ≤ j) (h2 : j < a + n)
    (hp : p j = true) (hmin : ∀ k, a ≤ k → k < j → p k = false) :
    first_match p a n = some j := by
  obtain ⟨j', h⟩ := first_match_exists n a j h1 h2 hp
  obtain ⟨g1, g2, g3, g4⟩ := first_match_some n a j' h
  have hle : j' ≤ j := by
    by_contra hlt
    have := g4 j h1 (by omega)
    rw [hp] at this
    cases this
  have hge : j ≤ j' := by
    by_contra hlt
    have := hmin j' g1 (by omega)
    rw [g3] at this
    cases this
  have : j' = j := by omega
  rw [h, this]

/-- C14: `fire_missiles`.  While the cooldown `missiles_disabled` is positive it is
decremented and nothing else changes, whatever the input.  With the cooldown at 0 and a
fire-key edge, the lowest-indexed disabled missile slot, and no other sprite, is changed:
it becomes enabled at the ship's position plus `(0, 0.5)`, and the cooldown becomes 5.
With the cooldown at 0 and no fire-key edge the state is unchanged. -/
theorem fire_missiles_spec (inp : input) (s : invaderers_app) :
    (0 < s.missiles_disabled →
      s.fire_missiles inp = { s with missiles_disabled := s.missiles_disabled - 1 }) ∧
    (s.missiles_disabled = 0 → inp.fire_going_down = true →
      ∀ i, i < num_missiles → (s.sprites (first_missile_sprite + i)).enabled = false →
        (∀ k, k < i → (s.sprites (first_missile_sprite + k)).enabled = true) →
        ((s.fire_missiles inp).sprites (first_missile_sprite + i)).enabled = true ∧
        ((s.fire_missiles inp).sprites (first_missile_sprite + i)).x
          = (s.sprites ship_sprite).x ∧
        ((s.fire_missiles inp).sprites (first_missile_sprite + i)).y
          = (s.sprites ship_sprite).y + 1 / 2 ∧
        (∀ k, k ≠ first_missile_sprite + i → (s.fire_missiles inp).sprites k = s.sprites k) ∧
        (s.fire_missiles inp).missiles_disabled = 5) ∧
    (s.missiles_disabled = 0 → inp.fire_going_down = false → s.fire_missiles inp = s) := by
  refine ⟨?_, ?_, ?_⟩
  · intro h
    have hne : s.missiles_disabled ≠ 0 := by omega
    simp [invaderers_app.fire_missiles, hne]
  · intro h0 hfire i hi hdis hlow
    have hfm : first_match (fun i => !(s.sprites (first_missile_sprite + i)).enabled) 0
        num_missiles = some i :=
      first_match_eq_some _ _ _ (Nat.zero_le _) (by omega) (by simp [hdis])
        (fun k _ hk => by simp [hlow k hk])
    simp only [invaderers_app.fire_missiles, h0, ne_eq, not_true_eq_false, if_false, hfire,
      if_true, hfm]
    refine ⟨?_, ?_, ?_, ?_, rfl⟩
    · simp [invaderers_app.get_sound_source, modify_sprites, sprite.set_enabled]
    · simp [invaderers_app.get_sound_source, modify_sprites, sprite.set_enabled,
        sprite.set_relative]
    · simp [invaderers_app.get_sound_source, modify_sprites, sprite.set_enabled,
        sprite.set_relative]
    · intro k hk
      simp [invaderers_app.get_sound_source, modify_sprites, hk]
  · intro h0 hfire
    simp [invaderers_app.fire_missiles, h0, hfire]

/-- On the laid-out playfield with both missile slots free, the fire key launches the
missile of slot 0 from the ship. -/
theorem fire_missiles_spec_witness :
    ((arena_app.fire_missiles fire_key).sprites (first_missile_sprite + 0)).enabled = true ∧
    ((arena_app.fire_missiles fire_key).sprites (first_missile_sprite + 0)).x
      = (arena_app.sprites ship_sprite).x ∧
    ((arena_app.fire_missiles fire_key).sprites (first_missile_sprite + 0)).y
      = (arena_app.sprites ship_sprite).y + 1 / 2 ∧
    (∀ k, k ≠ first_missile_sprite + 0 →
      (arena_app.fire_missiles fire_key).sprites k = arena_app.sprites k) ∧
    (arena_app.fire_missiles fire_key).missiles_disabled = 5 :=
  (fire_missiles_spec fire_key arena_app).2.1 rfl rfl 0 (by decide) (by decide!)
    (fun k hk => absurd hk (Nat.not_lt_zero k))

/-- C15: `fire_bombs` with the cooldown `bombs_disabled` at 0 and the random start index
`inp.random`.  The scan test for invader `j` is: enabled and
`|ship.x - invader_j.x| < invader_j.halfWidth + 0.3` (no vertical condition).  If `j` is
the least index from the start index on (below `num_invaderers`) that passes the test and
`i` is the lowest-indexed disabled bomb slot, then bomb `i`, and no other sprite, is
changed: it becomes enabled at invader `j`'s position plus `(0, -0.25)`, and the cooldown
becomes 30.  If no index from the start index on passes the test, the state is unchanged. -/
theorem fire_bombs_spec (inp : input) (s : invaderers_app) (h0 : s.bombs_disabled = 0) :
    (∀ j, invader_above_ship s j = true ↔
      ((s.sprites (first_invaderer_sprite + j)).enabled = true ∧
        |(s.sprites ship_sprite).x - (s.sprites (first_invaderer_sprite + j)).x|
          < (s.sprites (first_invaderer_sprite + j)).halfWidth + 3 / 10)) ∧
    (∀ j, inp.random ≤ j → j < num_invaderers → invader_above_ship s j = true →
      (∀ k, inp.random ≤ k → k < j → invader_above_ship s k = false) →
      ∀ i, i < num_bombs → (s.sprites (first_bomb_sprite + i)).enabled = false →
        (∀ k, k < i → (s.sprites (first_bomb_sprite + k)).enabled = true) →
        ((s.fire_bombs inp).sprites (first_bomb_sprite + i)).enabled = true ∧
        ((s.fire_bombs inp).sprites (first_bomb_sprite + i)).x
          = (s.sprites (first_invaderer_sprite + j)).x ∧
        ((s.fire_bombs inp).sprites (first_bomb_sprite + i)).y
          = (s.sprites (first_invaderer_sprite + j)).y - 1 / 4 ∧
        (∀ k, k ≠ first_bomb_sprite + i → (s.fire_bombs inp).sprites k = s.sprites k) ∧
        (s.fire_bombs inp).bombs_disabled = 30) ∧
    ((∀ j, inp.random ≤ j → j < num_invaderers → invader_above_ship s j = false) →
      s.fire_bombs inp = s) := by
  refine ⟨?_, ?_, ?_⟩
  · intro j
    simp [invader_above_ship, sprite.is_above]
  · intro j hj1 hj2 hp hmin i hi hdis hlow
    have hscan : first_match (fun j => (s.sprites (first_invaderer_sprite + j)).enabled &&
        (s.sprites (first_invaderer_sprite + j)).is_above (s.sprites ship_sprite) (3 / 10))
        inp.random (num_invaderers - inp.random) = some j :=
      first_match_eq_some (p := invader_above_ship s) _ _ _ hj1 (by omega) hp hmin
    have hfm : first_match (fun i => !(s.sprites (first_bomb_sprite + i)).enabled) 0
        num_bombs = some i :=
      first_match_eq_some _ _ _ (Nat.zero_le _) (by omega) (by simp [hdis])
        (fun k _ hk => by simp [hlow k hk])
    simp only [invaderers_app.fire_bombs, h0, ne_eq, not_true_eq_false, if_false, hscan, hfm]
    refine ⟨?_, ?_, ?_, ?_, rfl⟩
    · simp [invaderers_app.get_sound_source, modify_sprites, sprite.set_enabled]
    · simp [invaderers_app.get_sound_source, modify_sprites, sprite.set_enabled,
        sprite.set_relative]
    · simp [invaderers_app.get_sound_source, modify_sprites, sprite.set_enabled,
        sprite.set_relative]
      ring
    · intro k hk
      simp [invaderers_app.get_sound_source, modify_sprites, hk]
  · intro hnone
    have hscan : first_match (fun j => (s.sprites (first_invaderer_sprite + j)).enabled &&
        (s.sprites (first_invaderer_sprite + j)).is_above (s.sprites ship_sprite) (3 / 10))
        inp.random (num_invaderers - inp.random) = none := by
      cases h : first_match (fun j => (s.sprites (first_invaderer_sprite + j)).enabled &&
        (s.sprites (first_invaderer_sprite + j)).is_above (s.sprites ship_sprite) (3 / 10))
        inp.random (num_invaderers - inp.random) with
      | none => rfl
      | some j =>
        obtain ⟨g1, g2, g3, _⟩ := first_match_some _ _ _ h
        have := hnone j g1 (by omega)
        simp only [invader_above_ship] at this
        rw [g3] at this
        cases this
    simp only [invaderers_app.fire_bombs, h0, ne_eq, not_true_eq_false, if_false, hscan]

/-- With the random start index 0 the invader of slot 3, the first one above the ship,
drops the bomb of slot 0. -/
theorem fire_bombs_spec_witness :
    ((bomber_app.fire_bombs no_keys).sprites (first_bomb_sprite + 0)).enabled = true ∧
    ((bomber_app.fire_bombs no_keys).sprites (first_bomb_sprite + 0)).x
      = (bomber_app.sprites (first_invaderer_sprite + 3)).x ∧
    ((bomber_app.fire_bombs no_keys).sprites (first_bomb_sprite + 0)).y
      = (bomber_app.sprites (first_invaderer_sprite + 3)).y - 1 / 4 ∧
    (∀ k, k ≠ first_bomb_sprite + 0 →
      (bomber_app.fire_bombs no_keys).sprites k = bomber_app.sprites k) ∧
    (bomber_app.fire_bombs no_keys).bombs_disabled = 30 :=
  (fire_bombs_spec no_keys bomber_app rfl).2.1 3 (Nat.zero_le _) (by decide) (by decide!)
    (fun k _ hk => by interval_cases k <;> decide!) 0 (by decide) (by decide!)
    (fun k hk => absurd hk (Nat.not_lt_zero k))

theorem first_match_eq_none {p : Nat → Bool} (n a : Nat)
    (h : ∀ k, a ≤ k → k < a + n → p k = false) : first_match p a n = none := by
  cases hfm : first_match p a n with
  | none => rfl
  | some j =>
    obtain ⟨g1, g2, g3, _⟩ := first_match_some _ _ _ hfm
    rw [h j g1 g2] at g3
    cases g3

theorem missiles_enabled_eq (s : invaderers_app) :
    missiles_enabled s =
      (if (s.sprites (first_missile_sprite + 0)).enabled = true then 1 else 0) +
      (if (s.sprites (first_missile_sprite + 1)).enabled = true then 1 else 0) := by
  simp [missiles_enabled, List.range_succ, List.countP_cons, List.countP_nil]
  omega

theorem bombs_enabled_eq (s : invaderers_app) :
    bombs_enabled s =
      (if (s.sprites (first_bomb_sprite + 0)).enabled = true then 1 else 0) +
      (if (s.sprites (first_bomb_sprite + 1)).enabled = true then 1 else 0) := by
  simp [bombs_enabled, List.range_succ, List.countP_cons, List.countP_nil]
  omega

theorem fire_missiles_enabled_le (inp : input) (s : invaderers_app) :
    missiles_enabled (s.fire_missiles inp) ≤ missiles_enabled s + 1 := by
  have hidx := sprite_index_values
  by_cases h0 : s.missiles_disabled = 0
  · cases hfire : inp.fire_going_down with
    | false =>
      have : s.fire_missiles inp = s := by simp [invaderers_app.fire_missiles, h0, hfire]
      rw [this]; omega
    | true =>
      cases hfm : first_match (fun i => !(s.sprites (first_missile_sprite + i)).enabled) 0
          num_missiles with
      | none =>
        have : s.fire_missiles inp = s := by
          simp only [invaderers_app.fire_missiles, h0, ne_eq, not_true_eq_false, if_false,
            hfire, if_true, hfm]
        rw [this]; omega
      | some i =>
        obtain ⟨_, hi, _, _⟩ := first_match_some _ _ _ hfm
        have hk : ∀ k, k ≠ first_missile_sprite + i →
            (s.fire_missiles inp).sprites k = s.sprites k := by
          intro k hk
          simp only [invaderers_app.fire_missiles, h0, ne_eq, not_true_eq_false, if_false,
            hfire, if_true, hfm]
          simp [invaderers_app.get_sound_source, modify_sprites, hk]
        rw [missiles_enabled_eq, missiles_enabled_eq]
        have hi2 : i = 0 ∨ i = 1 := by omega
        rcases hi2 with rfl | rfl
        · rw [hk (first_missile_sprite + 1) (by omega)]
          split_ifs <;> omega
        · rw [hk (first_missile_sprite + 0) (by omega)]
          split_ifs <;> omega
  · have : s.fire_missiles inp = { s with missiles_disabled := s.missiles_disabled - 1 } := by
      simp [invaderers_app.fire_missiles, h0]
    rw [this]
    exact Nat.le_succ _

theorem fire_bombs_enabled_le (inp : input) (s : invaderers_app) :
    bombs_enabled (s.fire_bombs inp) ≤ bombs_enabled s + 1 := by
  have hidx := sprite_index_values
  by_cases h0 : s.bombs_disabled = 0
  · cases hscan : first_match (fun j => (s.sprites (first_invaderer_sprite + j)).enabled &&
        (s.sprites (first_invaderer_sprite + j)).is_above (s.sprites ship_sprite) (3 / 10))
        inp.random (num_invaderers - inp.random) with
    | none =>
      have : s.fire_bombs inp = s := by
        simp only [invaderers_app.fire_bombs, h0, ne_eq, not_true_eq_false, if_false, hscan]
      rw [this]; omega
    | some j =>
      cases hfm : first_match (fun i => !(s.sprites (first_bomb_sprite + i)).enabled) 0
          num_bombs with
      | none =>
        have : s.fire_bombs inp = s := by
          simp only [invaderers_app.fire_bombs, h0, ne_eq, not_true_eq_false, if_false,
            hscan, hfm]
        rw [this]; omega
      | some i =>
        obtain ⟨_, hi, _, _⟩ := first_match_some _ _ _ hfm
        have hk : ∀ k, k ≠ first_bomb_sprite + i →
            (s.fire_bombs inp).sprites k = s.sprites k := by
          intro k hk
          simp only [invaderers_app.fire_bombs, h0, ne_eq, not_true_eq_false, if_false,
            hscan, hfm]
          simp [invaderers_app.get_sound_source, modify_sprites, hk]
        rw [bombs_enabled_eq, bombs_enabled_eq]
        have hi2 : i = 0 ∨ i = 1 := by omega
        rcases hi2 with rfl | rfl
        · rw [hk (first_bomb_sprite + 1) (by omega)]
          split_ifs <;> omega
        · rw [hk (first_bomb_sprite + 0) (by omega)]
          split_ifs <;> omega
  · have : s.fire_bombs inp = { s with bombs_disabled := s.bombs_disabled - 1 } := by
      simp [invaderers_app.fire_bombs, h0]
    rw [this]
    exact Nat.le_succ _

/-- C16: firing with a full pool changes nothing.  When every missile slot is enabled,
`fire_missiles` with the cooldown at 0 and a fire-key edge returns the state it was given;
when every bomb slot is enabled, `fire_bombs` with the cooldown at 0 returns the state it
was given, whatever the invaders above the ship.  Each call raises the number of enabled
missiles, respectively bombs, by at most one, and that number is at most `num_missiles = 2`,
respectively `num_bombs = 2`, in every state. -/
theorem fire_full_pool_spec (inp : input) (s : invaderers_app) :
    ((∀ i, i < num_missiles → (s.sprites (first_missile_sprite + i)).enabled = true) →
      s.missiles_disabled = 0 → inp.fire_going_down = true → s.fire_missiles inp = s) ∧
    ((∀ i, i < num_bombs → (s.sprites (first_bomb_sprite + i)).enabled = true) →
      s.bombs_disabled = 0 → s.fire_bombs inp = s) ∧
    missiles_enabled (s.fire_missiles inp) ≤ missiles_enabled s + 1 ∧
    bombs_enabled (s.fire_bombs inp) ≤ bombs_enabled s + 1 ∧
    missiles_enabled s ≤ num_missiles ∧ bombs_enabled s ≤ num_bombs ∧
    num_missiles = 2 ∧ num_bombs = 2 := by
  refine ⟨?_, ?_, fire_missiles_enabled_le inp s, fire_bombs_enabled_le inp s, ?_, ?_,
    rfl, rfl⟩
  · intro hall h0 hfire
    have hfm : first_match (fun i => !(s.sprites (first_missile_sprite + i)).enabled) 0
        num_missiles = none :=
      first_match_eq_none _ _ (fun k _ hk => by simp [hall k (by omega)])
    simp only [invaderers_app.fire_missiles, h0, ne_eq, not_true_eq_false, if_false, hfire,
      if_true, hfm]
  · intro hall h0
    have hfm : first_match (fun i => !(s.sprites (first_bomb_sprite + i)).enabled) 0
        num_bombs = none :=
      first_match_eq_none _ _ (fun k _ hk => by simp [hall k (by omega)])
    simp only [invaderers_app.fire_bombs, h0, ne_eq, not_true_eq_false, if_false, hfm]
    split <;> rfl
  · rw [missiles_enabled_eq]
    split_ifs <;> decide
  · rw [bombs_enabled_eq]
    split_ifs <;> decide

/-- With both missiles in flight the fire key does nothing. -/
theorem fire_full_pool_spec_witness :
    two_missiles_app.fire_missiles fire_key = two_missiles_app :=
  (fire_full_pool_spec fire_key two_missiles_app).1
    (fun i hi => by interval_cases i <;> decide!) rfl rfl

/-! ## Moving the ship -/

theorem modify_undo (s : invaderers_app) (i : Nat) (f g : sprite → sprite)
    (h : g (f (s.sprites i)) = s.sprites i) : (s.modify i f).modify i g = s := by
  cases s with
  | mk a1 a2 a3 a4 a5 a6 a7 a8 a9 a10 a11 a12 a13 sp =>
    simp only [invaderers_app.modify, invaderers_app.mk.injEq, true_and]
    funext k
    by_cases hk : k = i
    · subst hk; simpa using h
    · simp [Function.update_apply, hk]

theorem ship_step_eq (s : invaderers_app) (dx dy ux uy : ℚ) (b : Nat) (hb : b ≠ ship_sprite)
    (hx : dx + ux = 0) (hy : dy + uy = 0) :
    (if ((s.modify ship_sprite (fun p => p.translate dx dy)).sprites ship_sprite).collides_with
        ((s.modify ship_sprite (fun p => p.translate dx dy)).sprites b) = true then
      (s.modify ship_sprite (fun p => p.translate dx dy)).modify ship_sprite
        (fun p => p.translate ux uy)
    else s.modify ship_sprite (fun p => p.translate dx dy)) =
    if ((s.sprites ship_sprite).translate dx dy).collides_with (s.sprites b) = true then s
    else s.set_sprite ship_sprite ((s.sprites ship_sprite).translate dx dy) := by
  have h1 : (s.modify ship_sprite (fun p => p.translate dx dy)).sprites ship_sprite
      = (s.sprites ship_sprite).translate dx dy := by simp [modify_sprites]
  have h2 : (s.modify ship_sprite (fun p => p.translate dx dy)).sprites b = s.sprites b := by
    simp [modify_sprites, hb]
  rw [h1, h2]
  split_ifs
  · apply modify_undo
    cases hs : s.sprites ship_sprite
    simp only [sprite.translate, sprite.mk.injEq, and_true, true_and]
    constructor <;> linarith
  · rfl

/-- C13: `move_ship` considers one direction only, the first held key in the order left,
right, up, down, and does nothing when none is held.  With `(dx, dy)` the displacement by
0.05 along that direction and `b` its border: if the displaced ship overlaps border `b`
the state is unchanged, otherwise only the ship sprite changes, to its start position
displaced by `(dx, dy)`.  So the ship ends at its start position exactly when the
displaced position overlaps the border, a ship that did not overlap that border before
does not overlap it afterwards, and no other sprite is changed. -/
theorem move_ship_spec (inp : input) (s : invaderers_app) :
    (ship_direction inp = none → s.move_ship inp = s) ∧
    (∀ dx dy b, ship_direction inp = some (dx, dy, b) →
      ((dx = -(1 / 20) ∧ dy = 0) ∨ (dx = 1 / 20 ∧ dy = 0) ∨
        (dx = 0 ∧ dy = 1 / 20) ∨ (dx = 0 ∧ dy = -(1 / 20))) ∧
      (((s.sprites ship_sprite).translate dx dy).collides_with (s.sprites b) = true →
        s.move_ship inp = s) ∧
      (((s.sprites ship_sprite).translate dx dy).collides_with (s.sprites b) = false →
        s.move_ship inp = s.set_sprite ship_sprite ((s.sprites ship_sprite).translate dx dy)) ∧
      ((((s.move_ship inp).sprites ship_sprite).x = (s.sprites ship_sprite).x ∧
          ((s.move_ship inp).sprites ship_sprite).y = (s.sprites ship_sprite).y) ↔
        ((s.sprites ship_sprite).translate dx dy).collides_with (s.sprites b) = true) ∧
      ((s.sprites ship_sprite).collides_with (s.sprites b) = false →
        ((s.move_ship inp).sprites ship_sprite).collides_with ((s.move_ship inp).sprites b)
          = false)) := by
  have hidx := sprite_index_values
  have key : ∀ dx dy b, ship_direction inp = some (dx, dy, b) →
      b ≠ ship_sprite ∧
      ((dx = -(1 / 20) ∧ dy = 0) ∨ (dx = 1 / 20 ∧ dy = 0) ∨
        (dx = 0 ∧ dy = 1 / 20) ∨ (dx = 0 ∧ dy = -(1 / 20))) ∧
      s.move_ship inp =
        if ((s.sprites ship_sprite).translate dx dy).collides_with (s.sprites b) = true then s
        else s.set_sprite ship_sprite ((s.sprites ship_sprite).translate dx dy) := by
    intro dx dy b hdir
    unfold ship_direction at hdir
    unfold invaderers_app.move_ship
    dsimp only
    cases hl : inp.key_left with
    | true =>
      simp only [hl, if_true, Option.some.injEq, Prod.mk.injEq] at hdir
      obtain ⟨rfl, rfl, rfl⟩ := hdir
      refine ⟨by omega, Or.inl ⟨by simp [invaderers_app.ship_speed], rfl⟩, ?_⟩
      simp only [if_true]
      exact ship_step_eq s _ _ _ _ _ (by omega) (by simp) (by simp)
    | false =>
      cases hr : inp.key_right with
      | true =>
        simp only [hl, hr, if_true, Bool.false_eq_true, if_false, Option.some.injEq,
          Prod.mk.injEq] at hdir
        obtain ⟨rfl, rfl, rfl⟩ := hdir
        refine ⟨by omega, Or.inr (Or.inl ⟨by simp [invaderers_app.ship_speed], rfl⟩), ?_⟩
        simp only [if_true, Bool.false_eq_true, if_false]
        exact ship_step_eq s _ _ _ _ _ (by omega) (by simp) (by simp)
      | false =>
        cases hu : inp.key_up with
        | true =>
          simp only [hl, hr, hu, if_true, Bool.false_eq_true, if_false, Option.some.injEq,
            Prod.mk.injEq] at hdir
          obtain ⟨rfl, rfl, rfl⟩ := hdir
          refine ⟨by omega,
            Or.inr (Or.inr (Or.inl ⟨rfl, by simp [invaderers_app.ship_speed]⟩)), ?_⟩
          simp only [if_true, Bool.false_eq_true, if_false]
          exact ship_step_eq s _ _ _ _ _ (by omega) (by simp) (by simp)
        | false =>
          cases hd : inp.key_down with
          | true =>
            simp only [hl, hr, hu, hd, if_true, Bool.false_eq_true, if_false,
              Option.some.injEq, Prod.mk.injEq] at hdir
            obtain ⟨rfl, rfl, rfl⟩ := hdir
            refine ⟨by omega,
              Or.inr (Or.inr (Or.inr ⟨rfl, by simp [invaderers_app.ship_speed]⟩)), ?_⟩
            simp only [if_true, Bool.false_eq_true, if_false]
            exact ship_step_eq s _ _ _ _ _ (by omega) (by simp) (by simp)
          | false =>
            simp [hl, hr, hu, hd] at hdir
  refine ⟨?_, ?_⟩
  · intro hnone
    unfold ship_direction at hnone
    unfold invaderers_app.move_ship
    cases hl : inp.key_left <;> cases hr : inp.key_right <;> cases hu : inp.key_up <;>
      cases hd : inp.key_down <;> simp [hl, hr, hu, hd] at hnone ⊢
  · intro dx dy b hdir
    obtain ⟨hb, hd, heq⟩ := key dx dy b hdir
    refine ⟨hd, ?_, ?_, ?_, ?_⟩
    · intro hc
      rw [heq, if_pos hc]
    · intro hc
      rw [heq, if_neg (by simp [hc])]
    · rw [heq]
      cases hc : ((s.sprites ship_sprite).translate dx dy).collides_with (s.sprites b) with
      | true => simp
      | false =>
        simp only [Bool.false_eq_true, if_false, iff_false, not_and]
        simp only [invaderers_app.set_sprite, Function.update_same, sprite.translate]
        intro hx hy
        rcases hd with ⟨h1, h2⟩ | ⟨h1, h2⟩ | ⟨h1, h2⟩ | ⟨h1, h2⟩
        · subst h1 h2; norm_num at hx
        · subst h1 h2; norm_num at hx
        · subst h1 h2; norm_num at hy
        · subst h1 h2; norm_num at hy
    · intro hbefore
      rw [heq]
      cases hc : ((s.sprites ship_sprite).translate dx dy).collides_with (s.sprites b) with
      | true => simpa using hbefore
      | false =>
        simp only [Bool.false_eq_true, if_false]
        simp only [invaderers_app.set_sprite, Function.update_same, Function.update_apply,
          hb, if_false]
        exact hc

/-- On the laid-out playfield the left key moves the ship 0.05 to the left, the left
border being far away. -/
theorem move_ship_spec_witness :
    arena_app.move_ship left_key =
      arena_app.set_sprite ship_sprite
        ((arena_app.sprites ship_sprite).translate (-invaderers_app.ship_speed) 0) :=
  ((move_ship_spec left_key arena_app).2 (-invaderers_app.ship_speed) 0
    (first_border_sprite + 2) rfl).2.2.1 (by decide!)

/-! ## The swarm -/

theorem move_invaders_velocity (s : invaderers_app) (dx dy : ℚ) :
    (s.move_invaders dx dy).invader_velocity = s.invader_velocity := by
  rw [move_invaders_eq]

theorem move_invaders_direction (s : invaderers_app) (dx dy : ℚ) :
    (s.move_invaders dx dy).invader_direction = s.invader_direction := by
  rw [move_invaders_eq]

theorem move_invaders_sprites (s : invaderers_app) (dx dy : ℚ) (k : Nat) :
    (s.move_invaders dx dy).sprites k =
      if first_invaderer_sprite ≤ k ∧ k < first_missile_sprite ∧
          (s.sprites k).enabled = true then
        (s.sprites k).translate dx dy
      else s.sprites k := by
  rw [move_invaders_eq]

theorem move_swarm_eq (s : invaderers_app) :
    s.move_swarm =
      if (s.move_invaders s.invader_velocity 0).invaders_collide
          (first_border_sprite + (if s.invader_velocity < 0 then 2 else 3)) = true then
        if (({ s.move_invaders s.invader_velocity 0 with
              invader_velocity := -s.invader_velocity } : invaderers_app).move_invaders
            (-s.invader_velocity) s.invader_direction).invaders_collide
            (first_border_sprite + (if s.invader_direction < 0 then 4 else 1)) = true then
          ({ (({ s.move_invaders s.invader_velocity 0 with
                invader_velocity := -s.invader_velocity } : invaderers_app).move_invaders
              (-s.invader_velocity) s.invader_direction) with
            invader_direction := -s.invader_direction } : invaderers_app).move_invaders
              (-s.invader_velocity) (-s.invader_direction)
        else
          ({ s.move_invaders s.invader_velocity 0 with
              invader_velocity := -s.invader_velocity } : invaderers_app).move_invaders
            (-s.invader_velocity) s.invader_direction
      else s.move_invaders s.invader_velocity 0 := by
  unfold invaderers_app.move_swarm
  dsimp only
  simp only [move_invaders_velocity, move_invaders_direction]

theorem sprite_translate_add (p : sprite) (a b c e : ℚ) :
    (p.translate a b).translate c e = p.translate (a + c) (b + e) := by
  cases p
  simp [sprite.translate, add_assoc]

theorem sprite_translate_congr (p : sprite) (a b c e : ℚ) (h1 : a = c) (h2 : b = e) :
    p.translate a b = p.translate c e := by
  rw [h1, h2]

theorem move_swarm_cases (s : invaderers_app) :
    s.move_swarm =
      if (swarm_first s).invaders_collide (border_side s) = true then
        if (swarm_bounced s).invaders_collide (border_top s) = true then
          ({ swarm_bounced s with
            invader_direction := -s.invader_direction } : invaderers_app).move_invaders
              (-s.invader_velocity) (-s.invader_direction)
        else swarm_bounced s
      else swarm_first s := by
  unfold swarm_bounced swarm_first border_side border_top
  exact move_swarm_eq s

theorem swarm_first_sprites (s : invaderers_app) (k : Nat) :
    (swarm_first s).sprites k =
      if first_invaderer_sprite ≤ k ∧ k < first_missile_sprite ∧
          (s.sprites k).enabled = true then
        (s.sprites k).translate s.invader_velocity 0
      else s.sprites k := by
  unfold swarm_first
  exact move_invaders_sprites s _ _ k

theorem swarm_bounced_sprites (s : invaderers_app) (k : Nat) :
    (swarm_bounced s).sprites k =
      if first_invaderer_sprite ≤ k ∧ k < first_missile_sprite ∧
          (s.sprites k).enabled = true then
        (s.sprites k).translate 0 s.invader_direction
      else s.sprites k := by
  unfold swarm_bounced
  rw [move_invaders_sprites]
  dsimp only
  by_cases h : first_invaderer_sprite ≤ k ∧ k < first_missile_sprite ∧
      (s.sprites k).enabled = true
  · have h' : first_invaderer_sprite ≤ k ∧ k < first_missile_sprite ∧
        ((s.sprites k).translate s.invader_velocity 0).enabled = true := h
    rw [swarm_first_sprites, if_pos h, if_pos h', if_pos h, sprite_translate_add]
    exact sprite_translate_congr _ _ _ _ _ (by ring) (by ring)
  · rw [swarm_first_sprites, if_neg h, if_neg h, if_neg h]

theorem swarm_rebounced_sprites (s : invaderers_app) (k : Nat) :
    (({ swarm_bounced s with
        invader_direction := -s.invader_direction } : invaderers_app).move_invaders
          (-s.invader_velocity) (-s.invader_direction)).sprites k =
      if first_invaderer_sprite ≤ k ∧ k < first_missile_sprite ∧
          (s.sprites k).enabled = true then
        (s.sprites k).translate (-s.invader_velocity) 0
      else s.sprites k := by
  rw [move_invaders_sprites]
  dsimp only
  by_cases h : first_invaderer_sprite ≤ k ∧ k < first_missile_sprite ∧
      (s.sprites k).enabled = true
  · have h' : first_invaderer_sprite ≤ k ∧ k < first_missile_sprite ∧
        ((s.sprites k).translate 0 s.invader_direction).enabled = true := h
    rw [swarm_bounced_sprites, if_pos h, if_pos h', if_pos h, sprite_translate_add]
    exact sprite_translate_congr _ _ _ _ _ (by ring) (by ring)
  · rw [swarm_bounced_sprites, if_neg h, if_neg h, if_neg h]

theorem swarm_vars (s : invaderers_app) :
    (swarm_first s).invader_velocity = s.invader_velocity ∧
    (swarm_first s).invader_direction = s.invader_direction ∧
    (swarm_bounced s).invader_velocity = -s.invader_velocity ∧
    (swarm_bounced s).invader_direction = s.invader_direction ∧
    (({ swarm_bounced s with
        invader_direction := -s.invader_direction } : invaderers_app).move_invaders
          (-s.invader_velocity) (-s.invader_direction)).invader_velocity
      = -s.invader_velocity ∧
    (({ swarm_bounced s with
        invader_direction := -s.invader_direction } : invaderers_app).move_invaders
          (-s.invader_velocity) (-s.invader_direction)).invader_direction
      = -s.invader_direction := by
  refine ⟨?_, ?_, ?_, ?_, ?_, ?_⟩
  · unfold swarm_first; rw [move_invaders_velocity]
  · unfold swarm_first; rw [move_invaders_direction]
  · unfold swarm_bounced; rw [move_invaders_velocity]
  · unfold swarm_bounced swarm_first
    rw [move_invaders_direction]
    dsimp only
    rw [move_invaders_direction]
  · rw [move_invaders_velocity]
    dsimp only
    unfold swarm_bounced; rw [move_invaders_velocity]
  · rw [move_invaders_direction]

/-- The single bounce on the right border in exact arithmetic: with
`invader_velocity = v > 0` and `invader_direction = d < 0`, if after the
first move `(v, 0)` some enabled invader overlaps the right border and after the combined
step that follows no enabled invader overlaps the divider, the swarm phase ends with
`invader_velocity = -v`, `invader_direction = d`, and every enabled invader displaced from
its position before the phase by exactly `(0, d)`. -/
theorem move_swarm_bounce_right (s : invaderers_app) (hv : 0 < s.invader_velocity)
    (hd : s.invader_direction < 0)
    (hside : (swarm_first s).invaders_collide (first_border_sprite + 3) = true)
    (htop : (swarm_bounced s).invaders_collide (first_border_sprite + 4) = false) :
    (s.move_swarm).invader_velocity = -s.invader_velocity ∧
    (s.move_swarm).invader_direction = s.invader_direction ∧
    ∀ j, j < num_invaderers → invader_enabled s j = true →
      (s.move_swarm).sprites (first_invaderer_sprite + j)
        = (s.sprites (first_invaderer_sprite + j)).translate 0 s.invader_direction ∧
      ((s.move_swarm).sprites (first_invaderer_sprite + j)).x
        = (s.sprites (first_invaderer_sprite + j)).x ∧
      ((s.move_swarm).sprites (first_invaderer_sprite + j)).y
        = (s.sprites (first_invaderer_sprite + j)).y + s.invader_direction := by
  have hidx := sprite_index_values
  have hs : border_side s = first_border_sprite + 3 := by
    unfold border_side
    rw [if_neg (not_lt.2 (le_of_lt hv))]
  have ht : border_top s = first_border_sprite + 4 := by
    unfold border_top
    rw [if_pos hd]
  have hr : s.move_swarm = swarm_bounced s := by
    rw [move_swarm_cases, hs, ht, if_pos hside, if_neg (by simp [htop])]
  obtain ⟨_, _, v3, v4, _, _⟩ := swarm_vars s
  rw [hr]
  refine ⟨v3, v4, ?_⟩
  intro j hj hen
  have hk : (swarm_bounced s).sprites (first_invaderer_sprite + j)
      = (s.sprites (first_invaderer_sprite + j)).translate 0 s.invader_direction := by
    rw [swarm_bounced_sprites, if_pos ⟨by omega, by omega, hen⟩]
  rw [hk]
  exact ⟨rfl, by simp [sprite.translate], rfl⟩

/-- An invader next to the right border bounces: the swarm turns left and steps down. -/
theorem move_swarm_bounce_right_example :
    (right_edge_app.move_swarm).invader_velocity = -right_edge_app.invader_velocity ∧
    (right_edge_app.move_swarm).invader_direction = right_edge_app.invader_direction ∧
    ∀ j, j < num_invaderers → invader_enabled right_edge_app j = true →
      (right_edge_app.move_swarm).sprites (first_invaderer_sprite + j)
        = (right_edge_app.sprites (first_invaderer_sprite + j)).translate 0
          right_edge_app.invader_direction ∧
      ((right_edge_app.move_swarm).sprites (first_invaderer_sprite + j)).x
        = (right_edge_app.sprites (first_invaderer_sprite + j)).x ∧
      ((right_edge_app.move_swarm).sprites (first_invaderer_sprite + j)).y
        = (right_edge_app.sprites (first_invaderer_sprite + j)).y
          + right_edge_app.invader_direction := by
  have hv : 0 < right_edge_app.invader_velocity := by decide!
  have hd : right_edge_app.invader_direction < 0 := by decide!
  have hside : (swarm_first right_edge_app).invaders_collide (first_border_sprite + 3)
      = true := by decide!
  have htop : (swarm_bounced right_edge_app).invaders_collide (first_border_sprite + 4)
      = false := by decide!
  exact move_swarm_bounce_right right_edge_app hv hd hside htop

/-- The three outcomes of the swarm phase in exact arithmetic, with `v` and `d` the
velocity and the direction at its start.  If the swarm bounces on the side border and the combined step
that follows makes an enabled invader overlap the border selected by the sign of `d`
(divider if negative, top border otherwise), the phase ends with both `v` and `d` negated
and every enabled invader displaced by exactly `(-v, 0)`.  If no enabled invader overlaps
the side border after the first move, every enabled invader is displaced by exactly
`(v, 0)` and `v` and `d` are unchanged.  A disabled invader is never moved. -/
theorem move_swarm_spec (s : invaderers_app) :
    ((swarm_first s).invaders_collide (border_side s) = true →
      (swarm_bounced s).invaders_collide (border_top s) = true →
      (s.move_swarm).invader_velocity = -s.invader_velocity ∧
      (s.move_swarm).invader_direction = -s.invader_direction ∧
      ∀ j, j < num_invaderers → invader_enabled s j = true →
        (s.move_swarm).sprites (first_invaderer_sprite + j)
          = (s.sprites (first_invaderer_sprite + j)).translate (-s.invader_velocity) 0) ∧
    ((swarm_first s).invaders_collide (border_side s) = false →
      (s.move_swarm).invader_velocity = s.invader_velocity ∧
      (s.move_swarm).invader_direction = s.invader_direction ∧
      ∀ j, j < num_invaderers → invader_enabled s j = true →
        (s.move_swarm).sprites (first_invaderer_sprite + j)
          = (s.sprites (first_invaderer_sprite + j)).translate s.invader_velocity 0) ∧
    (∀ j, j < num_invaderers → invader_enabled s j = false →
      (s.move_swarm).sprites (first_invaderer_sprite + j)
        = s.sprites (first_invaderer_sprite + j)) ∧
    (border_side s = first_border_sprite + (if s.invader_velocity < 0 then 2 else 3)) ∧
    (border_top s = first_border_sprite + (if s.invader_direction < 0 then 4 else 1)) := by
  have hidx := sprite_index_values
  obtain ⟨v1, v2, v3, v4, v5, v6⟩ := swarm_vars s
  refine ⟨?_, ?_, ?_, rfl, rfl⟩
  · intro hside htop
    rw [move_swarm_cases, if_pos hside, if_pos htop]
    refine ⟨v5, v6, ?_⟩
    intro j hj hen
    rw [swarm_rebounced_sprites, if_pos ⟨by omega, by omega, hen⟩]
  · intro hside
    rw [move_swarm_cases, if_neg (by simp [hside])]
    refine ⟨v1, v2, ?_⟩
    intro j hj hen
    rw [swarm_first_sprites, if_pos ⟨by omega, by omega, hen⟩]
  · intro j hj hdis
    have hnot : ¬ (first_invaderer_sprite ≤ first_invaderer_sprite + j ∧
        first_invaderer_sprite + j < first_missile_sprite ∧
        (s.sprites (first_invaderer_sprite + j)).enabled = true) := by
      intro h
      have h3 := h.2.2
      unfold invader_enabled at hdis
      rw [hdis] at h3
      cases h3
    rw [move_swarm_cases]
    split_ifs
    · rw [swarm_rebounced_sprites, if_neg hnot]
    · rw [swarm_bounced_sprites, if_neg hnot]
    · rw [swarm_first_sprites, if_neg hnot]

/-- An invader in the corner of the right border and the divider bounces twice: the swarm
turns left and up, and the invader ends one step to the left of where it started. -/
theorem move_swarm_spec_example :
    (corner_app.move_swarm).invader_velocity = -corner_app.invader_velocity ∧
    (corner_app.move_swarm).invader_direction = -corner_app.invader_direction ∧
    ∀ j, j < num_invaderers → invader_enabled corner_app j = true →
      (corner_app.move_swarm).sprites (first_invaderer_sprite + j)
        = (corner_app.sprites (first_invaderer_sprite + j)).translate
          (-corner_app.invader_velocity) 0 := by
  have hside : (swarm_first corner_app).invaders_collide (border_side corner_app)
      = true := by decide!
  have htop : (swarm_bounced corner_app).invaders_collide (border_top corner_app)
      = true := by decide!
  exact (move_swarm_spec corner_app).1 hside htop

/-! ## Restart -/

theorem app_init_eq (tex : String → Nat) (s : invaderers_app) :
    s.app_init tex =
      init_counters (init_bombs tex (init_missiles tex (init_borders tex (init_walls tex
        (init_invaders tex (init_ship_banners tex s.read_csv)))))) :=
  rfl

theorem for_loop_induction {σ : Type} (P : σ → Prop) (body : Nat → σ → σ)
    (h : ∀ i t, P t → P (body i t)) : ∀ (n : Nat) (s : σ), P s → P (for_loop n body s) := by
  intro n
  induction n with
  | zero => intro s hs; exact hs
  | succ n ih => intro s hs; exact h n _ (ih s hs)

theorem set_sprite_sprites (s : invaderers_app) (i : Nat) (p : sprite) (k : Nat) :
    (s.set_sprite i p).sprites k = if k = i then p else s.sprites k := by
  simp [invaderers_app.set_sprite, Function.update_apply]

theorem init_invaders_frame (tex : String → Nat) (s : invaderers_app) :
    (init_invaders tex s).nInvaders = s.nInvaders ∧
    ∀ k, k < first_invaderer_sprite → (init_invaders tex s).sprites k = s.sprites k := by
  have hidx := sprite_index_values
  unfold init_invaders
  dsimp only
  apply for_loop_induction
    (fun t : invaderers_app => t.nInvaders = s.nInvaders ∧
      ∀ k, k < first_invaderer_sprite → t.sprites k = s.sprites k)
  · intro j t ht
    apply for_loop_induction
      (fun u : invaderers_app => u.nInvaders = s.nInvaders ∧
        ∀ k, k < first_invaderer_sprite → u.sprites k = s.sprites k)
    · intro i u hu
      refine ⟨hu.1, fun k hk => ?_⟩
      have hne : k ≠ invaderers_app.grid_slot i j := by
        unfold invaderers_app.grid_slot; omega
      rw [set_sprite_sprites, if_neg hne]
      exact hu.2 k hk
    · exact ht
  · exact ⟨rfl, fun _ _ => rfl⟩

theorem init_walls_frame (tex : String → Nat) (s : invaderers_app) :
    (init_walls tex s).nInvaders = s.nInvaders ∧
    ∀ k, k < first_wall_sprite → (init_walls tex s).sprites k = s.sprites k := by
  unfold init_walls
  dsimp only
  apply for_loop_induction
    (fun t : invaderers_app => t.nInvaders = s.nInvaders ∧
      ∀ k, k < first_wall_sprite → t.sprites k = s.sprites k)
  · intro i t ht
    refine ⟨ht.1, fun k hk => ?_⟩
    have hne : k ≠ first_wall_sprite + i := by omega
    rw [set_sprite_sprites, if_neg hne]
    exact ht.2 k hk
  · exact ⟨rfl, fun _ _ => rfl⟩

theorem init_borders_frame (tex : String → Nat) (s : invaderers_app) :
    (init_borders tex s).nInvaders = s.nInvaders ∧
    ∀ k, k < first_border_sprite → (init_borders tex s).sprites k = s.sprites k := by
  have hidx := sprite_index_values
  refine ⟨by simp [init_borders, invaderers_app.set_sprite], fun k hk => ?_⟩
  unfold init_borders
  dsimp only
  rw [set_sprite_sprites, if_neg (by omega), set_sprite_sprites, if_neg (by omega),
    set_sprite_sprites, if_neg (by omega), set_sprite_sprites, if_neg (by omega),
    set_sprite_sprites, if_neg (by omega)]

theorem init_missiles_frame (tex : String → Nat) (s : invaderers_app) :
    (init_missiles tex s).nInvaders = s.nInvaders ∧
    (∀ k, k < first_missile_sprite → (init_missiles tex s).sprites k = s.sprites k) ∧
    ∀ i, i < num_missiles →
      ((init_missiles tex s).sprites (first_missile_sprite + i)).enabled = false := by
  have hidx := sprite_index_values
  refine ⟨by simp [init_missiles, for_loop, invaderers_app.set_sprite, invaderers_app.modify],
    fun k hk => ?_, fun i hi => ?_⟩
  · have h0 : k ≠ first_missile_sprite + 0 := by omega
    have h1 : k ≠ first_missile_sprite + 1 := by omega
    simp [init_missiles, for_loop, modify_sprites, set_sprite_sprites, h0, h1]
  · have hi2 : i = 0 ∨ i = 1 := by omega
    rcases hi2 with rfl | rfl <;>
      simp [init_missiles, for_loop, modify_sprites, set_sprite_sprites, sprite.set_enabled]

theorem init_bombs_frame (tex : String → Nat) (s : invaderers_app) :
    (init_bombs tex s).nInvaders = s.nInvaders ∧
    (∀ k, k < first_bomb_sprite → (init_bombs tex s).sprites k = s.sprites k) ∧
    ∀ i, i < num_bombs →
      ((init_bombs tex s).sprites (first_bomb_sprite + i)).enabled = false := by
  have hidx := sprite_index_values
  refine ⟨by simp [init_bombs, for_loop, invaderers_app.set_sprite, invaderers_app.modify],
    fun k hk => ?_, fun i hi => ?_⟩
  · have h0 : k ≠ first_bomb_sprite + 0 := by omega
    have h1 : k ≠ first_bomb_sprite + 1 := by omega
    simp [init_bombs, for_loop, modify_sprites, set_sprite_sprites, h0, h1]
  · have hi2 : i = 0 ∨ i = 1 := by omega
    rcases hi2 with rfl | rfl <;>
      simp [init_bombs, for_loop, modify_sprites, set_sprite_sprites, sprite.set_enabled]

theorem init_ship_banners_frame (tex : String → Nat) (s : invaderers_app) :
    (init_ship_banners tex s).nInvaders = s.nInvaders ∧
    (init_ship_banners tex s).sprites ship_sprite
      = sprite.init_life (tex "assets/invaderers/player.gif") 0 (-(11 / 4)) (1 / 4) (1 / 4) 3 ∧
    (init_ship_banners tex s).sprites game_over_sprite
      = sprite.init (tex "assets/invaderers/GameOver.gif") 20 0 3 (3 / 2) ∧
    (init_ship_banners tex s).sprites game_won_sprite
      = sprite.init (tex "assets/invaderers/GameWon.gif") 20 0 3 (3 / 2) ∧
    (init_ship_banners tex s).sprites game_restart_sprite
      = sprite.init (tex "assets/invaderers/GameRestart.gif") 20 (-1) (3 / 2) (3 / 4) ∧
    (init_ship_banners tex s).sprites game_pause_sprite
      = sprite.init (tex "assets/invaderers/GamePause.gif") 20 0 (3 / 2) (3 / 4) := by
  refine ⟨?_, ?_, ?_, ?_, ?_, ?_⟩ <;>
    simp [init_ship_banners, invaderers_app.set_sprite, Function.update_apply]

theorem init_counters_sprites (s : invaderers_app) : (init_counters s).sprites = s.sprites :=
  rfl

theorem init_counters_nInvaders (s : invaderers_app) :
    (init_counters s).nInvaders = s.nInvaders :=
  rfl

/-- What `app_init` establishes, whatever the state it starts from. -/
theorem app_init_effects (tex : String → Nat) (s : invaderers_app) :
    (s.app_init tex).score = 0 ∧ (s.app_init tex).game_over = false ∧
    (s.app_init tex).game_paused = false ∧
    (s.app_init tex).missiles_disabled = 0 ∧ (s.app_init tex).bombs_disabled = 50 ∧
    (s.app_init tex).invader_velocity = 1 / 100 ∧
    (s.app_init tex).invader_direction = -(1 / 4) ∧
    (s.app_init tex).live_invaderers = (s.app_init tex).nInvaders ∧
    (s.app_init tex).nInvaders = 50 ∧
    (s.app_init tex).sprites ship_sprite
      = sprite.init_life (tex "assets/invaderers/player.gif") 0 (-(11 / 4)) (1 / 4) (1 / 4) 3 ∧
    (s.app_init tex).sprites game_over_sprite
      = sprite.init (tex "assets/invaderers/GameOver.gif") 20 0 3 (3 / 2) ∧
    (s.app_init tex).sprites game_won_sprite
      = sprite.init (tex "assets/invaderers/GameWon.gif") 20 0 3 (3 / 2) ∧
    (s.app_init tex).sprites game_restart_sprite
      = sprite.init (tex "assets/invaderers/GameRestart.gif") 20 (-1) (3 / 2) (3 / 4) ∧
    (s.app_init tex).sprites game_pause_sprite
      = sprite.init (tex "assets/invaderers/GamePause.gif") 20 0 (3 / 2) (3 / 4) ∧
    (∀ i, i < num_missiles →
      ((s.app_init tex).sprites (first_missile_sprite + i)).enabled = false) ∧
    (∀ i, i < num_bombs →
      ((s.app_init tex).sprites (first_bomb_sprite + i)).enabled = false) := by
  have hidx := sprite_index_values
  obtain ⟨a0, a1, a2, a3, a4, a5⟩ := init_ship_banners_frame tex s.read_csv
  obtain ⟨b0, b1⟩ := init_invaders_frame tex (init_ship_banners tex s.read_csv)
  obtain ⟨c0, c1⟩ := init_walls_frame tex (init_invaders tex (init_ship_banners tex s.read_csv))
  obtain ⟨d0, d1⟩ := init_borders_frame tex
    (init_walls tex (init_invaders tex (init_ship_banners tex s.read_csv)))
  obtain ⟨e0, e1, e2⟩ := init_missiles_frame tex
    (init_borders tex (init_walls tex (init_invaders tex (init_ship_banners tex s.read_csv))))
  obtain ⟨f0, f1, f2⟩ := init_bombs_frame tex (init_missiles tex
    (init_borders tex (init_walls tex (init_invaders tex (init_ship_banners tex s.read_csv)))))
  have hlow : ∀ k, k < first_invaderer_sprite →
      (s.app_init tex).sprites k = (init_ship_banners tex s.read_csv).sprites k := by
    intro k hk
    rw [app_init_eq, init_counters_sprites, f1 k (by omega), e1 k (by omega), d1 k (by omega), c1 k (by omega), b1 k hk]
  have hn : (s.app_init tex).nInvaders = 50 := by
    rw [app_init_eq, init_counters_nInvaders, f0, e0, d0, c0, b0, a0]
    rfl
  rw [hlow _ (by omega), hlow _ (by omega), hlow _ (by omega), hlow _ (by omega),
    hlow _ (by omega)]
  refine ⟨rfl, rfl, rfl, rfl, rfl, rfl, rfl, rfl, hn, a1, a2, a3, a4, a5, ?_, ?_⟩
  · intro i hi
    rw [app_init_eq, init_counters_sprites, f1 _ (by omega)]
    exact e2 i hi
  · intro i hi
    rw [app_init_eq, init_counters_sprites]
    exact f2 i hi

theorem simulate_restart (tex : String → Nat) (inp : input) (s : invaderers_app)
    (hover : s.game_over = true) (hR : inp.key_R = true) :
    s.simulate tex inp = s.app_init tex := by
  simp [invaderers_app.simulate, hover, hR]

/-- C17: with `game_over` set and the restart key held, `simulate` is `app_init` and runs
no simulation phase.  Afterwards `score = 0`, `game_over` and `game_paused` are false,
every missile and bomb slot is disabled, `invader_velocity = 0.01`,
`invader_direction = -0.25`, `live_invaderers = nInvaders` (which is 50), the ship is
enabled with 3 lives at `(0, -2.75)`, the four banners are parked at `x = 20`,
`missiles_disabled = 0` and `bombs_disabled = 50`. -/
theorem simulate_restart_spec (tex : String → Nat) (inp : input) (s : invaderers_app)
    (hover : s.game_over = true) (hR : inp.key_R = true) :
    s.simulate tex inp = s.app_init tex ∧
    (s.simulate tex inp).score = 0 ∧ (s.simulate tex inp).game_over = false ∧
    (s.simulate tex inp).game_paused = false ∧
    (∀ i, i < num_missiles →
      ((s.simulate tex inp).sprites (first_missile_sprite + i)).enabled = false) ∧
    (∀ i, i < num_bombs →
      ((s.simulate tex inp).sprites (first_bomb_sprite + i)).enabled = false) ∧
    (s.simulate tex inp).invader_velocity = 1 / 100 ∧
    (s.simulate tex inp).invader_direction = -(1 / 4) ∧
    (s.simulate tex inp).live_invaderers = (s.simulate tex inp).nInvaders ∧
    (s.simulate tex inp).nInvaders = 50 ∧
    ((s.simulate tex inp).sprites ship_sprite).enabled = true ∧
    ((s.simulate tex inp).sprites ship_sprite).lives = 3 ∧
    ((s.simulate tex inp).sprites ship_sprite).x = 0 ∧
    ((s.simulate tex inp).sprites ship_sprite).y = -(11 / 4) ∧
    ((s.simulate tex inp).sprites game_over_sprite).x = 20 ∧
    ((s.simulate tex inp).sprites game_won_sprite).x = 20 ∧
    ((s.simulate tex inp).sprites game_restart_sprite).x = 20 ∧
    ((s.simulate tex inp).sprites game_pause_sprite).x = 20 ∧
    (s.simulate tex inp).missiles_disabled = 0 ∧
    (s.simulate tex inp).bombs_disabled = 50 := by
  rw [simulate_restart tex inp s hover hR]
  obtain ⟨h1, h2, h3, h4, h5, h6, h7, h8, h9, h10, h11, h12, h13, h14, h15, h16⟩ :=
    app_init_effects tex s
  refine ⟨rfl, h1, h2, h3, h15, h16, h6, h7, h8, h9, ?_, ?_, ?_, ?_, ?_, ?_, ?_, ?_, h4, h5⟩
  · rw [h10]; rfl
  · rw [h10]; rfl
  · rw [h10]; rfl
  · rw [h10]; rfl
  · rw [h11]; rfl
  · rw [h12]; rfl
  · rw [h13]; rfl
  · rw [h14]; rfl

/-- Restarting an ended game resets the score and re-arms the bomb cooldown. -/
theorem simulate_restart_spec_witness :
    (ended_app.simulate tex1 restart_key).score = 0 ∧
    (ended_app.simulate tex1 restart_key).bombs_disabled = 50 :=
  have h := simulate_restart_spec tex1 restart_key ended_app rfl rfl
  ⟨h.2.1, h.2.2.2.2.2.2.2.2.2.2.2.2.2.2.2.2.2.2.2⟩

/-! ## Pausing -/

theorem move_ship_paused (inp : input) (s : invaderers_app) :
    (s.move_ship inp).game_paused = s.game_paused := by
  unfold invaderers_app.move_ship
  dsimp only
  split_ifs <;> rfl

theorem fire_missiles_paused (inp : input) (s : invaderers_app) :
    (s.fire_missiles inp).game_paused = s.game_paused := by
  unfold invaderers_app.fire_missiles
  split_ifs
  · rfl
  · split <;> rfl
  · rfl

theorem fire_bombs_paused (inp : input) (s : invaderers_app) :
    (s.fire_bombs inp).game_paused = s.game_paused := by
  unfold invaderers_app.fire_bombs
  split_ifs
  · rfl
  · split
    · split <;> rfl
    · rfl

theorem on_hit_wall_paused (tex : String → Nat) (s : invaderers_app) (w : Nat) :
    (s.on_hit_wall tex w).game_paused = s.game_paused := by
  unfold invaderers_app.on_hit_wall
  dsimp only
  split_ifs <;> rfl

theorem on_hit_invaderer_paused (s : invaderers_app) :
    (s.on_hit_invaderer).game_paused = s.game_paused := by
  unfold invaderers_app.on_hit_invaderer
  dsimp only
  split_ifs <;> rfl

theorem on_hit_ship_paused (s : invaderers_app) (p : Nat) :
    (s.on_hit_ship p).game_paused = s.game_paused := by
  unfold invaderers_app.on_hit_ship
  dsimp only
  split_ifs <;> rfl

theorem move_missile_paused (tex : String → Nat) (i : Nat) (s : invaderers_app) :
    (invaderers_app.move_missile tex i s).game_paused = s.game_paused := by
  cases hen : (s.sprites (first_missile_sprite + i)).enabled with
  | false => rw [move_missile_disabled tex i s hen]
  | true =>
    cases hfm : first_match (missile_overlaps_invader s i) 0 num_invaderers with
    | some j =>
      rw [move_missile_hit tex i j s hen hfm, on_hit_invaderer_paused]
      simp [invaderers_app.disable_and_park, invaderers_app.modify]
    | none =>
      rw [move_missile_miss tex i s hen hfm]
      have hb : ∀ (t : invaderers_app) (m : Nat),
          (missile_top_border t m).game_paused = t.game_paused := by
        intro t m
        unfold missile_top_border
        split_ifs <;> simp [invaderers_app.disable_and_park, invaderers_app.modify]
      have hw : ∀ (t : invaderers_app) (m : Nat),
          (missile_walls_bombs tex t m).game_paused = t.game_paused := by
        intro t m
        unfold missile_walls_bombs
        split
        · rw [on_hit_wall_paused]
          simp [invaderers_app.disable_and_park, invaderers_app.modify]
        · split
          · simp [invaderers_app.on_projectile_collide, invaderers_app.get_sound_source,
              invaderers_app.disable_and_park, invaderers_app.modify]
          · rfl
      rw [hw, hb]
      simp [invaderers_app.modify]

theorem move_bomb_paused (tex : String → Nat) (i : Nat) (s : invaderers_app) :
    (invaderers_app.move_bomb tex i s).game_paused = s.game_paused := by
  cases h : bomb_hits_ship s i with
  | true =>
    rw [move_bomb_hit tex i s h, on_hit_ship_paused]
    simp [invaderers_app.disable_and_park, invaderers_app.modify]
  | false =>
    cases hen : (s.sprites (first_bomb_sprite + i)).enabled with
    | false => rw [move_bomb_idle tex i s hen]
    | true =>
      rw [move_bomb_miss tex i s hen h]
      have hb : ∀ (t : invaderers_app) (m : Nat),
          (bomb_bottom_border t m).game_paused = t.game_paused := by
        intro t m
        unfold bomb_bottom_border
        split_ifs <;> simp [invaderers_app.disable_and_park, invaderers_app.modify]
      have hw : ∀ (t : invaderers_app) (m : Nat),
          (bomb_walls tex t m).game_paused = t.game_paused := by
        intro t m
        unfold bomb_walls
        split
        · rw [on_hit_wall_paused]
          simp [invaderers_app.disable_and_park, invaderers_app.modify]
        · rfl
      rw [hw, hb]
      simp [invaderers_app.modify]

theorem move_invaders_paused (s : invaderers_app) (dx dy : ℚ) :
    (s.move_invaders dx dy).game_paused = s.game_paused := by
  rw [move_invaders_eq]

theorem move_swarm_paused (s : invaderers_app) : (s.move_swarm).game_paused = s.game_paused := by
  rw [move_swarm_eq]
  split_ifs <;> simp only [move_invaders_paused]

theorem move_missile_pause_banner (tex : String → Nat) (i : Nat) (s : invaderers_app) :
    (invaderers_app.move_missile tex i s).sprites game_pause_sprite
      = s.sprites game_pause_sprite := by
  have hidx := sprite_index_values
  exact move_missile_sprites_frame tex i s _ (by omega) (by omega) (by omega) (by omega)
    (by intro h; omega)

theorem move_bomb_pause_banner (tex : String → Nat) (i : Nat) (s : invaderers_app) :
    (invaderers_app.move_bomb tex i s).sprites game_pause_sprite
      = s.sprites game_pause_sprite := by
  have hidx := sprite_index_values
  cases h : bomb_hits_ship s i with
  | true =>
    exact (move_bomb_hit_effects tex i s h).2.2.2.2.1 _ (by omega) (by omega) (by omega)
      (by omega)
  | false => exact (move_bomb_miss_effects tex i s h).2.2.2.2 _ (by omega) (by omega)

theorem move_missiles_eq (tex : String → Nat) (s : invaderers_app) :
    s.move_missiles tex
      = invaderers_app.move_missile tex 1 (invaderers_app.move_missile tex 0 s) :=
  rfl

theorem move_bombs_eq (tex : String → Nat) (s : invaderers_app) :
    s.move_bombs tex = invaderers_app.move_bomb tex 1 (invaderers_app.move_bomb tex 0 s) :=
  rfl

/-- The six phases of a running frame change neither `game_paused` nor the pause
banner. -/
theorem run_frame_pause (tex : String → Nat) (inp : input) (s : invaderers_app) :
    (s.run_frame tex inp).game_paused = s.game_paused ∧
    (s.run_frame tex inp).sprites game_pause_sprite = s.sprites game_pause_sprite := by
  have hidx := sprite_index_values
  have hr : s.run_frame tex inp =
    (((((s.move_ship inp).fire_missiles inp).fire_bombs inp).move_missiles tex).move_bombs
      tex).move_swarm := rfl
  rw [hr, move_bombs_eq, move_missiles_eq]
  constructor
  · rw [move_swarm_paused, move_bomb_paused, move_bomb_paused, move_missile_paused,
      move_missile_paused, fire_bombs_paused, fire_missiles_paused, move_ship_paused]
  · rw [(move_swarm_frame _).2.2.2 _ (Or.inl (by omega)), move_bomb_pause_banner,
      move_bomb_pause_banner, move_missile_pause_banner, move_missile_pause_banner,
      (fire_bombs_frame _ _).2.2 _ (by omega), (fire_missiles_frame _ _).2.2 _ (by omega),
      (move_ship_frame _ _).2.2.2 _ (by omega)]

/-- The two flags `game_over` and `game_paused` are never both set by `simulate`: from a
state in which at most one of them is set, the next state has at most one of them set.
`app_init` clears both. -/
theorem simulate_flags_exclusive (tex : String → Nat) (inp : input) (s : invaderers_app)
    (h : s.game_over = false ∨ s.game_paused = false) :
    (s.simulate tex inp).game_over = false ∨ (s.simulate tex inp).game_paused = false := by
  cases hover : s.game_over with
  | true =>
    cases hR : inp.key_R with
    | false =>
      rw [simulate_ended tex inp s hover hR]
      rw [hover] at h
      exact Or.inr (h.resolve_left (by simp))
    | true =>
      rw [simulate_restart tex inp s hover hR]
      exact Or.inr (app_init_effects tex s).2.2.1
  | false =>
    cases hP : inp.key_P_going_down with
    | true =>
      cases hpaused : s.game_paused with
      | true =>
        rw [simulate_unpause tex inp s hover hpaused hP, (run_frame_pause tex inp _).1]
        exact Or.inr rfl
      | false =>
        rw [simulate_pause tex inp s hover hpaused hP]
        exact Or.inl (by simp [invaderers_app.modify, hover])
    | false =>
      cases hpaused : s.game_paused with
      | true =>
        rw [simulate_paused tex inp s hover hpaused hP]
        exact Or.inl hover
      | false =>
        rw [simulate_running tex inp s hover hpaused hP, (run_frame_pause tex inp s).1]
        exact Or.inr hpaused

/-- C20: pause toggling, in the states of a game: `simulate` never sets `game_over` and
`game_paused` together (`app_init` clears both and every step keeps at most one of them
set), so the state is assumed to have at most one of them set.  In a running, unpaused
state a pause-key edge makes `simulate` set `game_paused`, translate the pause banner by
`(-20, 0)` and change nothing else.  In a paused state a pause-key edge makes `simulate`
clear `game_paused` and translate the pause banner by `(+20, 0)`.  So a pause followed by
an unpause puts the pause banner back where it was, and `game_paused` changes only on a
pause-key edge while `game_over` is false. -/
theorem simulate_pause_toggle (tex : String → Nat) (inp : input) (s : invaderers_app)
    (hflags : s.game_over = false ∨ s.game_paused = false) :
    (s.game_over = false → s.game_paused = false → inp.key_P_going_down = true →
      s.simulate tex inp =
        ({ s with game_paused := true } : invaderers_app).modify game_pause_sprite
          (fun p => p.translate (-20) 0)) ∧
    (s.game_paused = true → inp.key_P_going_down = true →
      (s.simulate tex inp).game_paused = false ∧
      (s.simulate tex inp).sprites game_pause_sprite
        = (s.sprites game_pause_sprite).translate 20 0) ∧
    (∀ inp2 : input, s.game_over = false → s.game_paused = false →
      inp.key_P_going_down = true → inp2.key_P_going_down = true →
      ((s.simulate tex inp).simulate tex inp2).sprites game_pause_sprite
        = s.sprites game_pause_sprite) ∧
    ((s.simulate tex inp).game_paused ≠ s.game_paused →
      inp.key_P_going_down = true ∧ s.game_over = false) ∧
    ((s.simulate tex inp).game_over = false ∨ (s.simulate tex inp).game_paused = false) ∧
    ((s.app_init tex).game_over = false ∧ (s.app_init tex).game_paused = false) := by
  have unpause : ∀ (t : invaderers_app) (i : input), t.game_over = false →
      t.game_paused = true → i.key_P_going_down = true →
      (t.simulate tex i).game_paused = false ∧
      (t.simulate tex i).sprites game_pause_sprite
        = (t.sprites game_pause_sprite).translate 20 0 := by
    intro t i h1 h2 h3
    rw [simulate_unpause tex i t h1 h2 h3]
    obtain ⟨r1, r2⟩ := run_frame_pause tex i
      (({ t with game_paused := false } : invaderers_app).modify game_pause_sprite
        (fun p => p.translate 20 0))
    rw [r1, r2]
    exact ⟨rfl, by simp [modify_sprites]⟩
  refine ⟨simulate_pause tex inp s, ?_, ?_, ?_, simulate_flags_exclusive tex inp s hflags,
    (app_init_effects tex s).2.1, (app_init_effects tex s).2.2.1⟩
  · intro hpaused hP
    have hover : s.game_over = false := by
      rcases hflags with h | h
      · exact h
      · rw [hpaused] at h
        cases h
    exact unpause s inp hover hpaused hP
  · intro inp2 h1 h2 h3 h4
    rw [simulate_pause tex inp s h1 h2 h3]
    obtain ⟨_, u2⟩ := unpause
      (({ s with game_paused := true } : invaderers_app).modify game_pause_sprite
        (fun p => p.translate (-20) 0)) inp2 h1 rfl h4
    rw [u2]
    simp only [modify_sprites, if_true]
    rw [sprite_translate_translate]
    norm_num
    exact sprite_translate_zero _
  · intro hne
    cases hover : s.game_over with
    | true =>
      have hp : s.game_paused = false := by
        rcases hflags with h | h
        · rw [hover] at h
          cases h
        · exact h
      cases hR : inp.key_R with
      | false =>
        rw [simulate_ended tex inp s hover hR] at hne
        exact absurd rfl hne
      | true =>
        rw [simulate_restart tex inp s hover hR, (app_init_effects tex s).2.2.1, hp] at hne
        exact absurd rfl hne
    | false =>
      cases hP : inp.key_P_going_down with
      | true => exact ⟨rfl, rfl⟩
      | false =>
        cases hpaused : s.game_paused with
        | true =>
          rw [simulate_paused tex inp s hover hpaused hP] at hne
          exact absurd rfl hne
        | false =>
          rw [simulate_running tex inp s hover hpaused hP, (run_frame_pause tex inp s).1] at hne
          exact absurd rfl hne

/-- Unpausing a paused game clears `game_paused` and moves the pause banner back by
`(+20, 0)`. -/
theorem simulate_pause_toggle_witness :
    (paused_app.game_over = false ∨ paused_app.game_paused = false) ∧
    (paused_app.simulate tex1 pause_key).game_paused = false ∧
    (paused_app.simulate tex1 pause_key).sprites game_pause_sprite
      = (paused_app.sprites game_pause_sprite).translate 20 0 :=
  ⟨Or.inl rfl, (simulate_pause_toggle tex1 pause_key paused_app (Or.inl rfl)).2.1 rfl rfl⟩

/-- A state that is both paused and over, which `simulate` never produces: with a
pause-key edge (and no restart key) `game_paused` stays set, and with the restart key held and no
pause-key edge `game_paused` changes from true to false although `game_over` is set. -/
theorem simulate_paused_and_over :
    ended_paused_app.game_paused = true ∧ ended_paused_app.game_over = true ∧
    pause_key.key_P_going_down = true ∧
    (ended_paused_app.simulate tex1 pause_key).game_paused = true ∧
    restart_key.key_P_going_down = false ∧
    (ended_paused_app.simulate tex1 restart_key).game_paused = false := by
  decide!

/-! ## Disabled sprites take part in nothing -/

theorem reposition_sprites (s : invaderers_app) (k : Nat) (x y : ℚ) (i : Nat) :
    (reposition s k x y).sprites i =
      if i = k then { s.sprites k with x := x, y := y } else s.sprites i := by
  unfold reposition
  rw [modify_sprites]

theorem reposition_sprites_ne (s : invaderers_app) (k : Nat) (x y : ℚ) (i : Nat) (h : i ≠ k) :
    (reposition s k x y).sprites i = s.sprites i := by
  rw [reposition_sprites, if_neg h]

theorem reposition_enabled (s : invaderers_app) (k : Nat) (x y : ℚ) (i : Nat) :
    ((reposition s k x y).sprites i).enabled = (s.sprites i).enabled := by
  rw [reposition_sprites]
  split_ifs with h
  · rw [h]
  · rfl

theorem modify_reposition (s : invaderers_app) (k : Nat) (x y : ℚ) (i : Nat)
    (f : sprite → sprite) (h : i ≠ k) :
    (reposition s k x y).modify i f = reposition (s.modify i f) k x y := by
  cases s with
  | mk a1 a2 a3 a4 a5 a6 a7 a8 a9 a10 a11 a12 a13 sp =>
    simp only [reposition, invaderers_app.modify, invaderers_app.mk.injEq, true_and]
    funext j
    by_cases hji : j = i
    · subst hji
      simp [Function.update_apply, h]
    · by_cases hjk : j = k
      · subst hjk
        simp [Function.update_apply, hji, Ne.symm h]
      · simp [Function.update_apply, hji, hjk]

theorem disable_and_park_reposition (s : invaderers_app) (k : Nat) (x y : ℚ) (i : Nat)
    (h : i ≠ k) :
    (reposition s k x y).disable_and_park i = reposition (s.disable_and_park i) k x y := by
  unfold invaderers_app.disable_and_park
  rw [modify_reposition _ _ _ _ _ _ h, modify_reposition _ _ _ _ _ _ h]

theorem get_sound_source_reposition (s : invaderers_app) (k : Nat) (x y : ℚ) :
    (reposition s k x y).get_sound_source = reposition s.get_sound_source k x y := by
  cases s
  simp [reposition, invaderers_app.modify, invaderers_app.get_sound_source]

theorem ignores_comp (F G : invaderers_app → invaderers_app) (k : Nat)
    (hF : ignores F k) (hG : ignores G k) (s : invaderers_app) (x y : ℚ)
    (hdis : (s.sprites k).enabled = false) :
    (G (F s)).sprites k = s.sprites k ∧
    G (F (reposition s k x y)) = reposition (G (F s)) k x y := by
  obtain ⟨f1, f2⟩ := hF s x y hdis
  obtain ⟨g1, g2⟩ := hG (F s) x y (by rw [f1]; exact hdis)
  exact ⟨by rw [g1, f1], by rw [f2, g2]⟩

theorem on_hit_invaderer_reposition (s : invaderers_app) (k : Nat) (x y : ℚ)
    (h2 : game_won_sprite ≠ k) (h3 : game_restart_sprite ≠ k) :
    (reposition s k x y).on_hit_invaderer = reposition s.on_hit_invaderer k x y := by
  cases s with
  | mk a1 a2 a3 a4 a5 a6 a7 a8 a9 a10 a11 a12 a13 sp =>
    simp only [reposition, invaderers_app.on_hit_invaderer, invaderers_app.modify,
      invaderers_app.get_sound_source]
    split_ifs
    · rfl
    · simp only [invaderers_app.mk.injEq, true_and, and_true]
      funext j
      simp only [Function.update_apply]
      split_ifs <;> simp_all
    · rfl

theorem on_hit_wall_reposition (tex : String → Nat) (s : invaderers_app) (k : Nat) (x y : ℚ)
    (w : Nat) (h : w ≠ k) :
    (reposition s k x y).on_hit_wall tex w = reposition (s.on_hit_wall tex w) k x y := by
  unfold invaderers_app.on_hit_wall
  dsimp only
  rw [get_sound_source_reposition, reposition_sprites_ne _ _ _ _ _ h]
  split_ifs
  · rw [modify_reposition _ _ _ _ _ _ h, modify_reposition _ _ _ _ _ _ h]
  · rw [modify_reposition _ _ _ _ _ _ h, modify_reposition _ _ _ _ _ _ h]

theorem on_projectile_collide_reposition (s : invaderers_app) (k : Nat) (x y : ℚ) :
    (reposition s k x y).on_projectile_collide = reposition s.on_projectile_collide k x y :=
  get_sound_source_reposition s k x y

theorem guarded_reposition (s : invaderers_app) (k : Nat) (x y : ℚ)
    (hdis : (s.sprites k).enabled = false) (c : sprite → Bool) (i : Nat) :
    (((reposition s k x y).sprites i).enabled && c ((reposition s k x y).sprites i)) =
      ((s.sprites i).enabled && c (s.sprites i)) := by
  by_cases h : i = k
  · subst h
    rw [reposition_enabled, hdis]
    rfl
  · rw [reposition_sprites_ne _ _ _ _ _ h]

theorem missile_top_border_reposition (s : invaderers_app) (k : Nat) (x y : ℚ) (m : Nat)
    (hm : m ≠ k) (hb : first_border_sprite + 1 ≠ k) :
    missile_top_border (reposition s k x y) m = reposition (missile_top_border s m) k x y := by
  unfold missile_top_border
  rw [reposition_sprites_ne _ _ _ _ _ hm, reposition_sprites_ne _ _ _ _ _ hb]
  split_ifs
  · exact disable_and_park_reposition s k x y m hm
  · rfl

theorem missile_walls_bombs_ignores (tex : String → Nat) (s : invaderers_app) (k : Nat)
    (x y : ℚ) (m : Nat) (hm : m ≠ k) (hdis : (s.sprites k).enabled = false) :
    (missile_walls_bombs tex s m).sprites k = s.sprites k ∧
    missile_walls_bombs tex (reposition s k x y) m
      = reposition (missile_walls_bombs tex s m) k x y := by
  have hw : first_match (fun i =>
        ((reposition s k x y).sprites (first_wall_sprite + i)).enabled &&
        ((reposition s k x y).sprites m).collides_with
          ((reposition s k x y).sprites (first_wall_sprite + i))) 0 num_walls
      = first_match (fun i => (s.sprites (first_wall_sprite + i)).enabled &&
        (s.sprites m).collides_with (s.sprites (first_wall_sprite + i))) 0 num_walls := by
    apply first_match_congr
    intro j _ _
    rw [reposition_sprites_ne _ _ _ _ m hm]
    exact guarded_reposition s k x y hdis (fun q => (s.sprites m).collides_with q) _
  have hb : first_match (fun i =>
        ((reposition s k x y).sprites (first_bomb_sprite + i)).enabled &&
        ((reposition s k x y).sprites m).collides_with
          ((reposition s k x y).sprites (first_bomb_sprite + i))) 0 num_bombs
      = first_match (fun i => (s.sprites (first_bomb_sprite + i)).enabled &&
        (s.sprites m).collides_with (s.sprites (first_bomb_sprite + i))) 0 num_bombs := by
    apply first_match_congr
    intro j _ _
    rw [reposition_sprites_ne _ _ _ _ m hm]
    exact guarded_reposition s k x y hdis (fun q => (s.sprites m).collides_with q) _
  unfold missile_walls_bombs
  rw [hw, hb]
  cases h1 : first_match (fun i => (s.sprites (first_wall_sprite + i)).enabled &&
      (s.sprites m).collides_with (s.sprites (first_wall_sprite + i))) 0 num_walls with
  | some w =>
    have hen : (s.sprites (first_wall_sprite + w)).enabled = true := by
      have := (first_match_some _ _ _ h1).2.2.1
      simp only [Bool.and_eq_true] at this
      exact this.1
    have hwk : first_wall_sprite + w ≠ k := by
      intro h; rw [h, hdis] at hen; cases hen
    dsimp only
    refine ⟨?_, ?_⟩
    · rw [on_hit_wall_sprites _ _ _ _ (Ne.symm hwk), disable_and_park_sprites,
        if_neg (Ne.symm hm)]
    · rw [disable_and_park_reposition _ _ _ _ _ hm, on_hit_wall_reposition _ _ _ _ _ _ hwk]
  | none =>
    dsimp only
    cases h2 : first_match (fun i => (s.sprites (first_bomb_sprite + i)).enabled &&
        (s.sprites m).collides_with (s.sprites (first_bomb_sprite + i))) 0 num_bombs with
    | some b =>
      have hen : (s.sprites (first_bomb_sprite + b)).enabled = true := by
        have := (first_match_some _ _ _ h2).2.2.1
        simp only [Bool.and_eq_true] at this
        exact this.1
      have hbk : first_bomb_sprite + b ≠ k := by
        intro h; rw [h, hdis] at hen; cases hen
      dsimp only
      refine ⟨?_, ?_⟩
      · show ((((s.disable_and_park (first_bomb_sprite + b)).disable_and_park
          m).get_sound_source).sprites k) = _
        simp [invaderers_app.get_sound_source, disable_and_park_sprites, Ne.symm hm,
          Ne.symm hbk]
      · rw [disable_and_park_reposition _ _ _ _ _ hbk, disable_and_park_reposition _ _ _ _ _ hm,
          on_projectile_collide_reposition]
    | none =>
      dsimp only
      exact ⟨rfl, rfl⟩


theorem missile_overlaps_reposition (s : invaderers_app) (k : Nat) (x y : ℚ) (i : Nat)
    (hm : first_missile_sprite + i ≠ k) (hdis : (s.sprites k).enabled = false) :
    first_match (missile_overlaps_invader (reposition s k x y) i) 0 num_invaderers
      = first_match (missile_overlaps_invader s i) 0 num_invaderers := by
  apply first_match_congr
  intro j _ _
  unfold missile_overlaps_invader
  rw [reposition_sprites_ne _ _ _ _ _ hm]
  exact guarded_reposition s k x y hdis
    (fun q => ((s.sprites (first_missile_sprite + i)).translate 0
      invaderers_app.missile_speed).collides_with q) _

/-- One iteration of the missile loop ignores a disabled invader, missile, bomb or wall. -/
theorem move_missile_ignores (tex : String → Nat) (i k : Nat)
    (hk : (first_invaderer_sprite ≤ k ∧ k ≤ last_bomb_sprite) ∨
      (first_wall_sprite ≤ k ∧ k ≤ last_wall_sprite)) :
    ignores (invaderers_app.move_missile tex i) k := by
  have hidx := sprite_index_values
  have hlb : last_bomb_sprite = 317 := rfl
  intro s x y hdis
  by_cases hm : first_missile_sprite + i = k
  · have h1 : (s.sprites (first_missile_sprite + i)).enabled = false := by rw [hm]; exact hdis
    have h2 : ((reposition s k x y).sprites (first_missile_sprite + i)).enabled = false := by
      rw [reposition_enabled]; exact h1
    rw [move_missile_disabled tex i s h1, move_missile_disabled tex i _ h2]
    exact ⟨rfl, rfl⟩
  · cases hen : (s.sprites (first_missile_sprite + i)).enabled with
    | false =>
      have h2 : ((reposition s k x y).sprites (first_missile_sprite + i)).enabled = false := by
        rw [reposition_enabled]; exact hen
      rw [move_missile_disabled tex i s hen, move_missile_disabled tex i _ h2]
      exact ⟨rfl, rfl⟩
    | true =>
      have hen' : ((reposition s k x y).sprites (first_missile_sprite + i)).enabled = true := by
        rw [reposition_enabled]; exact hen
      have hscan := missile_overlaps_reposition s k x y i hm hdis
      cases hfm : first_match (missile_overlaps_invader s i) 0 num_invaderers with
      | some j =>
        obtain ⟨_, hj, hp, _⟩ := first_match_some _ _ _ hfm
        have hej : (s.sprites (first_invaderer_sprite + j)).enabled = true := by
          simp only [missile_overlaps_invader, Bool.and_eq_true] at hp
          exact hp.1
        have hjk : first_invaderer_sprite + j ≠ k := by
          intro h; rw [h, hdis] at hej; cases hej
        refine ⟨?_, ?_⟩
        · exact (move_missile_hit_effects tex i j s hen hfm).2.2.2.2 k (Ne.symm hm)
            (Ne.symm hjk) (by omega) (by omega)
        · rw [move_missile_hit tex i j s hen hfm,
            move_missile_hit tex i j _ hen' (by rw [hscan]; exact hfm),
            modify_reposition _ _ _ _ _ _ hm, disable_and_park_reposition _ _ _ _ _ hjk,
            disable_and_park_reposition _ _ _ _ _ hm,
            on_hit_invaderer_reposition _ _ _ _ (by omega) (by omega)]
      | none =>
        have hdis1 : ((s.modify (first_missile_sprite + i)
            (fun p => p.translate 0 invaderers_app.missile_speed)).sprites k).enabled
              = false := by
          rw [modify_sprites, if_neg (Ne.symm hm)]; exact hdis
        have hdis2 : ((missile_top_border (s.modify (first_missile_sprite + i)
            (fun p => p.translate 0 invaderers_app.missile_speed))
              (first_missile_sprite + i)).sprites k).enabled = false := by
          rw [missile_top_border_sprites _ _ _ (Ne.symm hm)]; exact hdis1
        obtain ⟨w1, w2⟩ := missile_walls_bombs_ignores tex _ k x y (first_missile_sprite + i)
          hm hdis2
        rw [move_missile_miss tex i s hen hfm,
          move_missile_miss tex i _ hen' (by rw [hscan]; exact hfm),
          modify_reposition _ _ _ _ _ _ hm,
          missile_top_border_reposition _ _ _ _ _ hm (by omega)]
        refine ⟨?_, w2⟩
        rw [w1, missile_top_border_sprites _ _ _ (Ne.symm hm), modify_sprites,
          if_neg (Ne.symm hm)]


theorem on_hit_ship_reposition (s : invaderers_app) (k : Nat) (x y : ℚ)
    (h0 : ship_sprite ≠ k) (h1 : game_over_sprite ≠ k) (h3 : game_restart_sprite ≠ k) :
    (reposition s k x y).on_hit_ship ship_sprite
      = reposition (s.on_hit_ship ship_sprite) k x y := by
  have hg : ∀ (t : invaderers_app),
      ({ reposition t k x y with game_over := true } : invaderers_app)
        = reposition ({ t with game_over := true } : invaderers_app) k x y := by
    intro t
    cases t
    simp [reposition, invaderers_app.modify]
  unfold invaderers_app.on_hit_ship
  dsimp only
  rw [get_sound_source_reposition, modify_reposition _ _ _ _ _ _ h0,
    reposition_sprites_ne _ _ _ _ _ h0]
  split_ifs
  · rw [hg, modify_reposition _ _ _ _ _ _ h1, modify_reposition _ _ _ _ _ _ h3]
  · rfl

theorem bomb_bottom_border_reposition (s : invaderers_app) (k : Nat) (x y : ℚ) (b : Nat)
    (hb : b ≠ k) (hbd : first_border_sprite + 0 ≠ k) :
    bomb_bottom_border (reposition s k x y) b = reposition (bomb_bottom_border s b) k x y := by
  unfold bomb_bottom_border
  rw [reposition_sprites_ne _ _ _ _ _ hb, reposition_sprites_ne _ _ _ _ _ hbd]
  split_ifs
  · exact disable_and_park_reposition s k x y b hb
  · rfl

theorem bomb_walls_ignores (tex : String → Nat) (s : invaderers_app) (k : Nat)
    (x y : ℚ) (b : Nat) (hb : b ≠ k) (hdis : (s.sprites k).enabled = false) :
    (bomb_walls tex s b).sprites k = s.sprites k ∧
    bomb_walls tex (reposition s k x y) b = reposition (bomb_walls tex s b) k x y := by
  have hw : first_match (fun i =>
        ((reposition s k x y).sprites (first_wall_sprite + i)).enabled &&
        ((reposition s k x y).sprites b).collides_with
          ((reposition s k x y).sprites (first_wall_sprite + i))) 0 num_walls
      = first_match (fun i => (s.sprites (first_wall_sprite + i)).enabled &&
        (s.sprites b).collides_with (s.sprites (first_wall_sprite + i))) 0 num_walls := by
    apply first_match_congr
    intro j _ _
    rw [reposition_sprites_ne _ _ _ _ b hb]
    exact guarded_reposition s k x y hdis (fun q => (s.sprites b).collides_with q) _
  unfold bomb_walls
  rw [hw]
  cases h1 : first_match (fun i => (s.sprites (first_wall_sprite + i)).enabled &&
      (s.sprites b).collides_with (s.sprites (first_wall_sprite + i))) 0 num_walls with
  | some w =>
    have hen : (s.sprites (first_wall_sprite + w)).enabled = true := by
      have := (first_match_some _ _ _ h1).2.2.1
      simp only [Bool.and_eq_true] at this
      exact this.1
    have hwk : first_wall_sprite + w ≠ k := by
      intro h; rw [h, hdis] at hen; cases hen
    dsimp only
    refine ⟨?_, ?_⟩
    · rw [on_hit_wall_sprites _ _ _ _ (Ne.symm hwk), disable_and_park_sprites,
        if_neg (Ne.symm hb)]
    · rw [disable_and_park_reposition _ _ _ _ _ hb, on_hit_wall_reposition _ _ _ _ _ _ hwk]
  | none =>
    dsimp only
    exact ⟨rfl, rfl⟩

theorem bomb_hits_ship_reposition (s : invaderers_app) (k : Nat) (x y : ℚ) (i : Nat)
    (h0 : ship_sprite ≠ k) (hdis : (s.sprites k).enabled = false) :
    bomb_hits_ship (reposition s k x y) i = bomb_hits_ship s i := by
  unfold bomb_hits_ship
  rw [reposition_sprites_ne _ _ _ _ _ h0]
  exact guarded_reposition s k x y hdis
    (fun q => (q.translate 0 (-invaderers_app.bomb_speed)).collides_with
      (s.sprites ship_sprite)) _

/-- One iteration of the bomb loop ignores a disabled invader, missile, bomb or wall. -/
theorem move_bomb_ignores (tex : String → Nat) (i k : Nat)
    (hk : (first_invaderer_sprite ≤ k ∧ k ≤ last_bomb_sprite) ∨
      (first_wall_sprite ≤ k ∧ k ≤ last_wall_sprite)) :
    ignores (invaderers_app.move_bomb tex i) k := by
  have hidx := sprite_index_values
  have hlb : last_bomb_sprite = 317 := rfl
  intro s x y hdis
  have hhit := bomb_hits_ship_reposition s k x y i (by omega) hdis
  cases hen : (s.sprites (first_bomb_sprite + i)).enabled with
  | false =>
    have h2 : ((reposition s k x y).sprites (first_bomb_sprite + i)).enabled = false := by
      rw [reposition_enabled]; exact hen
    rw [move_bomb_idle tex i s hen, move_bomb_idle tex i _ h2]
    exact ⟨rfl, rfl⟩
  | true =>
    have hb : first_bomb_sprite + i ≠ k := by
      intro h; rw [h, hdis] at hen; cases hen
    have hen' : ((reposition s k x y).sprites (first_bomb_sprite + i)).enabled = true := by
      rw [reposition_enabled]; exact hen
    cases h : bomb_hits_ship s i with
    | true =>
      have hv : ∀ (t : invaderers_app),
          ({ reposition t k x y with bombs_disabled := 50 } : invaderers_app)
            = reposition ({ t with bombs_disabled := 50 } : invaderers_app) k x y := by
        intro t
        cases t
        simp [reposition, invaderers_app.modify]
      refine ⟨?_, ?_⟩
      · exact (move_bomb_hit_effects tex i s h).2.2.2.2.1 k (by omega) (by omega) (by omega)
          (Ne.symm hb)
      · rw [move_bomb_hit tex i s h, move_bomb_hit tex i _ (by rw [hhit]; exact h),
          modify_reposition _ _ _ _ _ _ hb, disable_and_park_reposition _ _ _ _ _ hb, hv,
          on_hit_ship_reposition _ _ _ _ (by omega) (by omega) (by omega)]
    | false =>
      have hdis1 : ((s.modify (first_bomb_sprite + i)
          (fun p => p.translate 0 (-invaderers_app.bomb_speed))).sprites k).enabled
            = false := by
        rw [modify_sprites, if_neg (Ne.symm hb)]; exact hdis
      have hdis2 : ((bomb_bottom_border (s.modify (first_bomb_sprite + i)
          (fun p => p.translate 0 (-invaderers_app.bomb_speed)))
            (first_bomb_sprite + i)).sprites k).enabled = false := by
        rw [bomb_bottom_border_sprites _ _ _ (Ne.symm hb)]; exact hdis1
      obtain ⟨w1, w2⟩ := bomb_walls_ignores tex _ k x y (first_bomb_sprite + i) hb hdis2
      rw [move_bomb_miss tex i s hen h, move_bomb_miss tex i _ hen' (by rw [hhit]; exact h),
        modify_reposition _ _ _ _ _ _ hb,
        bomb_bottom_border_reposition _ _ _ _ _ hb (by omega)]
      refine ⟨?_, w2⟩
      rw [w1, bomb_bottom_border_sprites _ _ _ (Ne.symm hb), modify_sprites,
        if_neg (Ne.symm hb)]


theorem move_invaders_reposition (s : invaderers_app) (k : Nat) (x y dx dy : ℚ)
    (hdis : (s.sprites k).enabled = false) :
    (reposition s k x y).move_invaders dx dy = reposition (s.move_invaders dx dy) k x y := by
  rw [move_invaders_eq, move_invaders_eq]
  cases s with
  | mk a1 a2 a3 a4 a5 a6 a7 a8 a9 a10 a11 a12 a13 sp =>
    simp only [reposition, invaderers_app.modify, invaderers_app.mk.injEq, true_and]
    funext j
    by_cases hj : j = k
    · subst hj
      have hd : (sp j).enabled = false := hdis
      simp [Function.update_apply, hd]
    · simp [Function.update_apply, hj]

theorem move_invaders_sprites_disabled (s : invaderers_app) (k : Nat) (dx dy : ℚ)
    (hdis : (s.sprites k).enabled = false) :
    (s.move_invaders dx dy).sprites k = s.sprites k := by
  rw [move_invaders_sprites, if_neg]
  intro h
  rw [hdis] at h
  cases h.2.2

theorem invaders_collide_reposition (s : invaderers_app) (k : Nat) (x y : ℚ) (b : Nat)
    (hb : b ≠ k) (hdis : (s.sprites k).enabled = false) :
    (reposition s k x y).invaders_collide b = s.invaders_collide b := by
  unfold invaderers_app.invaders_collide
  congr 1
  apply first_match_congr
  intro j _ _
  rw [reposition_sprites_ne _ _ _ _ _ hb]
  exact guarded_reposition s k x y hdis (fun q => q.collides_with (s.sprites b)) _

theorem move_swarm_steps (s : invaderers_app) :
    s.move_swarm =
      if (s.move_invaders s.invader_velocity 0).invaders_collide
          (border_side s) = true then
        if ((with_velocity (s.move_invaders s.invader_velocity 0)
            (-s.invader_velocity)).move_invaders
            (-s.invader_velocity) s.invader_direction).invaders_collide
            (border_top s) = true then
          (with_direction ((with_velocity (s.move_invaders s.invader_velocity 0)
              (-s.invader_velocity)).move_invaders (-s.invader_velocity) s.invader_direction)
            (-s.invader_direction)).move_invaders (-s.invader_velocity) (-s.invader_direction)
        else
          (with_velocity (s.move_invaders s.invader_velocity 0)
            (-s.invader_velocity)).move_invaders (-s.invader_velocity) s.invader_direction
      else s.move_invaders s.invader_velocity 0 := by
  unfold with_velocity with_direction border_side border_top
  exact move_swarm_eq s

theorem with_velocity_reposition (s : invaderers_app) (k : Nat) (x y a : ℚ) :
    with_velocity (reposition s k x y) a = reposition (with_velocity s a) k x y := by
  cases s
  simp [with_velocity, reposition, invaderers_app.modify]

theorem with_direction_reposition (s : invaderers_app) (k : Nat) (x y a : ℚ) :
    with_direction (reposition s k x y) a = reposition (with_direction s a) k x y := by
  cases s
  simp [with_direction, reposition, invaderers_app.modify]

theorem with_velocity_sprites (s : invaderers_app) (a : ℚ) (k : Nat) :
    (with_velocity s a).sprites k = s.sprites k := by
  simp [with_velocity]

theorem with_direction_sprites (s : invaderers_app) (a : ℚ) (k : Nat) :
    (with_direction s a).sprites k = s.sprites k := by
  simp [with_direction]

/-- The swarm phase ignores a disabled invader, missile, bomb or wall. -/
theorem move_swarm_ignores (k : Nat)
    (hk : (first_invaderer_sprite ≤ k ∧ k ≤ last_bomb_sprite) ∨
      (first_wall_sprite ≤ k ∧ k ≤ last_wall_sprite)) :
    ignores invaderers_app.move_swarm k := by
  have hidx := sprite_index_values
  have hlb : last_bomb_sprite = 317 := rfl
  intro s x y hdis
  have hv : (reposition s k x y).invader_velocity = s.invader_velocity := by
    simp [reposition, invaderers_app.modify]
  have hd : (reposition s k x y).invader_direction = s.invader_direction := by
    simp [reposition, invaderers_app.modify]
  have hside : border_side s ≠ k := by
    unfold border_side
    split_ifs <;> omega
  have htop : border_top s ≠ k := by
    unfold border_top
    split_ifs <;> omega
  have bs : border_side (reposition s k x y) = border_side s := by
    unfold border_side
    rw [hv]
  have bt : border_top (reposition s k x y) = border_top s := by
    unfold border_top
    rw [hd]
  have k1 : (s.move_invaders s.invader_velocity 0).sprites k = s.sprites k :=
    move_invaders_sprites_disabled _ _ _ _ hdis
  have d1 : ((s.move_invaders s.invader_velocity 0).sprites k).enabled = false := by
    rw [k1]; exact hdis
  have k1' : (with_velocity (s.move_invaders s.invader_velocity 0)
      (-s.invader_velocity)).sprites k = s.sprites k := by
    rw [with_velocity_sprites, k1]
  have d1' : ((with_velocity (s.move_invaders s.invader_velocity 0)
      (-s.invader_velocity)).sprites k).enabled = false := by
    rw [k1']; exact hdis
  have k2 : ((with_velocity (s.move_invaders s.invader_velocity 0)
      (-s.invader_velocity)).move_invaders (-s.invader_velocity) s.invader_direction).sprites k
        = s.sprites k := by
    rw [move_invaders_sprites_disabled _ _ _ _ d1', k1']
  have d2 : (((with_velocity (s.move_invaders s.invader_velocity 0)
      (-s.invader_velocity)).move_invaders (-s.invader_velocity)
        s.invader_direction).sprites k).enabled = false := by
    rw [k2]; exact hdis
  have k2' : (with_direction ((with_velocity (s.move_invaders s.invader_velocity 0)
      (-s.invader_velocity)).move_invaders (-s.invader_velocity) s.invader_direction)
        (-s.invader_direction)).sprites k = s.sprites k := by
    rw [with_direction_sprites, k2]
  have d2' : ((with_direction ((with_velocity (s.move_invaders s.invader_velocity 0)
      (-s.invader_velocity)).move_invaders (-s.invader_velocity) s.invader_direction)
        (-s.invader_direction)).sprites k).enabled = false := by
    rw [k2']; exact hdis
  refine ⟨?_, ?_⟩
  · rw [move_swarm_steps]
    split_ifs
    · rw [move_invaders_sprites_disabled _ _ _ _ d2', k2']
    · exact k2
    · exact k1
  · rw [move_swarm_steps, move_swarm_steps, bs, bt, hv, hd, move_invaders_reposition _ _ _ _ _ _ hdis,
      invaders_collide_reposition _ _ _ _ _ hside d1, with_velocity_reposition,
      move_invaders_reposition _ _ _ _ _ _ d1',
      invaders_collide_reposition _ _ _ _ _ htop d2, with_direction_reposition,
      move_invaders_reposition _ _ _ _ _ _ d2']
    split_ifs <;> rfl

theorem move_missiles_ignores (tex : String → Nat) (k : Nat)
    (hk : (first_invaderer_sprite ≤ k ∧ k ≤ last_bomb_sprite) ∨
      (first_wall_sprite ≤ k ∧ k ≤ last_wall_sprite)) :
    ignores (invaderers_app.move_missiles tex) k := by
  intro s x y hdis
  rw [move_missiles_eq, move_missiles_eq]
  exact ignores_comp (invaderers_app.move_missile tex 0) (invaderers_app.move_missile tex 1) k
    (move_missile_ignores tex 0 k hk) (move_missile_ignores tex 1 k hk) s x y hdis

theorem move_bombs_ignores (tex : String → Nat) (k : Nat)
    (hk : (first_invaderer_sprite ≤ k ∧ k ≤ last_bomb_sprite) ∨
      (first_wall_sprite ≤ k ∧ k ≤ last_wall_sprite)) :
    ignores (invaderers_app.move_bombs tex) k := by
  intro s x y hdis
  rw [move_bombs_eq, move_bombs_eq]
  exact ignores_comp (invaderers_app.move_bomb tex 0) (invaderers_app.move_bomb tex 1) k
    (move_bomb_ignores tex 0 k hk) (move_bomb_ignores tex 1 k hk) s x y hdis

theorem phases_ignore (tex : String → Nat) (k : Nat)
    (hk : (first_invaderer_sprite ≤ k ∧ k ≤ last_bomb_sprite) ∨
      (first_wall_sprite ≤ k ∧ k ≤ last_wall_sprite))
    (s : invaderers_app) (x y : ℚ) (hdis : (s.sprites k).enabled = false) :
    (((s.move_missiles tex).move_bombs tex).move_swarm).sprites k = s.sprites k ∧
    (((reposition s k x y).move_missiles tex).move_bombs tex).move_swarm
      = reposition (((s.move_missiles tex).move_bombs tex).move_swarm) k x y := by
  obtain ⟨a1, a2⟩ := ignores_comp (invaderers_app.move_missiles tex)
    (invaderers_app.move_bombs tex) k (move_missiles_ignores tex k hk)
    (move_bombs_ignores tex k hk) s x y hdis
  obtain ⟨b1, b2⟩ := move_swarm_ignores k hk ((s.move_missiles tex).move_bombs tex) x y
    (by rw [a1]; exact hdis)
  exact ⟨by rw [b1, a1], by rw [a2, b2]⟩


/-- C18: a missile, bomb, invader or wall that is disabled when `move_missiles`,
`move_bombs` and the swarm advance start is left as it is by these phases, and moving it
to any other position `(x, y)` beforehand changes nothing in the result but the position
of that same sprite: every other sprite, the score, the ship's lives, the count of live
invaders, both cooldowns, `game_over`, `game_paused`, the swarm velocity and direction and
the sound source are the same in the two runs. -/
theorem disabled_sprite_takes_no_part (tex : String → Nat) (s : invaderers_app) (k : Nat)
    (x y : ℚ)
    (hk : (first_invaderer_sprite ≤ k ∧ k ≤ last_bomb_sprite) ∨
      (first_wall_sprite ≤ k ∧ k ≤ last_wall_sprite))
    (hdis : (s.sprites k).enabled = false) :
    (((s.move_missiles tex).move_bombs tex).move_swarm).sprites k = s.sprites k ∧
    ((((reposition s k x y).move_missiles tex).move_bombs tex).move_swarm).sprites k
      = (reposition s k x y).sprites k ∧
    (∀ j, j ≠ k →
      ((((reposition s k x y).move_missiles tex).move_bombs tex).move_swarm).sprites j
        = (((s.move_missiles tex).move_bombs tex).move_swarm).sprites j) ∧
    (((((reposition s k x y).move_missiles tex).move_bombs tex).move_swarm).sprites
        ship_sprite).lives
      = ((((s.move_missiles tex).move_bombs tex).move_swarm).sprites ship_sprite).lives ∧
    ((((reposition s k x y).move_missiles tex).move_bombs tex).move_swarm).score
      = (((s.move_missiles tex).move_bombs tex).move_swarm).score ∧
    ((((reposition s k x y).move_missiles tex).move_bombs tex).move_swarm).live_invaderers
      = (((s.move_missiles tex).move_bombs tex).move_swarm).live_invaderers ∧
    ((((reposition s k x y).move_missiles tex).move_bombs tex).move_swarm).missiles_disabled
      = (((s.move_missiles tex).move_bombs tex).move_swarm).missiles_disabled ∧
    ((((reposition s k x y).move_missiles tex).move_bombs tex).move_swarm).bombs_disabled
      = (((s.move_missiles tex).move_bombs tex).move_swarm).bombs_disabled ∧
    ((((reposition s k x y).move_missiles tex).move_bombs tex).move_swarm).game_over
      = (((s.move_missiles tex).move_bombs tex).move_swarm).game_over ∧
    ((((reposition s k x y).move_missiles tex).move_bombs tex).move_swarm).game_paused
      = (((s.move_missiles tex).move_bombs tex).move_swarm).game_paused ∧
    ((((reposition s k x y).move_missiles tex).move_bombs tex).move_swarm).invader_velocity
      = (((s.move_missiles tex).move_bombs tex).move_swarm).invader_velocity ∧
    ((((reposition s k x y).move_missiles tex).move_bombs tex).move_swarm).invader_direction
      = (((s.move_missiles tex).move_bombs tex).move_swarm).invader_direction ∧
    ((((reposition s k x y).move_missiles tex).move_bombs tex).move_swarm).cur_source
      = (((s.move_missiles tex).move_bombs tex).move_swarm).cur_source := by
  have hidx := sprite_index_values
  have hlb : last_bomb_sprite = 317 := rfl
  obtain ⟨h1, h2⟩ := phases_ignore tex k hk s x y hdis
  have hship : ship_sprite ≠ k := by omega
  rw [h2]
  refine ⟨h1, ?_, ?_, ?_, ?_, ?_, ?_, ?_, ?_, ?_, ?_, ?_, ?_⟩
  · rw [reposition_sprites, reposition_sprites, if_pos rfl, if_pos rfl, h1]
  · intro j hj
    exact reposition_sprites_ne _ _ _ _ _ hj
  · rw [reposition_sprites_ne _ _ _ _ _ hship]
  all_goals simp [reposition, invaderers_app.modify]

theorem disabled_sprite_takes_no_part_witness :
    ((first_invaderer_sprite ≤ first_invaderer_sprite + 1 ∧
        first_invaderer_sprite + 1 ≤ last_bomb_sprite) ∨
      (first_wall_sprite ≤ first_invaderer_sprite + 1 ∧
        first_invaderer_sprite + 1 ≤ last_wall_sprite)) ∧
    (one_missile_app.sprites (first_invaderer_sprite + 1)).enabled = false ∧
    (((one_missile_app.move_missiles tex1).move_bombs tex1).move_swarm).sprites
        (first_invaderer_sprite + 1)
      = one_missile_app.sprites (first_invaderer_sprite + 1) ∧
    ((((reposition one_missile_app (first_invaderer_sprite + 1) 0 2).move_missiles
        tex1).move_bombs tex1).move_swarm).score
      = (((one_missile_app.move_missiles tex1).move_bombs tex1).move_swarm).score := by
  have h := disabled_sprite_takes_no_part tex1 one_missile_app (first_invaderer_sprite + 1) 0 2
    (Or.inl ⟨by decide, by decide⟩) (by decide!)
  exact ⟨Or.inl ⟨by decide, by decide⟩, by decide!, h.1, h.2.2.2.2.1⟩

/-! ## Parking -/

theorem set_sprite_halfWidth (s t : invaderers_app) (i : Nat) (p : sprite)
    (hp : p.halfWidth ≤ 3)
    (h : ∀ k, t.sprites k = s.sprites k ∨ (t.sprites k).halfWidth ≤ 3) :
    ∀ k, (t.set_sprite i p).sprites k = s.sprites k ∨
      ((t.set_sprite i p).sprites k).halfWidth ≤ 3 := by
  intro k
  rw [set_sprite_sprites]
  split_ifs
  · exact Or.inr hp
  · exact h k

theorem set_disabled_halfWidth (s t : invaderers_app) (i : Nat) (p : sprite)
    (hp : p.halfWidth ≤ 3)
    (h : ∀ k, t.sprites k = s.sprites k ∨ (t.sprites k).halfWidth ≤ 3) :
    ∀ k, (invaderers_app.modify (t.set_sprite i p) i
        (fun q => q.set_enabled false)).sprites k = s.sprites k ∨
      ((invaderers_app.modify (t.set_sprite i p) i
        (fun q => q.set_enabled false)).sprites k).halfWidth ≤ 3 := by
  intro k
  simp only [modify_sprites, set_sprite_sprites]
  by_cases hk : k = i
  · rw [if_pos hk, if_true]
    exact Or.inr (by simpa [sprite.set_enabled] using hp)
  · rw [if_neg hk, if_neg hk]
    exact h k

/-- Every sprite that `app_init` writes has a half-width of at most 3. -/
theorem app_init_halfWidth (tex : String → Nat) (s : invaderers_app) (k : Nat) :
    (s.app_init tex).sprites k = s.sprites k ∨ ((s.app_init tex).sprites k).halfWidth ≤ 3 := by
  rw [app_init_eq, init_counters_sprites]
  revert k
  have h0 : ∀ k, (s.read_csv).sprites k = s.sprites k ∨ ((s.read_csv).sprites k).halfWidth ≤ 3 :=
    fun k => Or.inl rfl
  have h1 : ∀ k, (init_ship_banners tex s.read_csv).sprites k = s.sprites k ∨
      ((init_ship_banners tex s.read_csv).sprites k).halfWidth ≤ 3 := by
    unfold init_ship_banners
    dsimp only
    refine set_sprite_halfWidth _ _ _ _ (by norm_num [sprite.init]) ?_
    refine set_sprite_halfWidth _ _ _ _ (by norm_num [sprite.init]) ?_
    refine set_sprite_halfWidth _ _ _ _ (by norm_num [sprite.init]) ?_
    refine set_sprite_halfWidth _ _ _ _ (by norm_num [sprite.init]) ?_
    exact set_sprite_halfWidth _ _ _ _ (by norm_num [sprite.init_life]) h0
  have h2 : ∀ k, (init_invaders tex (init_ship_banners tex s.read_csv)).sprites k = s.sprites k ∨
      ((init_invaders tex (init_ship_banners tex s.read_csv)).sprites k).halfWidth ≤ 3 := by
    unfold init_invaders
    dsimp only
    apply for_loop_induction
      (fun t : invaderers_app => ∀ k, t.sprites k = s.sprites k ∨ (t.sprites k).halfWidth ≤ 3)
    · intro j t ht
      apply for_loop_induction
        (fun t : invaderers_app => ∀ k, t.sprites k = s.sprites k ∨ (t.sprites k).halfWidth ≤ 3)
      · intro i u hu
        exact set_sprite_halfWidth _ _ _ _ (by norm_num [sprite.init]) hu
      · exact ht
    · exact h1
  have h3 : ∀ k, (init_walls tex (init_invaders tex
      (init_ship_banners tex s.read_csv))).sprites k = s.sprites k ∨
      ((init_walls tex (init_invaders tex
        (init_ship_banners tex s.read_csv))).sprites k).halfWidth ≤ 3 := by
    unfold init_walls
    dsimp only
    apply for_loop_induction
      (fun t : invaderers_app => ∀ k, t.sprites k = s.sprites k ∨ (t.sprites k).halfWidth ≤ 3)
    · intro i u hu
      exact set_sprite_halfWidth _ _ _ _ (by norm_num [sprite.init_life]) hu
    · exact h2
  have h4 : ∀ k, (init_borders tex (init_walls tex (init_invaders tex
      (init_ship_banners tex s.read_csv)))).sprites k = s.sprites k ∨
      ((init_borders tex (init_walls tex (init_invaders tex
        (init_ship_banners tex s.read_csv)))).sprites k).halfWidth ≤ 3 := by
    unfold init_borders
    dsimp only
    refine set_sprite_halfWidth _ _ _ _ (by norm_num [sprite.init]) ?_
    refine set_sprite_halfWidth _ _ _ _ (by norm_num [sprite.init]) ?_
    refine set_sprite_halfWidth _ _ _ _ (by norm_num [sprite.init]) ?_
    refine set_sprite_halfWidth _ _ _ _ (by norm_num [sprite.init]) ?_
    exact set_sprite_halfWidth _ _ _ _ (by norm_num [sprite.init]) h3
  have h5 : ∀ k, (init_missiles tex (init_borders tex (init_walls tex (init_invaders tex
      (init_ship_banners tex s.read_csv))))).sprites k = s.sprites k ∨
      ((init_missiles tex (init_borders tex (init_walls tex (init_invaders tex
        (init_ship_banners tex s.read_csv))))).sprites k).halfWidth ≤ 3 := by
    unfold init_missiles
    dsimp only
    apply for_loop_induction
      (fun t : invaderers_app => ∀ k, t.sprites k = s.sprites k ∨ (t.sprites k).halfWidth ≤ 3)
    · intro i u hu
      exact set_disabled_halfWidth _ _ _ _ (by norm_num [sprite.init]) hu
    · exact h4
  unfold init_bombs
  dsimp only
  apply for_loop_induction
    (fun t : invaderers_app => ∀ k, t.sprites k = s.sprites k ∨ (t.sprites k).halfWidth ≤ 3)
  · intro i u hu
    exact set_disabled_halfWidth _ _ _ _ (by norm_num [sprite.init]) hu
  · exact h5

/-- C21: parking prevents collision.  For sprites `a` and `b` whose centres have
`|x| ≤ 3` and whose half-widths are at most 3, after `a.translate(20, 0)` neither
`a.collides_with(b)` nor `b.collides_with(a)` holds, whatever the `y` coordinates and the
half-heights.  Every sprite that `app_init` writes has a half-width of at most 3. -/
theorem parked_sprite_collides_with_nothing (a b : sprite) (hax : |a.x| ≤ 3) (hbx : |b.x| ≤ 3)
    (haw : a.halfWidth ≤ 3) (hbw : b.halfWidth ≤ 3) :
    (a.translate 20 0).collides_with b = false ∧
    b.collides_with (a.translate 20 0) = false ∧
    ∀ (tex : String → Nat) (s : invaderers_app) (k : Nat),
      (s.app_init tex).sprites k = s.sprites k ∨
        ((s.app_init tex).sprites k).halfWidth ≤ 3 := by
  have h1 := abs_le.1 hax
  have h2 := abs_le.1 hbx
  refine ⟨?_, ?_, app_init_halfWidth⟩
  · simp only [sprite.collides_with, sprite.translate, Bool.and_eq_false_imp,
      decide_eq_true_eq, decide_eq_false_iff_not, not_lt]
    intro h
    have := (abs_lt.1 h).1
    linarith
  · simp only [sprite.collides_with, sprite.translate, Bool.and_eq_false_imp,
      decide_eq_true_eq, decide_eq_false_iff_not, not_lt]
    intro h
    have := (abs_lt.1 h).2
    linarith

/-- An invader as `app_init` places it, once parked, does not overlap the right border. -/
theorem parked_sprite_collides_with_nothing_witness :
    |(sprite.init 1 (11 / 4) 2 (1 / 4) (1 / 4)).x| ≤ 3 ∧
    |(sprite.init 1 3 0 (1 / 4) 6).x| ≤ 3 ∧
    (sprite.init 1 (11 / 4) 2 (1 / 4) (1 / 4)).halfWidth ≤ 3 ∧
    (sprite.init 1 3 0 (1 / 4) 6).halfWidth ≤ 3 ∧
    ((sprite.init 1 (11 / 4) 2 (1 / 4) (1 / 4)).translate 20 0).collides_with
      (sprite.init 1 3 0 (1 / 4) 6) = false ∧
    (sprite.init 1 3 0 (1 / 4) 6).collides_with
      ((sprite.init 1 (11 / 4) 2 (1 / 4) (1 / 4)).translate 20 0) = false := by
  have h := parked_sprite_collides_with_nothing (sprite.init 1 (11 / 4) 2 (1 / 4) (1 / 4))
    (sprite.init 1 3 0 (1 / 4) 6) (by norm_num [sprite.init, abs_le])
    (by norm_num [sprite.init, abs_le]) (by norm_num [sprite.init]) (by norm_num [sprite.init])
  exact ⟨by norm_num [sprite.init, abs_le], by norm_num [sprite.init, abs_le],
    by norm_num [sprite.init], by norm_num [sprite.init], h.1, h.2.1⟩

/-! ## What the phases do to the counters -/

theorem move_ship_missiles_disabled (inp : input) (s : invaderers_app) :
    (s.move_ship inp).missiles_disabled = s.missiles_disabled := by
  unfold invaderers_app.move_ship
  dsimp only
  split_ifs <;> rfl

theorem fire_bombs_missiles_disabled (inp : input) (s : invaderers_app) :
    (s.fire_bombs inp).missiles_disabled = s.missiles_disabled := by
  unfold invaderers_app.fire_bombs
  split_ifs
  · rfl
  · split
    · split <;> rfl
    · rfl

theorem on_hit_wall_missiles_disabled (tex : String → Nat) (s : invaderers_app) (w : Nat) :
    (s.on_hit_wall tex w).missiles_disabled = s.missiles_disabled := by
  unfold invaderers_app.on_hit_wall
  dsimp only
  split_ifs <;> rfl

theorem on_hit_invaderer_missiles_disabled (s : invaderers_app) :
    (s.on_hit_invaderer).missiles_disabled = s.missiles_disabled := by
  unfold invaderers_app.on_hit_invaderer
  dsimp only
  split_ifs <;> rfl

theorem on_hit_ship_missiles_disabled (s : invaderers_app) (p : Nat) :
    (s.on_hit_ship p).missiles_disabled = s.missiles_disabled := by
  unfold invaderers_app.on_hit_ship
  dsimp only
  split_ifs <;> rfl

theorem move_missile_missiles_disabled (tex : String → Nat) (i : Nat) (s : invaderers_app) :
    (invaderers_app.move_missile tex i s).missiles_disabled = s.missiles_disabled := by
  cases hen : (s.sprites (first_missile_sprite + i)).enabled with
  | false => rw [move_missile_disabled tex i s hen]
  | true =>
    cases hfm : first_match (missile_overlaps_invader s i) 0 num_invaderers with
    | some j =>
      rw [move_missile_hit tex i j s hen hfm, on_hit_invaderer_missiles_disabled]
      simp [invaderers_app.disable_and_park, invaderers_app.modify]
    | none =>
      rw [move_missile_miss tex i s hen hfm]
      have hb : ∀ (t : invaderers_app) (m : Nat),
          (missile_top_border t m).missiles_disabled = t.missiles_disabled := by
        intro t m
        unfold missile_top_border
        split_ifs <;> simp [invaderers_app.disable_and_park, invaderers_app.modify]
      have hw : ∀ (t : invaderers_app) (m : Nat),
          (missile_walls_bombs tex t m).missiles_disabled = t.missiles_disabled := by
        intro t m
        unfold missile_walls_bombs
        split
        · rw [on_hit_wall_missiles_disabled]
          simp [invaderers_app.disable_and_park, invaderers_app.modify]
        · split
          · simp [invaderers_app.on_projectile_collide, invaderers_app.get_sound_source,
              invaderers_app.disable_and_park, invaderers_app.modify]
          · rfl
      rw [hw, hb]
      simp [invaderers_app.modify]

theorem move_bomb_missiles_disabled (tex : String → Nat) (i : Nat) (s : invaderers_app) :
    (invaderers_app.move_bomb tex i s).missiles_disabled = s.missiles_disabled := by
  cases h : bomb_hits_ship s i with
  | true =>
    rw [move_bomb_hit tex i s h, on_hit_ship_missiles_disabled]
    simp [invaderers_app.disable_and_park, invaderers_app.modify]
  | false =>
    cases hen : (s.sprites (first_bomb_sprite + i)).enabled with
    | false => rw [move_bomb_idle tex i s hen]
    | true =>
      rw [move_bomb_miss tex i s hen h]
      have hb : ∀ (t : invaderers_app) (m : Nat),
          (bomb_bottom_border t m).missiles_disabled = t.missiles_disabled := by
        intro t m
        unfold bomb_bottom_border
        split_ifs <;> simp [invaderers_app.disable_and_park, invaderers_app.modify]
      have hw : ∀ (t : invaderers_app) (m : Nat),
          (bomb_walls tex t m).missiles_disabled = t.missiles_disabled := by
        intro t m
        unfold bomb_walls
        split
        · rw [on_hit_wall_missiles_disabled]
          simp [invaderers_app.disable_and_park, invaderers_app.modify]
        · rfl
      rw [hw, hb]
      simp [invaderers_app.modify]

theorem move_invaders_missiles_disabled (s : invaderers_app) (dx dy : ℚ) :
    (s.move_invaders dx dy).missiles_disabled = s.missiles_disabled := by
  rw [move_invaders_eq]

theorem move_swarm_missiles_disabled (s : invaderers_app) : (s.move_swarm).missiles_disabled = s.missiles_disabled := by
  rw [move_swarm_eq]
  split_ifs <;> simp only [move_invaders_missiles_disabled]

theorem move_ship_bombs_disabled (inp : input) (s : invaderers_app) :
    (s.move_ship inp).bombs_disabled = s.bombs_disabled := by
  unfold invaderers_app.move_ship
  dsimp only
  split_ifs <;> rfl

theorem fire_missiles_bombs_disabled (inp : input) (s : invaderers_app) :
    (s.fire_missiles inp).bombs_disabled = s.bombs_disabled := by
  unfold invaderers_app.fire_missiles
  split_ifs
  · rfl
  · split <;> rfl
  · rfl

theorem on_hit_wall_bombs_disabled (tex : String → Nat) (s : invaderers_app) (w : Nat) :
    (s.on_hit_wall tex w).bombs_disabled = s.bombs_disabled := by
  unfold invaderers_app.on_hit_wall
  dsimp only
  split_ifs <;> rfl

theorem on_hit_invaderer_bombs_disabled (s : invaderers_app) :
    (s.on_hit_invaderer).bombs_disabled = s.bombs_disabled := by
  unfold invaderers_app.on_hit_invaderer
  dsimp only
  split_ifs <;> rfl

theorem move_missile_bombs_disabled (tex : String → Nat) (i : Nat) (s : invaderers_app) :
    (invaderers_app.move_missile tex i s).bombs_disabled = s.bombs_disabled := by
  cases hen : (s.sprites (first_missile_sprite + i)).enabled with
  | false => rw [move_missile_disabled tex i s hen]
  | true =>
    cases hfm : first_match (missile_overlaps_invader s i) 0 num_invaderers with
    | some j =>
      rw [move_missile_hit tex i j s hen hfm, on_hit_invaderer_bombs_disabled]
      simp [invaderers_app.disable_and_park, invaderers_app.modify]
    | none =>
      rw [move_missile_miss tex i s hen hfm]
      have hb : ∀ (t : invaderers_app) (m : Nat),
          (missile_top_border t m).bombs_disabled = t.bombs_disabled := by
        intro t m
        unfold missile_top_border
        split_ifs <;> simp [invaderers_app.disable_and_park, invaderers_app.modify]
      have hw : ∀ (t : invaderers_app) (m : Nat),
          (missile_walls_bombs tex t m).bombs_disabled = t.bombs_disabled := by
        intro t m
        unfold missile_walls_bombs
        split
        · rw [on_hit_wall_bombs_disabled]
          simp [invaderers_app.disable_and_park, invaderers_app.modify]
        · split
          · simp [invaderers_app.on_projectile_collide, invaderers_app.get_sound_source,
              invaderers_app.disable_and_park, invaderers_app.modify]
          · rfl
      rw [hw, hb]
      simp [invaderers_app.modify]

theorem move_invaders_bombs_disabled (s : invaderers_app) (dx dy : ℚ) :
    (s.move_invaders dx dy).bombs_disabled = s.bombs_disabled := by
  rw [move_invaders_eq]

theorem move_swarm_bombs_disabled (s : invaderers_app) : (s.move_swarm).bombs_disabled = s.bombs_disabled := by
  rw [move_swarm_eq]
  split_ifs <;> simp only [move_invaders_bombs_disabled]

theorem move_ship_live_invaderers (inp : input) (s : invaderers_app) :
    (s.move_ship inp).live_invaderers = s.live_invaderers := by
  unfold invaderers_app.move_ship
  dsimp only
  split_ifs <;> rfl

theorem fire_missiles_live_invaderers (inp : input) (s : invaderers_app) :
    (s.fire_missiles inp).live_invaderers = s.live_invaderers := by
  unfold invaderers_app.fire_missiles
  split_ifs
  · rfl
  · split <;> rfl
  · rfl

theorem fire_bombs_live_invaderers (inp : input) (s : invaderers_app) :
    (s.fire_bombs inp).live_invaderers = s.live_invaderers := by
  unfold invaderers_app.fire_bombs
  split_ifs
  · rfl
  · split
    · split <;> rfl
    · rfl

theorem move_invaders_live_invaderers (s : invaderers_app) (dx dy : ℚ) :
    (s.move_invaders dx dy).live_invaderers = s.live_invaderers := by
  rw [move_invaders_eq]

theorem move_swarm_live_invaderers (s : invaderers_app) : (s.move_swarm).live_invaderers = s.live_invaderers := by
  rw [move_swarm_eq]
  split_ifs <;> simp only [move_invaders_live_invaderers]

/-! ## The count of live invaders -/

theorem move_missile_balance (tex : String → Nat) (i : Nat) (s : invaderers_app) :
    (invaderers_app.move_missile tex i s).score
        + (invaderers_app.move_missile tex i s).live_invaderers
      = s.score + s.live_invaderers := by
  cases hen : (s.sprites (first_missile_sprite + i)).enabled with
  | false => rw [move_missile_disabled tex i s hen]
  | true =>
    cases hfm : first_match (missile_overlaps_invader s i) 0 num_invaderers with
    | some j =>
      obtain ⟨_, _, h3, h4, _⟩ := move_missile_hit_effects tex i j s hen hfm
      rw [h3, h4]
      ring
    | none =>
      obtain ⟨h1, h2, _⟩ := move_missile_miss_effects tex i s hen hfm
      rw [h1, h2]

theorem move_bomb_balance (tex : String → Nat) (i : Nat) (s : invaderers_app) :
    (invaderers_app.move_bomb tex i s).score = s.score ∧
    (invaderers_app.move_bomb tex i s).live_invaderers = s.live_invaderers := by
  cases h : bomb_hits_ship s i with
  | true =>
    obtain ⟨h1, h2, _⟩ := move_bomb_hit_effects tex i s h
    exact ⟨h1, h2⟩
  | false =>
    obtain ⟨h1, h2, _⟩ := move_bomb_miss_effects tex i s h
    exact ⟨h1, h2⟩

/-- The six phases of a running frame keep `score + live_invaderers`. -/
theorem run_frame_balance (tex : String → Nat) (inp : input) (s : invaderers_app) :
    (s.run_frame tex inp).score + (s.run_frame tex inp).live_invaderers
      = s.score + s.live_invaderers := by
  have hr : s.run_frame tex inp =
    (((((s.move_ship inp).fire_missiles inp).fire_bombs inp).move_missiles tex).move_bombs
      tex).move_swarm := rfl
  rw [hr, move_bombs_eq, move_missiles_eq, move_swarm_live_invaderers,
    (move_swarm_frame _).1, (move_bomb_balance tex 1 _).1, (move_bomb_balance tex 1 _).2,
    (move_bomb_balance tex 0 _).1, (move_bomb_balance tex 0 _).2, move_missile_balance,
    move_missile_balance, fire_bombs_live_invaderers, (fire_bombs_frame inp _).1,
    fire_missiles_live_invaderers, (fire_missiles_frame inp _).1, move_ship_live_invaderers,
    (move_ship_frame inp s).1]

theorem simulate_balance (tex : String → Nat) (inp : input) (s : invaderers_app)
    (hno : ¬ (s.game_over = true ∧ inp.key_R = true)) :
    (s.simulate tex inp).score + (s.simulate tex inp).live_invaderers
      = s.score + s.live_invaderers := by
  cases hover : s.game_over with
  | true =>
    cases hR : inp.key_R with
    | false => rw [simulate_ended tex inp s hover hR]
    | true => exact absurd ⟨hover, hR⟩ hno
  | false =>
    cases hP : inp.key_P_going_down with
    | true =>
      cases hpaused : s.game_paused with
      | true =>
        rw [simulate_unpause tex inp s hover hpaused hP, run_frame_balance]
        simp [invaderers_app.modify]
      | false =>
        rw [simulate_pause tex inp s hover hpaused hP]
        simp [invaderers_app.modify]
    | false =>
      cases hpaused : s.game_paused with
      | true => rw [simulate_paused tex inp s hover hpaused hP]
      | false => rw [simulate_running tex inp s hover hpaused hP, run_frame_balance]

theorem invaders_enabled_split (s t : invaderers_app)
    (h : ∀ j, j < num_invaderers → invader_enabled t j = true → invader_enabled s j = true) :
    invaders_enabled s = invaders_enabled t + invaders_destroyed s t := by
  unfold invaders_enabled invaders_destroyed
  apply countP_add_of_split
  intro j hj
  have hj2 := h j (List.mem_range.1 hj)
  cases hs : invader_enabled s j <;> cases ht : invader_enabled t j <;> simp_all

/-- C22: a `simulate` step that does not restart decreases `live_invaderers` by the number
of invaders that are enabled before the step and disabled after it, and enables no
invader.  So if `live_invaderers` is the number of enabled invader slots before the step it
is so after the step, and `score + live_invaderers` is unchanged. -/
theorem simulate_live_invaderers_spec (tex : String → Nat) (inp : input) (s : invaderers_app)
    (hno : ¬ (s.game_over = true ∧ inp.key_R = true)) :
    (s.simulate tex inp).live_invaderers
      = s.live_invaderers - (invaders_destroyed s (s.simulate tex inp) : Int) ∧
    (∀ j, j < num_invaderers → invader_enabled s j = false →
      invader_enabled (s.simulate tex inp) j = false) ∧
    (s.live_invaderers = (invaders_enabled s : Int) →
      (s.simulate tex inp).live_invaderers = (invaders_enabled (s.simulate tex inp) : Int)) ∧
    (s.simulate tex inp).score + (s.simulate tex inp).live_invaderers
      = s.score + s.live_invaderers := by
  obtain ⟨c, hc1, hc2, hc3⟩ := simulate_destroys tex inp s hno
  have hb := simulate_balance tex inp s hno
  have hsplit := invaders_enabled_split s (s.simulate tex inp) hc2
  have hlive : (s.simulate tex inp).live_invaderers
      = s.live_invaderers - (invaders_destroyed s (s.simulate tex inp) : Int) := by
    rw [hc3]
    omega
  refine ⟨hlive, ?_, ?_, hb⟩
  · intro j hj hdis
    cases ht : invader_enabled (s.simulate tex inp) j with
    | false => rfl
    | true =>
      rw [hc2 j hj ht] at hdis
      cases hdis
  · intro heq
    rw [hlive, heq, hsplit]
    push_cast
    ring

/-- A frame in which a missile destroys the last invader. -/
theorem simulate_live_invaderers_spec_witness :
    ¬ (last_invader_app.game_over = true ∧ no_keys.key_R = true) ∧
    (last_invader_app.simulate tex1 no_keys).live_invaderers
      = last_invader_app.live_invaderers
        - (invaders_destroyed last_invader_app (last_invader_app.simulate tex1 no_keys) : Int) ∧
    (last_invader_app.simulate tex1 no_keys).score
        + (last_invader_app.simulate tex1 no_keys).live_invaderers
      = last_invader_app.score + last_invader_app.live_invaderers := by
  have h := simulate_live_invaderers_spec tex1 no_keys last_invader_app (by decide)
  exact ⟨by decide, h.1, h.2.2.2⟩

/-! ## Cooldowns -/

theorem fire_missiles_fires (inp : input) (s : invaderers_app)
    (h : fires_missile inp s = true) :
    s.missiles_disabled = 0 ∧ (s.fire_missiles inp).missiles_disabled = 5 ∧
    ∃ i, i < num_missiles ∧ (s.sprites (first_missile_sprite + i)).enabled = false ∧
      ((s.fire_missiles inp).sprites (first_missile_sprite + i)).enabled = true := by
  unfold fires_missile at h
  simp only [Bool.and_eq_true, Bool.not_eq_true', decide_eq_false_iff_not, ne_eq,
    not_not] at h
  obtain ⟨⟨h0, hfire⟩, hslot⟩ := h
  obtain ⟨i, hi⟩ := Option.isSome_iff_exists.1 hslot
  obtain ⟨_, hi2, hi3, _⟩ := first_match_some _ _ _ hi
  have hdis : (s.sprites (first_missile_sprite + i)).enabled = false := by
    simpa using hi3
  refine ⟨h0, ?_, i, by omega, hdis, ?_⟩
  · simp [invaderers_app.fire_missiles, h0, hfire, hi, invaderers_app.get_sound_source]
  · simp [invaderers_app.fire_missiles, h0, hfire, hi, invaderers_app.get_sound_source,
      modify_sprites, sprite.set_enabled]

theorem fire_missiles_idle (inp : input) (s : invaderers_app)
    (h : fires_missile inp s = false) :
    (s.fire_missiles inp).sprites = s.sprites ∧
    (s.missiles_disabled = 0 → (s.fire_missiles inp).missiles_disabled = 0) := by
  unfold invaderers_app.fire_missiles
  by_cases h0 : s.missiles_disabled = 0
  · cases hfire : inp.fire_going_down with
    | false => simp [h0]
    | true =>
      cases hfm : first_match (fun i => !(s.sprites (first_missile_sprite + i)).enabled) 0
          num_missiles with
      | none => simp [h0, hfm]
      | some i => simp [fires_missile, h0, hfire, hfm] at h
  · simp [h0]

theorem fire_missiles_cooldown (inp : input) (s : invaderers_app) :
    s.missiles_disabled - 1 ≤ (s.fire_missiles inp).missiles_disabled ∧
    (0 ≤ s.missiles_disabled → s.missiles_disabled ≤ 5 →
      0 ≤ (s.fire_missiles inp).missiles_disabled ∧
      (s.fire_missiles inp).missiles_disabled ≤ 5) := by
  by_cases h0 : s.missiles_disabled = 0
  · cases h : fires_missile inp s with
    | true =>
      rw [(fire_missiles_fires inp s h).2.1, h0]
      exact ⟨by decide, fun _ _ => ⟨by decide, by decide⟩⟩
    | false =>
      rw [(fire_missiles_idle inp s h).2 h0, h0]
      exact ⟨by decide, fun _ _ => ⟨by decide, by decide⟩⟩
  · have e : (s.fire_missiles inp).missiles_disabled = s.missiles_disabled - 1 := by
      simp [invaderers_app.fire_missiles, h0]
    rw [e]
    exact ⟨le_refl _, fun h1 h2 => ⟨by omega, by omega⟩⟩

theorem fire_bombs_cooldown (inp : input) (s : invaderers_app)
    (h1 : 0 ≤ s.bombs_disabled) (h2 : s.bombs_disabled ≤ 50) :
    0 ≤ (s.fire_bombs inp).bombs_disabled ∧ (s.fire_bombs inp).bombs_disabled ≤ 50 := by
  unfold invaderers_app.fire_bombs
  by_cases h0 : s.bombs_disabled = 0
  · simp only [h0, ne_eq, not_true_eq_false, if_false]
    split
    · split
      · simp [invaderers_app.get_sound_source]
      · simp [h0]
    · simp [h0]
  · simp only [h0, ne_eq, not_false_eq_true, if_true]
    exact ⟨by omega, by omega⟩

theorem move_bomb_cooldown (tex : String → Nat) (i : Nat) (s : invaderers_app)
    (h1 : 0 ≤ s.bombs_disabled) (h2 : s.bombs_disabled ≤ 50) :
    0 ≤ (invaderers_app.move_bomb tex i s).bombs_disabled ∧
    (invaderers_app.move_bomb tex i s).bombs_disabled ≤ 50 := by
  cases h : bomb_hits_ship s i with
  | true =>
    rw [(move_bomb_hit_effects tex i s h).2.2.1]
    exact ⟨by decide, by decide⟩
  | false =>
    rw [(move_bomb_miss_effects tex i s h).2.2.2.1]
    exact ⟨h1, h2⟩

/-- In a running frame only `fire_missiles` changes `missiles_disabled`, and the bounds of
`bombs_disabled` are kept. -/
theorem run_frame_cooldown (tex : String → Nat) (inp : input) (s : invaderers_app) :
    (s.run_frame tex inp).missiles_disabled
      = ((s.move_ship inp).fire_missiles inp).missiles_disabled ∧
    (0 ≤ s.bombs_disabled → s.bombs_disabled ≤ 50 →
      0 ≤ (s.run_frame tex inp).bombs_disabled ∧ (s.run_frame tex inp).bombs_disabled ≤ 50) := by
  have hr : s.run_frame tex inp =
    (((((s.move_ship inp).fire_missiles inp).fire_bombs inp).move_missiles tex).move_bombs
      tex).move_swarm := rfl
  rw [hr, move_bombs_eq, move_missiles_eq]
  constructor
  · rw [move_swarm_missiles_disabled, move_bomb_missiles_disabled,
      move_bomb_missiles_disabled, move_missile_missiles_disabled,
      move_missile_missiles_disabled, fire_bombs_missiles_disabled]
  · intro h1 h2
    rw [move_swarm_bombs_disabled]
    apply move_bomb_cooldown
    · apply (move_bomb_cooldown tex 0 _ _ _).1
      all_goals
        rw [move_missile_bombs_disabled, move_missile_bombs_disabled]
        first
        | apply (fire_bombs_cooldown inp _ _ _).1
        | apply (fire_bombs_cooldown inp _ _ _).2
      all_goals
        rw [fire_missiles_bombs_disabled, move_ship_bombs_disabled]
        assumption
    · apply (move_bomb_cooldown tex 0 _ _ _).2
      all_goals
        rw [move_missile_bombs_disabled, move_missile_bombs_disabled]
        first
        | apply (fire_bombs_cooldown inp _ _ _).1
        | apply (fire_bombs_cooldown inp _ _ _).2
      all_goals
        rw [fire_missiles_bombs_disabled, move_ship_bombs_disabled]
        assumption

/-- How `simulate` goes through its branches, in terms of `frame_start` and
`step_restarts`. -/
theorem simulate_frame_start (tex : String → Nat) (inp : input) (s : invaderers_app) :
    (∀ t, frame_start inp s = some t →
      s.simulate tex inp = t.run_frame tex inp ∧
      t.missiles_disabled = s.missiles_disabled ∧ t.bombs_disabled = s.bombs_disabled ∧
      step_restarts inp s = false) ∧
    (frame_start inp s = none → step_restarts inp s = false →
      (s.simulate tex inp).missiles_disabled = s.missiles_disabled ∧
      (s.simulate tex inp).bombs_disabled = s.bombs_disabled) ∧
    (step_restarts inp s = true → s.simulate tex inp = s.app_init tex) := by
  unfold frame_start step_restarts
  cases hover : s.game_over with
  | true =>
    cases hR : inp.key_R with
    | false =>
      rw [simulate_ended tex inp s hover hR]
      simp
    | true =>
      rw [simulate_restart tex inp s hover hR]
      simp
  | false =>
    cases hP : inp.key_P_going_down with
    | true =>
      cases hpaused : s.game_paused with
      | true =>
        rw [simulate_unpause tex inp s hover hpaused hP]
        simp [invaderers_app.modify, hover]
      | false =>
        rw [simulate_pause tex inp s hover hpaused hP]
        simp [invaderers_app.modify]
    | false =>
      cases hpaused : s.game_paused with
      | true =>
        rw [simulate_paused tex inp s hover hpaused hP]
        simp
      | false =>
        rw [simulate_running tex inp s hover hpaused hP]
        simp

theorem simulate_cooldown_bounds (tex : String → Nat) (inp : input) (s : invaderers_app)
    (h1 : 0 ≤ s.missiles_disabled) (h2 : s.missiles_disabled ≤ 5)
    (h3 : 0 ≤ s.bombs_disabled) (h4 : s.bombs_disabled ≤ 50) :
    0 ≤ (s.simulate tex inp).missiles_disabled ∧ (s.simulate tex inp).missiles_disabled ≤ 5 ∧
    0 ≤ (s.simulate tex inp).bombs_disabled ∧ (s.simulate tex inp).bombs_disabled ≤ 50 := by
  obtain ⟨a, b, c⟩ := simulate_frame_start tex inp s
  cases hf : frame_start inp s with
  | some t =>
    obtain ⟨e, m, bd, _⟩ := a t hf
    obtain ⟨r1, r2⟩ := run_frame_cooldown tex inp t
    have hm := (fire_missiles_cooldown inp (t.move_ship inp)).2
      (by rw [move_ship_missiles_disabled, m]; exact h1)
      (by rw [move_ship_missiles_disabled, m]; exact h2)
    have hb := r2 (by rw [bd]; exact h3) (by rw [bd]; exact h4)
    rw [e, r1]
    exact ⟨hm.1, hm.2, hb.1, hb.2⟩
  | none =>
    cases hre : step_restarts inp s with
    | false =>
      obtain ⟨m, bd⟩ := b hf hre
      rw [m, bd]
      exact ⟨h1, h2, h3, h4⟩
    | true =>
      rw [c hre]
      obtain ⟨_, _, _, i4, i5, _⟩ := app_init_effects tex s
      rw [i4, i5]
      exact ⟨by decide, by decide, by decide, by decide⟩

/-- A step that does not restart lowers `missiles_disabled` by at most 1, and not at all
when the phases do not run. -/
theorem simulate_cooldown_step (tex : String → Nat) (inp : input) (s : invaderers_app)
    (hno : step_restarts inp s = false) :
    s.missiles_disabled - ((if (frame_start inp s).isSome then 1 else 0 : Nat) : Int)
      ≤ (s.simulate tex inp).missiles_disabled := by
  obtain ⟨a, b, _⟩ := simulate_frame_start tex inp s
  cases hf : frame_start inp s with
  | some t =>
    obtain ⟨e, m, _, _⟩ := a t hf
    have h := (fire_missiles_cooldown inp (t.move_ship inp)).1
    rw [move_ship_missiles_disabled, m] at h
    rw [e, (run_frame_cooldown tex inp t).1]
    simpa using h
  | none =>
    rw [(b hf hno).1]
    simp

theorem cooldown_lower_bound (tex : String → Nat) (inps : List input) :
    ∀ u : invaderers_app, restarts tex inps u = false →
      u.missiles_disabled - (frames_run tex inps u : Int)
        ≤ (simulate_all tex inps u).missiles_disabled := by
  induction inps with
  | nil =>
    intro u _
    simp [frames_run, simulate_all]
  | cons inp inps ih =>
    intro u hno
    simp only [restarts, Bool.or_eq_false_iff] at hno
    have h1 := simulate_cooldown_step tex inp u hno.1
    have h2 := ih (u.simulate tex inp) hno.2
    simp only [frames_run, simulate_all]
    push_cast at h1 h2 ⊢
    omega

theorem step_fires_cooldown (inp : input) (s : invaderers_app) (h : step_fires inp s = true) :
    s.missiles_disabled = 0 ∧
    ∃ t, frame_start inp s = some t ∧ fires_missile inp (t.move_ship inp) = true := by
  unfold step_fires at h
  cases hf : frame_start inp s with
  | none => simp [hf] at h
  | some t =>
    simp only [hf] at h
    have h0 := (fire_missiles_fires inp _ h).1
    rw [move_ship_missiles_disabled] at h0
    have hm : t.missiles_disabled = s.missiles_disabled := by
      unfold frame_start at hf
      split_ifs at hf
      · cases hf; rfl
      · cases hf; simp [invaderers_app.modify]
    exact ⟨by rw [← hm]; exact h0, t, rfl, h⟩

/-- C23 (amended): the cooldown bounds are kept by every `simulate` step: from
`0 ≤ missiles_disabled ≤ 5` and `0 ≤ bombs_disabled ≤ 50`, which `app_init` establishes
with 0 and 50, the same bounds hold after the step, so neither counter becomes negative.
A step in which a missile is fired leaves `missiles_disabled = 5`, and as long as no step
restarts the game no missile is fired in a step that follows fewer than 5 steps in which
the phases run.  A missile is fired exactly when `fire_missiles` enables a disabled
slot. -/
theorem cooldown_spec (tex : String → Nat) (inp : input) (s : invaderers_app) :
    (0 ≤ s.missiles_disabled → s.missiles_disabled ≤ 5 →
      0 ≤ s.bombs_disabled → s.bombs_disabled ≤ 50 →
      0 ≤ (s.simulate tex inp).missiles_disabled ∧
      (s.simulate tex inp).missiles_disabled ≤ 5 ∧
      0 ≤ (s.simulate tex inp).bombs_disabled ∧
      (s.simulate tex inp).bombs_disabled ≤ 50) ∧
    ((s.app_init tex).missiles_disabled = 0 ∧ (s.app_init tex).bombs_disabled = 50) ∧
    (step_fires inp s = true →
      (s.simulate tex inp).missiles_disabled = 5 ∧
      ∀ (inps : List input) (inp2 : input),
        restarts tex inps (s.simulate tex inp) = false →
        frames_run tex inps (s.simulate tex inp) < 5 →
        step_fires inp2 (simulate_all tex inps (s.simulate tex inp)) = false) ∧
    (∀ t, frame_start inp s = some t → s.simulate tex inp = t.run_frame tex inp) ∧
    (∀ t : invaderers_app, fires_missile inp t = true →
      ∃ i, i < num_missiles ∧ (t.sprites (first_missile_sprite + i)).enabled = false ∧
        ((t.fire_missiles inp).sprites (first_missile_sprite + i)).enabled = true) ∧
    (∀ t : invaderers_app, fires_missile inp t = false →
      (t.fire_missiles inp).sprites = t.sprites) := by
  refine ⟨simulate_cooldown_bounds tex inp s,
    ⟨(app_init_effects tex s).2.2.2.1, (app_init_effects tex s).2.2.2.2.1⟩, ?_,
    fun t ht => ((simulate_frame_start tex inp s).1 t ht).1,
    fun t ht => (fire_missiles_fires inp t ht).2.2,
    fun t ht => (fire_missiles_idle inp t ht).1⟩
  intro hfire
  obtain ⟨_, t, hf, hft⟩ := step_fires_cooldown inp s hfire
  have h5 : (s.simulate tex inp).missiles_disabled = 5 := by
    rw [((simulate_frame_start tex inp s).1 t hf).1, (run_frame_cooldown tex inp t).1]
    exact (fire_missiles_fires inp _ hft).2.1
  refine ⟨h5, ?_⟩
  intro inps inp2 hno hrun
  have hlow := cooldown_lower_bound tex inps (s.simulate tex inp) hno
  rw [h5] at hlow
  cases h2 : step_fires inp2 (simulate_all tex inps (s.simulate tex inp)) with
  | false => rfl
  | true =>
    have h0 := (step_fires_cooldown inp2 _ h2).1
    omega

/-- After a missile is fired from the laid-out playfield, the fire key fires nothing one
running frame later. -/
theorem cooldown_spec_witness :
    step_fires fire_key arena_app = true ∧
    restarts tex1 [no_keys] (arena_app.simulate tex1 fire_key) = false ∧
    frames_run tex1 [no_keys] (arena_app.simulate tex1 fire_key) < 5 ∧
    (arena_app.simulate tex1 fire_key).missiles_disabled = 5 ∧
    step_fires fire_key (simulate_all tex1 [no_keys] (arena_app.simulate tex1 fire_key))
      = false := by
  have hfire : step_fires fire_key arena_app = true := by decide!
  have hno : restarts tex1 [no_keys] (arena_app.simulate tex1 fire_key) = false := by decide!
  have hrun : frames_run tex1 [no_keys] (arena_app.simulate tex1 fire_key) < 5 := by decide!
  have h := (cooldown_spec tex1 fire_key arena_app).2.2.1 hfire
  exact ⟨hfire, hno, hrun, h.1, h.2 [no_keys] fire_key hno hrun⟩

/-- C23 as stated fails across a restart.  A missile is fired in the frame in which a bomb
takes the ship's last life; the next frame restarts the game, which resets
`missiles_disabled` to 0; a missile is fired again in the frame after that, the second
frame after the first shot.  The game is not paused in any of these frames, and no frame
in which the phases run lies between the two shots. -/
theorem restart_resets_cooldown :
    step_fires fire_key last_life_app = true ∧
    (last_life_app.simulate tex1 fire_key).missiles_disabled = 5 ∧
    (last_life_app.simulate tex1 fire_key).game_over = true ∧
    (last_life_app.simulate tex1 fire_key).game_paused = false ∧
    ((last_life_app.simulate tex1 fire_key).simulate tex1 restart_key).game_paused = false ∧
    ((last_life_app.simulate tex1 fire_key).simulate tex1 restart_key).missiles_disabled = 0 ∧
    frames_run tex1 [restart_key] (last_life_app.simulate tex1 fire_key) = 0 ∧
    step_fires fire_key
      (simulate_all tex1 [restart_key] (last_life_app.simulate tex1 fire_key)) = true := by
  decide!

/-! ## The invader grid of `app_init` -/

theorem grid_slot_range (i j : Nat) (hi : i < 10) (hj : j < 5) :
    first_invaderer_sprite ≤ invaderers_app.grid_slot i j ∧
    invaderers_app.grid_slot i j ≤ last_invaderer_sprite := by
  have hidx := sprite_index_values
  have hl : last_invaderer_sprite = 313 := rfl
  unfold invaderers_app.grid_slot num_cols
  omega

theorem grid_slot_inj (i j i2 j2 : Nat) (hi : i < num_cols) (hi2 : i2 < num_cols)
    (h : invaderers_app.grid_slot i j = invaderers_app.grid_slot i2 j2) : i = i2 ∧ j = j2 := by
  unfold invaderers_app.grid_slot at h
  unfold num_cols at h hi hi2
  omega

theorem for_loop_checked_eq {σ : Type} (P : σ → Prop) (body : Nat → σ → Option σ)
    (f : Nat → σ → σ) (n : Nat) (hP : ∀ i t, P t → P (f i t))
    (h : ∀ i t, i < n → P t → body i t = some (f i t)) (s : σ) (hs : P s) :
    for_loop_checked n body s = some (for_loop n f s) := by
  induction n with
  | zero => rfl
  | succ n ih =>
    have ih2 := ih (fun i t hi ht => h i t (Nat.lt_succ_of_lt hi) ht)
    show (for_loop_checked n body s).bind (body n) = some (f n (for_loop n f s))
    rw [ih2, Option.some_bind]
    exact h n _ (Nat.lt_succ_self n) (for_loop_induction P f hP n s hs)

theorem for_loop_induction_lt {σ : Type} (P : Nat → σ → Prop) (body : Nat → σ → σ) (n : Nat)
    (h : ∀ i t, i < n → P i t → P (i + 1) (body i t)) (s : σ) (hs : P 0 s) :
    P n (for_loop n body s) := by
  have key : ∀ m, m ≤ n → P m (for_loop m body s) := by
    intro m
    induction m with
    | zero => intro _; exact hs
    | succ m ih =>
      intro hm
      exact h m _ (by omega) (ih (by omega))
  exact key n (le_refl n)

theorem set_sprite_nCols (s : invaderers_app) (i : Nat) (p : sprite) :
    (s.set_sprite i p).nCols = s.nCols ∧ (s.set_sprite i p).nRows = s.nRows := by
  simp [invaderers_app.set_sprite]

/-- The row loop of the invader grid keeps `nCols` and `nRows`. -/
theorem init_row_levels (g : Nat → sprite) (j n : Nat) (s : invaderers_app) :
    (for_loop n (fun i t => t.set_sprite (invaderers_app.grid_slot i j) (g i)) s).nCols
      = s.nCols ∧
    (for_loop n (fun i t => t.set_sprite (invaderers_app.grid_slot i j) (g i)) s).nRows
      = s.nRows := by
  apply for_loop_induction (fun t : invaderers_app => t.nCols = s.nCols ∧ t.nRows = s.nRows)
  · intro i t ht
    rw [(set_sprite_nCols t _ _).1, (set_sprite_nCols t _ _).2]
    exact ht
  · exact ⟨rfl, rfl⟩

/-- With the level values of `read_csv` the `assert` of the invader loops never fails: the
checked loops give the result of the loops. -/
theorem init_invaders_checked_eq (tex : String → Nat) (s : invaderers_app)
    (hr : s.nRows = 5) (hc : s.nCols = 10) :
    init_invaders_checked tex s = some (init_invaders tex s) := by
  unfold init_invaders_checked init_invaders
  dsimp only
  rw [hr]
  apply for_loop_checked_eq (fun t : invaderers_app => t.nCols = 10)
  · intro j t ht
    rw [(init_row_levels _ j _ t).1]
    exact ht
  · intro j t hj ht
    rw [ht]
    apply for_loop_checked_eq (fun _ : invaderers_app => True)
    · intro _ _ _; trivial
    · intro i u hi _
      have hj5 : j < 5 := hj
      have hi10 : i < 10 := hi
      rw [if_pos (grid_slot_range i j hi10 hj5).2]
    · trivial
  · exact hc

theorem init_invaders_rows (tex : String → Nat) (s : invaderers_app) :
    init_invaders tex s =
      for_loop s.nRows.toNat (fun j t =>
        for_loop t.nCols.toNat (fun i u =>
          u.set_sprite (invaderers_app.grid_slot i j) (invader_at tex i j)) t) s :=
  rfl

/-- One row of the invader grid: columns `0 .. n-1` of row `j` are written, nothing else
is. -/
theorem init_row_sprites (tex : String → Nat) (j n : Nat) (hn : n ≤ num_cols)
    (s : invaderers_app) (k : Nat) :
    ((∀ i, i < n → k ≠ invaderers_app.grid_slot i j) →
      (for_loop n (fun i u =>
        u.set_sprite (invaderers_app.grid_slot i j) (invader_at tex i j)) s).sprites k
        = s.sprites k) ∧
    (∀ i, i < n → k = invaderers_app.grid_slot i j →
      (for_loop n (fun i u =>
        u.set_sprite (invaderers_app.grid_slot i j) (invader_at tex i j)) s).sprites k
        = invader_at tex i j) := by
  induction n with
  | zero => exact ⟨fun _ => rfl, fun i hi => absurd hi (Nat.not_lt_zero i)⟩
  | succ n ih =>
    obtain ⟨ih1, ih2⟩ := ih (by omega)
    have hstep : for_loop (n + 1) (fun i u =>
        u.set_sprite (invaderers_app.grid_slot i j) (invader_at tex i j)) s
        = (for_loop n (fun i u =>
          u.set_sprite (invaderers_app.grid_slot i j) (invader_at tex i j)) s).set_sprite
            (invaderers_app.grid_slot n j) (invader_at tex n j) := rfl
    rw [hstep, set_sprite_sprites]
    constructor
    · intro hk
      rw [if_neg (hk n (Nat.lt_succ_self n))]
      exact ih1 (fun i hi => hk i (Nat.lt_succ_of_lt hi))
    · intro i hi hki
      by_cases hin : i = n
      · rw [hin] at hki ⊢
        rw [if_pos hki]
      · have hne : k ≠ invaderers_app.grid_slot n j := by
          intro h
          rw [hki] at h
          exact hin (grid_slot_inj i j n j (by omega) (by omega) h).1
        rw [if_neg hne]
        exact ih2 i (by omega) hki

/-- The invader loops of `app_init` with the level values of `read_csv`: slot
`grid_slot i j` receives the invader of column `i` and row `j`, and no other sprite is
written. -/
theorem init_invaders_sprites (tex : String → Nat) (s : invaderers_app)
    (hr : s.nRows = 5) (hc : s.nCols = 10) (k : Nat) :
    ((∀ i j, i < 10 → j < 5 → k ≠ invaderers_app.grid_slot i j) →
      (init_invaders tex s).sprites k = s.sprites k) ∧
    (∀ i j, i < 10 → j < 5 → k = invaderers_app.grid_slot i j →
      (init_invaders tex s).sprites k = invader_at tex i j) := by
  rw [init_invaders_rows, hr]
  have key := for_loop_induction_lt
    (fun m (t : invaderers_app) => t.nCols = 10 ∧
      ((∀ i j, i < 10 → j < m → k ≠ invaderers_app.grid_slot i j) →
        t.sprites k = s.sprites k) ∧
      (∀ i j, i < 10 → j < m → k = invaderers_app.grid_slot i j →
        t.sprites k = invader_at tex i j))
    (fun j t =>
      for_loop t.nCols.toNat (fun i u =>
        u.set_sprite (invaderers_app.grid_slot i j) (invader_at tex i j)) t)
    (5 : Int).toNat ?_ s ⟨hc, fun _ => rfl, fun i j _ hj => absurd hj (Nat.not_lt_zero j)⟩
  · exact ⟨key.2.1, key.2.2⟩
  · intro m t hm ht
    obtain ⟨t0, t1, t2⟩ := ht
    dsimp only
    rw [t0]
    obtain ⟨r1, r2⟩ := init_row_sprites tex m 10 (by decide) t k
    refine ⟨?_, ?_, ?_⟩
    · rw [(init_row_levels _ m _ t).1]
      exact t0
    · intro hk
      have e : (Int.toNat 10) = 10 := rfl
      rw [e, r1 (fun i hi => hk i m hi (Nat.lt_succ_self m))]
      exact t1 (fun i j hi hj => hk i j hi (Nat.lt_succ_of_lt hj))
    · intro i j hi hj hkij
      have e : (Int.toNat 10) = 10 := rfl
      rw [e]
      by_cases hjm : j = m
      · rw [hjm] at hkij ⊢
        exact r2 i hi hkij
      · have hne : ∀ i2, i2 < 10 → k ≠ invaderers_app.grid_slot i2 m := by
          intro i2 hi2 h
          rw [hkij] at h
          exact hjm (grid_slot_inj i j i2 m (by unfold num_cols; omega)
            (by unfold num_cols; omega) h).2
        rw [r1 hne]
        exact t2 i j hi (by omega) hkij

theorem init_ship_banners_above (tex : String → Nat) (s : invaderers_app) (k : Nat)
    (hk : first_invaderer_sprite ≤ k) :
    (init_ship_banners tex s).sprites k = s.sprites k := by
  have hidx := sprite_index_values
  unfold init_ship_banners
  dsimp only
  rw [set_sprite_sprites, if_neg (by omega), set_sprite_sprites, if_neg (by omega),
    set_sprite_sprites, if_neg (by omega), set_sprite_sprites, if_neg (by omega),
    set_sprite_sprites, if_neg (by omega)]

theorem init_ship_banners_levels (tex : String → Nat) (s : invaderers_app) :
    (init_ship_banners tex s).nRows = s.nRows ∧ (init_ship_banners tex s).nCols = s.nCols := by
  simp [init_ship_banners, invaderers_app.set_sprite]

/-- In the invader range `app_init` writes what its invader loops write. -/
theorem app_init_invader_slots (tex : String → Nat) (s : invaderers_app) (k : Nat)
    (hk : k ≤ last_invaderer_sprite) :
    (s.app_init tex).sprites k
      = (init_invaders tex (init_ship_banners tex s.read_csv)).sprites k := by
  have hidx := sprite_index_values
  have hl : last_invaderer_sprite = 313 := rfl
  rw [app_init_eq, init_counters_sprites, (init_bombs_frame tex _).2.1 k (by omega),
    (init_missiles_frame tex _).2.1 k (by omega), (init_borders_frame tex _).2 k (by omega),
    (init_walls_frame tex _).2 k (by omega)]

theorem placed_slots_eq (s : invaderers_app) (hr : s.nRows = 5) (hc : s.nCols = 10) :
    placed_slots s = (List.range 5).flatMap (fun j =>
      (List.range 10).map (fun i => invaderers_app.grid_slot i j)) := by
  unfold placed_slots
  rw [hr, hc]
  rfl

theorem mem_placed_slots (s : invaderers_app) (hr : s.nRows = 5) (hc : s.nCols = 10) (k : Nat) :
    k ∈ placed_slots s ↔ ∃ i j, i < 10 ∧ j < 5 ∧ k = invaderers_app.grid_slot i j := by
  rw [placed_slots_eq s hr hc]
  simp only [List.mem_flatMap, List.mem_map, List.mem_range]
  constructor
  · rintro ⟨j, hj, i, hi, h⟩
    exact ⟨i, j, hi, hj, h.symm⟩
  · rintro ⟨i, j, hi, hj, h⟩
    exact ⟨j, hj, i, hi, h.symm⟩

/-- C24: the invader grid of `app_init`.  `read_csv` sets `nRows = 5`, `nCols = 10` and
`nInvaders = 50`.  For every row `j < 5` and column `i < 10` the slot
`first_invaderer_sprite + i + j*num_cols` lies in the invader range, so the `assert` of
the loops never fails (the loops with the assertion give the result of the loops
without it); distinct `(i, j)` give distinct slots; the loops write 50 distinct slots,
which is `nRows * nCols` and the value `nInvaders` that `app_init` gives to
`live_invaderers`.  After `app_init` each of these slots holds its invader and every other
invader slot is as before. -/
theorem app_init_grid_spec (tex : String → Nat) (s : invaderers_app) :
    (s.read_csv).nRows = 5 ∧ (s.read_csv).nCols = 10 ∧ (s.read_csv).nInvaders = 50 ∧
    num_cols = 22 ∧
    (∀ i j, i < 10 → j < 5 →
      invaderers_app.grid_slot i j = first_invaderer_sprite + i + j * num_cols ∧
      first_invaderer_sprite ≤ invaderers_app.grid_slot i j ∧
      invaderers_app.grid_slot i j ≤ last_invaderer_sprite) ∧
    init_invaders_checked tex (init_ship_banners tex s.read_csv)
      = some (init_invaders tex (init_ship_banners tex s.read_csv)) ∧
    (∀ i j i2 j2, i < 10 → j < 5 → i2 < 10 → j2 < 5 →
      invaderers_app.grid_slot i j = invaderers_app.grid_slot i2 j2 → i = i2 ∧ j = j2) ∧
    (∀ k, k ∈ placed_slots (init_ship_banners tex s.read_csv) ↔
      ∃ i j, i < 10 ∧ j < 5 ∧ k = invaderers_app.grid_slot i j) ∧
    (placed_slots (init_ship_banners tex s.read_csv)).Nodup ∧
    ((placed_slots (init_ship_banners tex s.read_csv)).length : Int)
      = (s.read_csv).nRows * (s.read_csv).nCols ∧
    ((placed_slots (init_ship_banners tex s.read_csv)).length : Int)
      = (s.app_init tex).live_invaderers ∧
    (s.app_init tex).live_invaderers = (s.read_csv).nInvaders ∧
    (∀ i j, i < 10 → j < 5 →
      (s.app_init tex).sprites (invaderers_app.grid_slot i j) = invader_at tex i j ∧
      ((s.app_init tex).sprites (invaderers_app.grid_slot i j)).enabled = true) ∧
    (∀ k, first_invaderer_sprite ≤ k → k ≤ last_invaderer_sprite →
      k ∉ placed_slots (init_ship_banners tex s.read_csv) →
      (s.app_init tex).sprites k = s.sprites k) := by
  have hr : (init_ship_banners tex s.read_csv).nRows = 5 := by
    rw [(init_ship_banners_levels tex _).1]; rfl
  have hc : (init_ship_banners tex s.read_csv).nCols = 10 := by
    rw [(init_ship_banners_levels tex _).2]; rfl
  have hlive : (s.app_init tex).live_invaderers = 50 := by
    obtain ⟨_, _, _, _, _, _, _, h8, h9, _⟩ := app_init_effects tex s
    rw [h8, h9]
  have hlen : (placed_slots (init_ship_banners tex s.read_csv)).length = 50 := by
    rw [placed_slots_eq _ hr hc]
    rfl
  refine ⟨rfl, rfl, rfl, rfl, ?_, init_invaders_checked_eq tex _ hr hc, ?_,
    mem_placed_slots _ hr hc, ?_, ?_, ?_, ?_, ?_, ?_⟩
  · intro i j hi hj
    exact ⟨rfl, grid_slot_range i j hi hj⟩
  · intro i j i2 j2 hi _ hi2 _ h
    exact grid_slot_inj i j i2 j2 (by unfold num_cols; omega) (by unfold num_cols; omega) h
  · rw [placed_slots_eq _ hr hc]
    decide
  · rw [hlen]
    rfl
  · rw [hlen, hlive]
    rfl
  · rw [hlive]
    rfl
  · intro i j hi hj
    have h := (init_invaders_sprites tex _ hr hc (invaderers_app.grid_slot i j)).2 i j hi hj rfl
    rw [app_init_invader_slots tex s _ (grid_slot_range i j hi hj).2, h]
    exact ⟨rfl, rfl⟩
  · intro k hk1 hk2 hnot
    rw [app_init_invader_slots tex s k hk2,
      (init_invaders_sprites tex _ hr hc k).1 ?_, init_ship_banners_above tex _ k hk1]
    · rfl
    · intro i j hi hj h
      exact hnot ((mem_placed_slots _ hr hc k).2 ⟨i, j, hi, hj, h⟩)

/-! ## What the collision phases do to the other sprites -/

/-- Two missiles whose centres are as far apart in `y` as the four half-heights involved
do not overlap the same invader. -/
theorem missiles_apart_no_common_invader (m0 m1 v : sprite)
    (h : (m0.halfHeight + v.halfHeight) + (m1.halfHeight + v.halfHeight) ≤ |m0.y - m1.y|) :
    ¬ (m0.collides_with v = true ∧ m1.collides_with v = true) := by
  rintro ⟨h0, h1⟩
  simp only [sprite.collides_with, Bool.and_eq_true, decide_eq_true_eq] at h0 h1
  have a := abs_lt.1 h0.2
  have b := abs_lt.1 h1.2
  rcases abs_cases (m0.y - m1.y) with ⟨e, _⟩ | ⟨e, _⟩ <;> rw [e] at h <;> linarith

theorem move_invaders32_loop (dx dy : ℚ) (s : invaderers_app) : ∀ n : Nat,
    for_loop n (fun j (t : invaderers_app) =>
      if (t.sprites (first_invaderer_sprite + j)).enabled then
        t.modify (first_invaderer_sprite + j) (fun p => p.translate32 dx dy)
      else t) s =
    { s with sprites := fun k =>
        if first_invaderer_sprite ≤ k ∧ k < first_invaderer_sprite + n ∧
            (s.sprites k).enabled = true then
          (s.sprites k).translate32 dx dy
        else s.sprites k } := by
  intro n
  induction n with
  | zero =>
    simp only [for_loop]
    cases s
    simp only [invaderers_app.mk.injEq, true_and]
    funext k
    rw [if_neg (fun h => absurd h.2.1 (by omega))]
  | succ n ih =>
    simp only [for_loop]
    rw [ih]
    cases s with
    | mk a1 a2 a3 a4 a5 a6 a7 a8 a9 a10 a11 a12 a13 sp =>
      simp only [invaderers_app.modify]
      cases hen : (sp (first_invaderer_sprite + n)).enabled with
      | false =>
        simp [hen]
        funext k
        by_cases hk : k = first_invaderer_sprite + n
        · subst hk; simp [hen]
        · have : k < first_invaderer_sprite + (n + 1) ↔ k < first_invaderer_sprite + n := by omega
          simp only [this]
      | true =>
        simp [hen]
        funext k
        by_cases hk : k = first_invaderer_sprite + n
        · subst hk; simp [hen]
        · have : k < first_invaderer_sprite + (n + 1) ↔ k < first_invaderer_sprite + n := by omega
          simp only [this, Function.update_apply, hk, if_false]

theorem move_invaders32_eq (s : invaderers_app) (dx dy : ℚ) :
    s.move_invaders32 dx dy =
    { s with sprites := fun k =>
        if first_invaderer_sprite ≤ k ∧ k < first_missile_sprite ∧
            (s.sprites k).enabled = true then
          (s.sprites k).translate32 dx dy
        else s.sprites k } :=
  move_invaders32_loop dx dy s num_invaderers

theorem move_invaders32_velocity (s : invaderers_app) (dx dy : ℚ) :
    (s.move_invaders32 dx dy).invader_velocity = s.invader_velocity := by
  rw [move_invaders32_eq]

theorem move_invaders32_direction (s : invaderers_app) (dx dy : ℚ) :
    (s.move_invaders32 dx dy).invader_direction = s.invader_direction := by
  rw [move_invaders32_eq]

theorem move_invaders32_sprites (s : invaderers_app) (dx dy : ℚ) (k : Nat) :
    (s.move_invaders32 dx dy).sprites k =
      if first_invaderer_sprite ≤ k ∧ k < first_missile_sprite ∧
          (s.sprites k).enabled = true then
        (s.sprites k).translate32 dx dy
      else s.sprites k := by
  rw [move_invaders32_eq]

theorem move_swarm32_cases (s : invaderers_app) :
    s.move_swarm32 =
      if (swarm_first32 s).invaders_collide32 (border_side s) = true then
        if (swarm_bounced32 s).invaders_collide32 (border_top s) = true then
          swarm_rebounced32 s
        else swarm_bounced32 s
      else swarm_first32 s := by
  unfold swarm_rebounced32 swarm_bounced32 swarm_first32 border_side border_top
  unfold invaderers_app.move_swarm32
  dsimp only
  simp only [move_invaders32_velocity, move_invaders32_direction]

theorem swarm_first32_sprites (s : invaderers_app) (k : Nat) :
    (swarm_first32 s).sprites k =
      if first_invaderer_sprite ≤ k ∧ k < first_missile_sprite ∧
          (s.sprites k).enabled = true then
        (s.sprites k).translate32 s.invader_velocity 0
      else s.sprites k := by
  unfold swarm_first32
  exact move_invaders32_sprites s _ _ k

theorem swarm_bounced32_sprites (s : invaderers_app) (k : Nat) :
    (swarm_bounced32 s).sprites k =
      if first_invaderer_sprite ≤ k ∧ k < first_missile_sprite ∧
          (s.sprites k).enabled = true then
        ((s.sprites k).translate32 s.invader_velocity 0).translate32
          (-s.invader_velocity) s.invader_direction
      else s.sprites k := by
  unfold swarm_bounced32
  rw [move_invaders32_sprites]
  dsimp only
  by_cases h : first_invaderer_sprite ≤ k ∧ k < first_missile_sprite ∧
      (s.sprites k).enabled = true
  · have h' : first_invaderer_sprite ≤ k ∧ k < first_missile_sprite ∧
        ((s.sprites k).translate32 s.invader_velocity 0).enabled = true := h
    rw [swarm_first32_sprites, if_pos h, if_pos h', if_pos h]
  · rw [swarm_first32_sprites, if_neg h, if_neg h, if_neg h]

theorem swarm_rebounced32_sprites (s : invaderers_app) (k : Nat) :
    (swarm_rebounced32 s).sprites k =
      if first_invaderer_sprite ≤ k ∧ k < first_missile_sprite ∧
          (s.sprites k).enabled = true then
        (((s.sprites k).translate32 s.invader_velocity 0).translate32
          (-s.invader_velocity) s.invader_direction).translate32
            (-s.invader_velocity) (-s.invader_direction)
      else s.sprites k := by
  unfold swarm_rebounced32
  rw [move_invaders32_sprites]
  dsimp only
  by_cases h : first_invaderer_sprite ≤ k ∧ k < first_missile_sprite ∧
      (s.sprites k).enabled = true
  · have h' : first_invaderer_sprite ≤ k ∧ k < first_missile_sprite ∧
        (((s.sprites k).translate32 s.invader_velocity 0).translate32
          (-s.invader_velocity) s.invader_direction).enabled = true := h
    rw [swarm_bounced32_sprites, if_pos h, if_pos h', if_pos h]
  · rw [swarm_bounced32_sprites, if_neg h, if_neg h, if_neg h]

theorem swarm32_vars (s : invaderers_app) :
    (swarm_first32 s).invader_velocity = s.invader_velocity ∧
    (swarm_first32 s).invader_direction = s.invader_direction ∧
    (swarm_bounced32 s).invader_velocity = -s.invader_velocity ∧
    (swarm_bounced32 s).invader_direction = s.invader_direction ∧
    (swarm_rebounced32 s).invader_velocity = -s.invader_velocity ∧
    (swarm_rebounced32 s).invader_direction = -s.invader_direction := by
  refine ⟨?_, ?_, ?_, ?_, ?_, ?_⟩
  · unfold swarm_first32; rw [move_invaders32_velocity]
  · unfold swarm_first32; rw [move_invaders32_direction]
  · unfold swarm_bounced32; rw [move_invaders32_velocity]
  · unfold swarm_bounced32 swarm_first32
    rw [move_invaders32_direction]
    dsimp only
    rw [move_invaders32_direction]
  · unfold swarm_rebounced32
    rw [move_invaders32_velocity]
    dsimp only
    unfold swarm_bounced32; rw [move_invaders32_velocity]
  · unfold swarm_rebounced32
    rw [move_invaders32_direction]

theorem translate32_enabled (p : sprite) (x y : ℚ) : (p.translate32 x y).enabled = p.enabled :=
  rfl

/-- The side test of the swarm phase, in terms of the sprites before the phase. -/
theorem swarm_first32_collide (s : invaderers_app) (b : Nat) (hb : first_missile_sprite ≤ b) :
    (swarm_first32 s).invaders_collide32 b =
      (first_match (fun j => (s.sprites (first_invaderer_sprite + j)).enabled &&
        ((s.sprites (first_invaderer_sprite + j)).translate32
          s.invader_velocity 0).collides_with32 (s.sprites b)) 0 num_invaderers).isSome := by
  have hidx := sprite_index_values
  unfold invaderers_app.invaders_collide32
  refine congrArg Option.isSome ?_
  apply first_match_congr
  intro k _ hk
  rw [swarm_first32_sprites s b, if_neg (fun h => absurd h.2.1 (by omega)),
    swarm_first32_sprites s (first_invaderer_sprite + k)]
  cases hen : (s.sprites (first_invaderer_sprite + k)).enabled with
  | false => simp [hen]
  | true => rw [if_pos ⟨by omega, by omega, rfl⟩, translate32_enabled, hen]

/-- The test that follows the side bounce, in terms of the sprites before the phase. -/
theorem swarm_bounced32_collide (s : invaderers_app) (b : Nat)
    (hb : first_missile_sprite ≤ b) :
    (swarm_bounced32 s).invaders_collide32 b =
      (first_match (fun j => (s.sprites (first_invaderer_sprite + j)).enabled &&
        (((s.sprites (first_invaderer_sprite + j)).translate32
          s.invader_velocity 0).translate32 (-s.invader_velocity)
            s.invader_direction).collides_with32 (s.sprites b)) 0 num_invaderers).isSome := by
  have hidx := sprite_index_values
  unfold invaderers_app.invaders_collide32
  refine congrArg Option.isSome ?_
  apply first_match_congr
  intro k _ hk
  rw [swarm_bounced32_sprites s b, if_neg (fun h => absurd h.2.1 (by omega)),
    swarm_bounced32_sprites s (first_invaderer_sprite + k)]
  cases hen : (s.sprites (first_invaderer_sprite + k)).enabled with
  | false => simp [hen]
  | true =>
    rw [if_pos ⟨by omega, by omega, rfl⟩, translate32_enabled, translate32_enabled, hen]

set_option maxRecDepth 100000 in
theorem frame326_side : (swarm_first32 frame326_app).invaders_collide32
    (first_border_sprite + 3) = true := by
  rw [swarm_first32_collide _ _ (by decide)]
  decide!

set_option maxRecDepth 100000 in
theorem frame326_top : (swarm_bounced32 frame326_app).invaders_collide32
    (first_border_sprite + 4) = false := by
  rw [swarm_bounced32_collide _ _ (by decide)]
  decide!

/-- A run of 325 frames, as five runs of 65 frames. -/
theorem swarm_run_325 (v x : ℚ) :
    swarm_run v 325 x
      = swarm_run v 65 (swarm_run v 65 (swarm_run v 65 (swarm_run v 65 (swarm_run v 65 x)))) := by
  unfold swarm_run
  rw [← Function.iterate_add_apply, ← Function.iterate_add_apply,
    ← Function.iterate_add_apply, ← Function.iterate_add_apply]

set_option maxHeartbeats 4000000 in
/-- Column 0 of `app_init` after 325 frames in which the swarm moves right by `v32`. -/
theorem column0_right : swarm_run v32 325 (app_init_x 0) = 16777131 / 33554432 := by
  have e1 : swarm_run v32 65 (app_init_x 0) = -(8808041 / 4194304) := by decide!
  have e2 : swarm_run v32 65 (-(8808041 / 4194304)) = -(3040873 / 2097152) := by decide!
  have e3 : swarm_run v32 65 (-(3040873 / 2097152)) = -(3355451 / 4194304) := by decide!
  have e4 : swarm_run v32 65 (-(3355451 / 4194304)) = -(5033243 / 33554432) := by decide!
  have e5 : swarm_run v32 65 (-(5033243 / 33554432)) = 16777131 / 33554432 := by decide!
  rw [swarm_run_325, e1, e2, e3, e4, e5]

set_option maxHeartbeats 4000000 in
/-- Column 6 of `app_init` after 325 frames in which the swarm moves right by `v32`. -/
theorem column6_right : swarm_run v32 325 (app_init_x 6) = 16777195 / 8388608 := by
  have e1 : swarm_run v32 65 (app_init_x 6) = -(2516585 / 4194304) := by decide!
  have e2 : swarm_run v32 65 (-(2516585 / 4194304)) = 1677691 / 33554432 := by decide!
  have e3 : swarm_run v32 65 (1677691 / 33554432) = 5872015 / 8388608 := by decide!
  have e4 : swarm_run v32 65 (5872015 / 8388608) = 11324605 / 8388608 := by decide!
  have e5 : swarm_run v32 65 (11324605 / 8388608) = 16777195 / 8388608 := by decide!
  rw [swarm_run_325, e1, e2, e3, e4, e5]

set_option maxHeartbeats 4000000 in
/-- Column 9 of `app_init` after 325 frames in which the swarm moves right by `v32`. -/
theorem column9_right : swarm_run v32 325 (app_init_x 9) = 5767163 / 2097152 := by
  have e1 : swarm_run v32 65 (app_init_x 9) = 2516579 / 16777216 := by decide!
  have e2 : swarm_run v32 65 (2516579 / 16777216) = 6710881 / 8388608 := by decide!
  have e3 : swarm_run v32 65 (6710881 / 8388608) = 12163471 / 8388608 := by decide!
  have e4 : swarm_run v32 65 (12163471 / 8388608) = 8808031 / 4194304 := by decide!
  have e5 : swarm_run v32 65 (8808031 / 4194304) = 5767163 / 2097152 := by decide!
  rw [swarm_run_325, e1, e2, e3, e4, e5]

set_option maxHeartbeats 4000000 in
/-- Column 9 after the 325 frames in which the swarm moves back left by `v32`. -/
theorem column9_left : swarm_run (-v32) 325 (5767163 / 2097152) = -(16777211 / 33554432) := by
  have e1 : swarm_run (-v32) 65 (5767163 / 2097152) = 8808031 / 4194304 := by decide!
  have e2 : swarm_run (-v32) 65 (8808031 / 4194304) = 760217 / 524288 := by decide!
  have e3 : swarm_run (-v32) 65 (760217 / 524288) = 3355441 / 4194304 := by decide!
  have e4 : swarm_run (-v32) 65 (3355441 / 4194304) = 10066325 / 67108864 := by decide!
  have e5 : swarm_run (-v32) 65 (10066325 / 67108864) = -(16777211 / 33554432) := by decide!
  rw [swarm_run_325, e1, e2, e3, e4, e5]

set_option maxHeartbeats 4000000 in
/-- Column 9 after 325 more frames to the right, from where the bounce on the left border
leaves it. -/
theorem column9_right_again : swarm_run v32 325 (-(4194303 / 8388608)) = 5767163 / 2097152 := by
  have e1 : swarm_run v32 65 (-(4194303 / 8388608)) = 2516581 / 16777216 := by decide!
  have e2 : swarm_run v32 65 (2516581 / 16777216) = 3355441 / 4194304 := by decide!
  have e3 : swarm_run v32 65 (3355441 / 4194304) = 760217 / 524288 := by decide!
  have e4 : swarm_run v32 65 (760217 / 524288) = 8808031 / 4194304 := by decide!
  have e5 : swarm_run v32 65 (8808031 / 4194304) = 5767163 / 2097152 := by decide!
  rw [swarm_run_325, e1, e2, e3, e4, e5]

/-- The columns of `frame326_app` on which the first bounce turns (column 9 reaches the
right border, columns 0 and 6 are the ones the bounce displaces) are the columns of
`app_init` after 325 frames to the right by `0.01f`, and `v32` is the `float` nearest to
`0.01`. -/
theorem frame326_x_reached :
    v32 = round32 (1 / 100) ∧
    frame326_x 0 = swarm_run v32 325 (app_init_x 0) ∧
    frame326_x 6 = swarm_run v32 325 (app_init_x 6) ∧
    frame326_x 9 = swarm_run v32 325 (app_init_x 9) := by
  rw [column0_right, column6_right, column9_right]
  exact ⟨by decide!, rfl, rfl, rfl⟩

/-- What the swarm phase does in `float` arithmetic when it bounces once. -/
theorem move_swarm32_single (s : invaderers_app)
    (hside : (swarm_first32 s).invaders_collide32 (border_side s) = true)
    (htop : (swarm_bounced32 s).invaders_collide32 (border_top s) = false) :
    (s.move_swarm32).invader_velocity = -s.invader_velocity ∧
    (s.move_swarm32).invader_direction = s.invader_direction ∧
    ∀ j, j < num_invaderers → invader_enabled s j = true →
      (s.move_swarm32).sprites (first_invaderer_sprite + j)
        = ((s.sprites (first_invaderer_sprite + j)).translate32 s.invader_velocity 0).translate32
          (-s.invader_velocity) s.invader_direction := by
  have hidx := sprite_index_values
  obtain ⟨_, _, v3, v4, _, _⟩ := swarm32_vars s
  rw [move_swarm32_cases, if_pos hside, if_neg (by simp [htop])]
  refine ⟨v3, v4, ?_⟩
  intro j hj hen
  rw [swarm_bounced32_sprites, if_pos ⟨by omega, by omega, hen⟩]

/-- What the swarm phase does in `float` arithmetic when it bounces twice. -/
theorem move_swarm32_double (s : invaderers_app)
    (hside : (swarm_first32 s).invaders_collide32 (border_side s) = true)
    (htop : (swarm_bounced32 s).invaders_collide32 (border_top s) = true) :
    (s.move_swarm32).invader_velocity = -s.invader_velocity ∧
    (s.move_swarm32).invader_direction = -s.invader_direction ∧
    ∀ j, j < num_invaderers → invader_enabled s j = true →
      (s.move_swarm32).sprites (first_invaderer_sprite + j)
        = (((s.sprites (first_invaderer_sprite + j)).translate32
            s.invader_velocity 0).translate32
          (-s.invader_velocity) s.invader_direction).translate32
            (-s.invader_velocity) (-s.invader_direction) := by
  have hidx := sprite_index_values
  obtain ⟨_, _, _, _, v5, v6⟩ := swarm32_vars s
  rw [move_swarm32_cases, if_pos hside, if_pos htop]
  refine ⟨v5, v6, ?_⟩
  intro j hj hen
  rw [swarm_rebounced32_sprites, if_pos ⟨by omega, by omega, hen⟩]

/-- C12 (amended): the single bounce on the right border in `float` arithmetic.  With
`invader_velocity = v > 0` and `invader_direction = d < 0`, if after the first move
`(v, 0)` some enabled invader overlaps the right border and after the combined step that
follows no enabled invader overlaps the divider, the swarm phase ends with
`invader_velocity = -v`, `invader_direction = d`, and every enabled invader where the two
`float` translations `(v, 0)` and `(-v, d)` put it: at `x = fl(fl(x0 + v) - v)` and
`y = fl(fl(y0 + 0) + d)`, which is `fl(y0 + d)` when `y0` is a `float`. -/
theorem move_swarm32_bounce_right (s : invaderers_app) (hv : 0 < s.invader_velocity)
    (hd : s.invader_direction < 0)
    (hside : (swarm_first32 s).invaders_collide32 (first_border_sprite + 3) = true)
    (htop : (swarm_bounced32 s).invaders_collide32 (first_border_sprite + 4) = false) :
    (s.move_swarm32).invader_velocity = -s.invader_velocity ∧
    (s.move_swarm32).invader_direction = s.invader_direction ∧
    ∀ j, j < num_invaderers → invader_enabled s j = true →
      (s.move_swarm32).sprites (first_invaderer_sprite + j)
        = ((s.sprites (first_invaderer_sprite + j)).translate32
            s.invader_velocity 0).translate32 (-s.invader_velocity) s.invader_direction ∧
      ((s.move_swarm32).sprites (first_invaderer_sprite + j)).x
        = round32 (round32 ((s.sprites (first_invaderer_sprite + j)).x + s.invader_velocity)
          + -s.invader_velocity) ∧
      ((s.move_swarm32).sprites (first_invaderer_sprite + j)).y
        = round32 (round32 ((s.sprites (first_invaderer_sprite + j)).y + 0)
          + s.invader_direction) ∧
      (round32 (s.sprites (first_invaderer_sprite + j)).y
          = (s.sprites (first_invaderer_sprite + j)).y →
        ((s.move_swarm32).sprites (first_invaderer_sprite + j)).y
          = round32 ((s.sprites (first_invaderer_sprite + j)).y + s.invader_direction)) := by
  have hs : border_side s = first_border_sprite + 3 := by
    unfold border_side
    rw [if_neg (not_lt.2 (le_of_lt hv))]
  have ht : border_top s = first_border_sprite + 4 := by
    unfold border_top
    rw [if_pos hd]
  obtain ⟨a1, a2, a3⟩ := move_swarm32_single s (by rw [hs]; exact hside)
    (by rw [ht]; exact htop)
  refine ⟨a1, a2, ?_⟩
  intro j hj hen
  rw [a3 j hj hen]
  refine ⟨rfl, rfl, rfl, ?_⟩
  intro hy
  show round32 (round32 ((s.sprites (first_invaderer_sprite + j)).y + 0) + s.invader_direction)
    = _
  rw [add_zero, hy]

/-- The first bounce on the right border of a game in which no invader has been destroyed
(frame 326).  The hypotheses of C12 hold, but the invader of column 0 in the top row does
not end at its `x` before the phase: `fl(fl(x0 + v) - v) ≠ x0`. -/
theorem first_bounce_rounding :
    0 < frame326_app.invader_velocity ∧ frame326_app.invader_direction < 0 ∧
    (swarm_first32 frame326_app).invaders_collide32 (first_border_sprite + 3) = true ∧
    (swarm_bounced32 frame326_app).invaders_collide32 (first_border_sprite + 4) = false ∧
    invader_enabled frame326_app 0 = true ∧
    (frame326_app.sprites (first_invaderer_sprite + 0)).x = 16777131 / 33554432 ∧
    ((frame326_app.move_swarm32).sprites (first_invaderer_sprite + 0)).x
      = 4194283 / 8388608 ∧
    ((frame326_app.move_swarm32).sprites (first_invaderer_sprite + 0)).x
      ≠ (frame326_app.sprites (first_invaderer_sprite + 0)).x := by
  have hv : 0 < frame326_app.invader_velocity := by decide!
  have hd : frame326_app.invader_direction < 0 := by decide!
  have hs : border_side frame326_app = first_border_sprite + 3 := by
    unfold border_side
    rw [if_neg (not_lt.2 (le_of_lt hv))]
  have ht : border_top frame326_app = first_border_sprite + 4 := by
    unfold border_top
    rw [if_pos hd]
  have hx : ((frame326_app.move_swarm32).sprites (first_invaderer_sprite + 0)).x
      = 4194283 / 8388608 := by
    rw [(move_swarm32_single frame326_app (by rw [hs]; exact frame326_side)
      (by rw [ht]; exact frame326_top)).2.2 0 (by decide) (by decide!)]
    decide!
  refine ⟨hv, hd, frame326_side, frame326_top, by decide!, by decide!, hx, ?_⟩
  rw [hx]
  decide!

/-- The first bounce on the right border of a game in which no invader has been
destroyed. -/
theorem move_swarm32_bounce_right_witness :
    0 < frame326_app.invader_velocity ∧ frame326_app.invader_direction < 0 ∧
    (swarm_first32 frame326_app).invaders_collide32 (first_border_sprite + 3) = true ∧
    (swarm_bounced32 frame326_app).invaders_collide32 (first_border_sprite + 4) = false ∧
    (frame326_app.move_swarm32).invader_velocity = -frame326_app.invader_velocity ∧
    (frame326_app.move_swarm32).invader_direction = frame326_app.invader_direction :=
  have h := move_swarm32_bounce_right frame326_app (by decide!) (by decide!)
    frame326_side frame326_top
  ⟨by decide!, by decide!, frame326_side, frame326_top, h.1, h.2.1⟩

/-- C19 (amended): the outcomes of the swarm phase in `float` arithmetic, with `v` and `d`
the velocity and the direction at its start.  If the swarm bounces on the side border and
the combined step that follows makes an enabled invader overlap the border selected by the
sign of `d` (divider if negative, top border otherwise), the phase ends with both `v` and
`d` negated and every enabled invader where the three `float` translations `(v, 0)`,
`(-v, d)` and `(-v, -d)` put it: at `x = fl(fl(fl(x0 + v) - v) - v)` and
`y = fl(fl(fl(y0 + 0) + d) - d)`.  If no enabled invader overlaps the side border after
the first move, every enabled invader is displaced by the one `float` translation
`(v, 0)` and `v` and `d` are unchanged.  A disabled invader is never moved. -/
theorem move_swarm32_spec (s : invaderers_app) :
    ((swarm_first32 s).invaders_collide32 (border_side s) = true →
      (swarm_bounced32 s).invaders_collide32 (border_top s) = true →
      (s.move_swarm32).invader_velocity = -s.invader_velocity ∧
      (s.move_swarm32).invader_direction = -s.invader_direction ∧
      ∀ j, j < num_invaderers → invader_enabled s j = true →
        (s.move_swarm32).sprites (first_invaderer_sprite + j)
          = (((s.sprites (first_invaderer_sprite + j)).translate32
              s.invader_velocity 0).translate32
            (-s.invader_velocity) s.invader_direction).translate32
              (-s.invader_velocity) (-s.invader_direction) ∧
        ((s.move_swarm32).sprites (first_invaderer_sprite + j)).x
          = round32 (round32 (round32 ((s.sprites (first_invaderer_sprite + j)).x
            + s.invader_velocity) + -s.invader_velocity) + -s.invader_velocity) ∧
        ((s.move_swarm32).sprites (first_invaderer_sprite + j)).y
          = round32 (round32 (round32 ((s.sprites (first_invaderer_sprite + j)).y + 0)
            + s.invader_direction) + -s.invader_direction)) ∧
    ((swarm_first32 s).invaders_collide32 (border_side s) = false →
      (s.move_swarm32).invader_velocity = s.invader_velocity ∧
      (s.move_swarm32).invader_direction = s.invader_direction ∧
      ∀ j, j < num_invaderers → invader_enabled s j = true →
        (s.move_swarm32).sprites (first_invaderer_sprite + j)
          = (s.sprites (first_invaderer_sprite + j)).translate32 s.invader_velocity 0 ∧
        ((s.move_swarm32).sprites (first_invaderer_sprite + j)).x
          = round32 ((s.sprites (first_invaderer_sprite + j)).x + s.invader_velocity) ∧
        ((s.move_swarm32).sprites (first_invaderer_sprite + j)).y
          = round32 ((s.sprites (first_invaderer_sprite + j)).y + 0)) ∧
    (∀ j, j < num_invaderers → invader_enabled s j = false →
      (s.move_swarm32).sprites (first_invaderer_sprite + j)
        = s.sprites (first_invaderer_sprite + j)) ∧
    (border_side s = first_border_sprite + (if s.invader_velocity < 0 then 2 else 3)) ∧
    (border_top s = first_border_sprite + (if s.invader_direction < 0 then 4 else 1)) := by
  have hidx := sprite_index_values
  obtain ⟨v1, v2, _, _, _, _⟩ := swarm32_vars s
  refine ⟨?_, ?_, ?_, rfl, rfl⟩
  · intro hside htop
    obtain ⟨a1, a2, a3⟩ := move_swarm32_double s hside htop
    refine ⟨a1, a2, ?_⟩
    intro j hj hen
    rw [a3 j hj hen]
    exact ⟨rfl, rfl, rfl⟩
  · intro hside
    rw [move_swarm32_cases, if_neg (by simp [hside])]
    refine ⟨v1, v2, ?_⟩
    intro j hj hen
    rw [swarm_first32_sprites, if_pos ⟨by omega, by omega, hen⟩]
    exact ⟨rfl, rfl, rfl⟩
  · intro j hj hdis
    have hnot : ¬ (first_invaderer_sprite ≤ first_invaderer_sprite + j ∧
        first_invaderer_sprite + j < first_missile_sprite ∧
        (s.sprites (first_invaderer_sprite + j)).enabled = true) := by
      intro h
      have h3 := h.2.2
      unfold invader_enabled at hdis
      rw [hdis] at h3
      cases h3
    rw [move_swarm32_cases]
    split_ifs
    · rw [swarm_rebounced32_sprites, if_neg hnot]
    · rw [swarm_bounced32_sprites, if_neg hnot]
    · rw [swarm_first32_sprites, if_neg hnot]

set_option maxRecDepth 100000 in
theorem frame3260_side : (swarm_first32 frame3260_app).invaders_collide32
    (first_border_sprite + 2) = true := by
  rw [swarm_first32_collide _ _ (by decide)]
  decide!

set_option maxRecDepth 100000 in
theorem frame3260_top : (swarm_bounced32 frame3260_app).invaders_collide32
    (first_border_sprite + 4) = true := by
  rw [swarm_bounced32_collide _ _ (by decide)]
  decide!

/-- The bounce of the swarm in the corner of the left border and the divider. -/
theorem move_swarm32_spec_witness :
    (swarm_first32 frame3260_app).invaders_collide32 (border_side frame3260_app) = true ∧
    (swarm_bounced32 frame3260_app).invaders_collide32 (border_top frame3260_app) = true ∧
    (frame3260_app.move_swarm32).invader_velocity = -frame3260_app.invader_velocity ∧
    (frame3260_app.move_swarm32).invader_direction = -frame3260_app.invader_direction := by
  have hs : border_side frame3260_app = first_border_sprite + 2 := by decide!
  have ht : border_top frame3260_app = first_border_sprite + 4 := by decide!
  have h1 : (swarm_first32 frame3260_app).invaders_collide32 (border_side frame3260_app)
      = true := by
    rw [hs]; exact frame3260_side
  have h2 : (swarm_bounced32 frame3260_app).invaders_collide32 (border_top frame3260_app)
      = true := by
    rw [ht]; exact frame3260_top
  have h := (move_swarm32_spec frame3260_app).1 h1 h2
  exact ⟨h1, h2, h.1, h.2.1⟩

/-- The first bounce on the divider of a game in which no invader has been destroyed
(frame 3260, the swarm moving left).  The phase bounces on the left border and on the
divider, but the invader of column 9 in the top row does not end at its `x` before the
phase displaced by `-v`, neither exactly nor as a `float` sum. -/
theorem double_bounce_rounding :
    (swarm_first32 frame3260_app).invaders_collide32 (border_side frame3260_app) = true ∧
    (swarm_bounced32 frame3260_app).invaders_collide32 (border_top frame3260_app) = true ∧
    invader_enabled frame3260_app 9 = true ∧
    (frame3260_app.sprites (first_invaderer_sprite + 9)).x = -(16777211 / 33554432) ∧
    ((frame3260_app.move_swarm32).sprites (first_invaderer_sprite + 9)).x
      = -(4110417 / 8388608) ∧
    ((frame3260_app.move_swarm32).sprites (first_invaderer_sprite + 9)).x
      ≠ (frame3260_app.sprites (first_invaderer_sprite + 9)).x
        + -frame3260_app.invader_velocity ∧
    ((frame3260_app.move_swarm32).sprites (first_invaderer_sprite + 9)).x
      ≠ round32 ((frame3260_app.sprites (first_invaderer_sprite + 9)).x
        + -frame3260_app.invader_velocity) := by
  have hs : border_side frame3260_app = first_border_sprite + 2 := by decide!
  have ht : border_top frame3260_app = first_border_sprite + 4 := by decide!
  have h1 : (swarm_first32 frame3260_app).invaders_collide32 (border_side frame3260_app)
      = true := by
    rw [hs]; exact frame3260_side
  have h2 : (swarm_bounced32 frame3260_app).invaders_collide32 (border_top frame3260_app)
      = true := by
    rw [ht]; exact frame3260_top
  have hx : ((frame3260_app.move_swarm32).sprites (first_invaderer_sprite + 9)).x
      = -(4110417 / 8388608) := by
    rw [(move_swarm32_double frame3260_app h1 h2).2.2 9 (by decide) (by decide!)]
    decide!
  refine ⟨h1, h2, by decide!, by decide!, hx, ?_, ?_⟩
  · rw [hx]
    decide!
  · rw [hx]
    decide!

/-- Column 9 of `frame3260_app` is column 9 of `app_init` after the first 3259 frames of a
game in which no invader is destroyed: four laps between the side borders, 325 frames to
the right, the bounce on the right border, and 325 frames to the left. -/
theorem frame3260_x_reached :
    frame3260_x 9
      = swarm_run (-v32) 325 (swarm_turn v32 (swarm_run v32 325
          (swarm_lap (swarm_lap (swarm_lap (swarm_lap (app_init_x 9))))))) := by
  have h1 := column9_right
  have h2 : swarm_turn v32 (5767163 / 2097152) = 5767163 / 2097152 := by decide!
  have h3 := column9_left
  have h4 : swarm_turn (-v32) (-(16777211 / 33554432)) = -(4194303 / 8388608) := by decide!
  have h5 := column9_right_again
  have lap0 : swarm_lap (app_init_x 9) = -(4194303 / 8388608) := by
    unfold swarm_lap
    rw [h1, h2, h3, h4]
  have lap1 : swarm_lap (-(4194303 / 8388608)) = -(4194303 / 8388608) := by
    unfold swarm_lap
    rw [h5, h2, h3, h4]
  rw [lap0, lap1, lap1, lap1, h5, h2, h3]
  rfl

end octet
